import Mathlib

/-!
# ROI transform of the image-preview screen

A shallow embedding of the geometry in
`Main Prototype/resort/resort-app/src/screens/ImagePreviewScreen.js`:
the contain-fit layout computed in the `Image.getSize` success callback, the
drag and resize handlers of the two pan responders, and `computeRoiParams`.

Modelling conventions.

* JavaScript numbers are read in two ways.  In the exact reading they are
  rationals (`ℚ`); the decimal literals `0.8`, `0.95`, `0.65`, `0.05`, `0.55`,
  `0.9` stand for the decimal fractions they denote.  `Math.max` and
  `Math.min` are `max` and `min`.  Division agrees with JavaScript whenever
  the divisor is nonzero.
* In the binary64 reading (namespaces `Binary64` and
  `ImagePreviewScreen.Double`) a number is the rational value of an IEEE 754
  double: every arithmetic operation is the exact operation followed by
  rounding to the nearest value with a 53-bit significand, ties to even
  (`Binary64.rnd`), and a decimal literal is the rounding of its decimal
  fraction.  Comparisons, `Math.max` and `Math.min` are exact.  The exponent
  is unbounded: overflow, subnormal numbers, `NaN` and division by zero are
  outside the model.  Theorems that hold only in the exact reading say so.
* The component state (`useState` cells and the refs mirroring them) is one
  record; every handler is a function from state to state.  The refs
  `roiCenterRef`, `roiDiameterRef` and `imageLayoutRef` are synchronised with
  the state cells by the `useEffect` hooks, so the handlers read the state
  fields directly.
* `SCREEN_WIDTH` and `SCREEN_HEIGHT` come from `Dimensions.get('window')` at
  run time and are parameters (`Window`).
-/

namespace ImagePreviewScreen

/-! ## Data model -/

/-- The result of `Dimensions.get('window')`. -/
structure Window where
  width : ℚ
  height : ℚ
deriving DecidableEq, Repr

def TOP_BAR_HEIGHT : ℚ := 90

def BOTTOM_BAR_HEIGHT : ℚ := 100

def SCREEN_WIDTH (w : Window) : ℚ := w.width

def SCREEN_HEIGHT (w : Window) : ℚ := w.height

def IMAGE_AREA_HEIGHT (w : Window) : ℚ :=
  SCREEN_HEIGHT w - TOP_BAR_HEIGHT - BOTTOM_BAR_HEIGHT

/-- The object `{ displayWidth, displayHeight, offsetX, offsetY }` stored in
`imageLayout`. -/
structure Layout where
  displayWidth : ℚ
  displayHeight : ℚ
  offsetX : ℚ
  offsetY : ℚ
deriving DecidableEq, Repr

/-- An `{ x, y }` pair (`roiCenter`, `dragStartRef.current`). -/
structure Point where
  x : ℚ
  y : ℚ
deriving DecidableEq, Repr

/-- The component state: the `useState` cells `imageLayout`, `roiCenter`,
`roiDiameter` (with their refs) and the refs `dragStartRef`,
`resizeStartRef`. -/
structure State where
  imageLayout : Option Layout
  roiCenter : Point
  roiDiameter : ℚ
  dragStart : Point
  resizeStart : ℚ
deriving DecidableEq, Repr

/-- The object returned by `computeRoiParams`. -/
structure RoiParams where
  roi_x_percent : ℚ
  roi_y_percent : ℚ
  roi_width_percent : ℚ
  roi_height_percent : ℚ
deriving DecidableEq, Repr

/-! ## Layout computation (`Image.getSize` success callback, lines 49-68) -/

/-- The layout computed by the success callback from the image size and the
area `areaWidth` x `areaHeight` (in the component: `SCREEN_WIDTH` and
`IMAGE_AREA_HEIGHT`). -/
def computeLayout (imgWidth imgHeight areaWidth areaHeight : ℚ) : Layout :=
  let imageAspect := imgWidth / imgHeight
  let areaAspect := areaWidth / areaHeight
  let displayWidth :=
    if imageAspect > areaAspect then areaWidth else areaHeight * imageAspect
  let displayHeight :=
    if imageAspect > areaAspect then areaWidth / imageAspect else areaHeight
  let offsetX := (areaWidth - displayWidth) / 2
  let offsetY := (areaHeight - displayHeight) / 2
  { displayWidth := displayWidth, displayHeight := displayHeight,
    offsetX := offsetX, offsetY := offsetY }

/-- The initial component state (lines 25-39). -/
def initialState (w : Window) : State :=
  { imageLayout := none
    roiCenter := { x := SCREEN_WIDTH w / 2, y := IMAGE_AREA_HEIGHT w / 2 }
    roiDiameter := SCREEN_WIDTH w * (55 / 100)
    dragStart := { x := 0, y := 0 }
    resizeStart := 0 }

/-- The whole success callback of `Image.getSize` (lines 49-77): store the
layout and centre the ROI on the image. -/
def onGetSize (w : Window) (s : State) (imgWidth imgHeight : ℚ) : State :=
  let layout := computeLayout imgWidth imgHeight (SCREEN_WIDTH w) (IMAGE_AREA_HEIGHT w)
  let diameter := min layout.displayWidth layout.displayHeight * (65 / 100)
  { s with
    imageLayout := some layout
    roiCenter := { x := layout.offsetX + layout.displayWidth / 2,
                   y := layout.offsetY + layout.displayHeight / 2 }
    roiDiameter := diameter }

/-! ## The contain fit as the specification words it -/

/-- The contain fit of the specification (section 4.1): compare the two
aspect ratios, constrain the width or the height, centre with the offsets. -/
def specContainFit (imgW imgH areaW areaH : ℚ) : Layout :=
  let imageAspect := imgW / imgH
  let areaAspect := areaW / areaH
  if imageAspect > areaAspect then
    { displayWidth := areaW
      displayHeight := areaW / imageAspect
      offsetX := (areaW - areaW) / 2
      offsetY := (areaH - areaW / imageAspect) / 2 }
  else
    { displayWidth := areaH * imageAspect
      displayHeight := areaH
      offsetX := (areaW - areaH * imageAspect) / 2
      offsetY := (areaH - areaH) / 2 }

/-! ## Clamping and the gesture handlers (lines 82-147) -/

/-- Source function `clampCenter` (lines 83-91): clamp the ROI centre so that the circle stays
within the image bounds; the identity while no layout is known. -/
def clampCenter (imageLayout : Option Layout) (x y diameter : ℚ) : Point :=
  match imageLayout with
  | none => { x := x, y := y }
  | some layout =>
    let r := diameter / 2
    { x := max (layout.offsetX + r) (min (layout.offsetX + layout.displayWidth - r) x)
      y := max (layout.offsetY + r) (min (layout.offsetY + layout.displayHeight - r) y) }

/-- Handler `movePanResponder.onPanResponderGrant` (lines 99-101). -/
def movePanResponder.onPanResponderGrant (s : State) : State :=
  { s with dragStart := s.roiCenter }

/-- Handler `movePanResponder.onPanResponderMove` (lines 102-115), with the gesture
deltas `gs.dx`, `gs.dy`. -/
def movePanResponder.onPanResponderMove (s : State) (dx dy : ℚ) : State :=
  let newX := s.dragStart.x + dx
  let newY := s.dragStart.y + dy
  match s.imageLayout with
  | some layout =>
    let r := s.roiDiameter / 2
    { s with
      roiCenter :=
        { x := max (layout.offsetX + r) (min (layout.offsetX + layout.displayWidth - r) newX)
          y := max (layout.offsetY + r) (min (layout.offsetY + layout.displayHeight - r) newY) } }
  | none => { s with roiCenter := { x := newX, y := newY } }

/-- Handler `resizePanResponder.onPanResponderGrant` (lines 124-126). -/
def resizePanResponder.onPanResponderGrant (s : State) : State :=
  { s with resizeStart := s.roiDiameter }

/-- Handler `resizePanResponder.onPanResponderMove` (lines 127-145), with the gesture
deltas `gs.dx`, `gs.dy`. -/
def resizePanResponder.onPanResponderMove (w : Window) (s : State) (dx dy : ℚ) : State :=
  let delta := (dx + dy) * (8 / 10)
  let maxSize :=
    match s.imageLayout with
    | some layout => min layout.displayWidth layout.displayHeight * (95 / 100)
    | none => SCREEN_WIDTH w * (9 / 10)
  let newDiameter := max 80 (min maxSize (s.resizeStart + delta))
  let center := s.roiCenter
  match s.imageLayout with
  | some layout =>
    let r := newDiameter / 2
    { s with
      roiDiameter := newDiameter
      roiCenter :=
        { x := max (layout.offsetX + r) (min (layout.offsetX + layout.displayWidth - r) center.x)
          y := max (layout.offsetY + r) (min (layout.offsetY + layout.displayHeight - r) center.y) } }
  | none => { s with roiDiameter := newDiameter }

/-- The drag and resize events delivered by the two pan responders. -/
inductive Event where
  | dragGrant
  | dragMove (dx dy : ℚ)
  | resizeGrant
  | resizeMove (dx dy : ℚ)
deriving DecidableEq, Repr

/-- One event, handled by the responder it belongs to. -/
def step (w : Window) (s : State) : Event → State
  | Event.dragGrant => movePanResponder.onPanResponderGrant s
  | Event.dragMove dx dy => movePanResponder.onPanResponderMove s dx dy
  | Event.resizeGrant => resizePanResponder.onPanResponderGrant s
  | Event.resizeMove dx dy => resizePanResponder.onPanResponderMove w s dx dy

/-- A sequence of events, handled one after the other. -/
def run (w : Window) (s : State) (es : List Event) : State :=
  es.foldl (step w) s

/-- The whole circle of the selection lies inside the rectangle of `layout`. -/
def CircleInside (layout : Layout) (s : State) : Prop :=
  layout.offsetX ≤ s.roiCenter.x - s.roiDiameter / 2 ∧
  s.roiCenter.x + s.roiDiameter / 2 ≤ layout.offsetX + layout.displayWidth ∧
  layout.offsetY ≤ s.roiCenter.y - s.roiDiameter / 2 ∧
  s.roiCenter.y + s.roiDiameter / 2 ≤ layout.offsetY + layout.displayHeight

instance (layout : Layout) (s : State) : Decidable (CircleInside layout s) := by
  unfold CircleInside
  infer_instance

/-- The value of `newDiameter` in the resize handler when a layout is known
(lines 128-133). -/
def resizedDiameter (L : Layout) (resizeStart dx dy : ℚ) : ℚ :=
  max 80 (min (min L.displayWidth L.displayHeight * (95 / 100))
    (resizeStart + (dx + dy) * (8 / 10)))

/-! ## Percentage projection (`computeRoiParams`, lines 150-171) -/

/-- The composite `parseFloat(v.toFixed(4))`: `toFixed` takes the sign off, picks the
integer `n` with `n / 10^4` nearest to the value (the larger of two nearest)
and prints it with four decimals.  (The branch of `toFixed` for values of
`10^21` and more is not modelled; the arguments here are clamped to `[0, 1]`.) -/
def toFixed4 (v : ℚ) : ℚ :=
  if v < 0 then -((⌊-v * 10000 + 1 / 2⌋ : ℤ) : ℚ) / 10000
  else ((⌊v * 10000 + 1 / 2⌋ : ℤ) : ℚ) / 10000

/-- The four clamped locals `roi_x_percent`, ..., `roi_height_percent` of
`computeRoiParams` (lines 152-163), before rounding. -/
def clampedRoi (layout : Layout) (roiCenter : Point) (roiDiameter : ℚ) : RoiParams :=
  let roiLeft := roiCenter.x - roiDiameter / 2
  let roiTop := roiCenter.y - roiDiameter / 2
  let relativeLeft := roiLeft - layout.offsetX
  let relativeTop := roiTop - layout.offsetY
  { roi_x_percent := max 0 (min 1 (relativeLeft / layout.displayWidth))
    roi_y_percent := max 0 (min 1 (relativeTop / layout.displayHeight))
    roi_width_percent := max (5 / 100) (min 1 (roiDiameter / layout.displayWidth))
    roi_height_percent := max (5 / 100) (min 1 (roiDiameter / layout.displayHeight)) }

/-- Source function `computeRoiParams` (lines 150-171): `none` is the `null` result. -/
def computeRoiParams (s : State) : Option RoiParams :=
  match s.imageLayout with
  | none => none
  | some layout =>
    let p := clampedRoi layout s.roiCenter s.roiDiameter
    some
      { roi_x_percent := toFixed4 p.roi_x_percent
        roi_y_percent := toFixed4 p.roi_y_percent
        roi_width_percent := toFixed4 p.roi_width_percent
        roi_height_percent := toFixed4 p.roi_height_percent }

/-! ## The projection as the specification words it (section 4.4) -/

/-- Clamp of the glossary: saturate at the nearest bound of `[lo, hi]`. -/
def specClamp (v lo hi : ℚ) : ℚ :=
  if v < lo then lo else if hi < v then hi else v

/-- Rounding to four decimal places: the nearest multiple of `1 / 10000`. -/
def specRound4 (v : ℚ) : ℚ :=
  (round (v * 10000) : ℚ) / 10000

/-- The projection `project(Selection, ImageLayout)` of section 4.4. -/
def specProject (centerX centerY diameter : ℚ) (layout : Layout) : RoiParams :=
  let roiLeft := centerX - diameter / 2
  let roiTop := centerY - diameter / 2
  let relLeft := roiLeft - layout.offsetX
  let relTop := roiTop - layout.offsetY
  { roi_x_percent := specRound4 (specClamp (relLeft / layout.displayWidth) 0 1)
    roi_y_percent := specRound4 (specClamp (relTop / layout.displayHeight) 0 1)
    roi_width_percent := specRound4 (specClamp (diameter / layout.displayWidth) (5 / 100) 1)
    roi_height_percent := specRound4 (specClamp (diameter / layout.displayHeight) (5 / 100) 1) }

/-! ## The resize rule as the specification words it (section 4.3) -/

/-- The bound `maxSize` of section 4.3: `min(displayWidth, displayHeight) *
0.95` if the layout is known, else `Viewport.width * 0.9`. -/
def specMaxSize (layout : Option Layout) (viewportWidth : ℚ) : ℚ :=
  match layout with
  | some l => min l.displayWidth l.displayHeight * (95 / 100)
  | none => viewportWidth * (9 / 10)

/-- The diameter after a resize event as section 4.3 words it: the candidate
`resizeStartDiameter + (dx + dy) * 0.8`, computed into `[80, maxSize]` as
`max(80, min(maxSize, candidate))`. -/
def specResizeDiameter (layout : Option Layout) (viewportWidth resizeStartDiameter dx dy : ℚ) :
    ℚ :=
  max 80 (min (specMaxSize layout viewportWidth) (resizeStartDiameter + (dx + dy) * (8 / 10)))

/-! ## Gesture recognition of the drag responder (lines 94-101) -/

/-- Handler `movePanResponder.onStartShouldSetPanResponder` (line 96). -/
def movePanResponder.onStartShouldSetPanResponder : Bool := true

/-- Handler `movePanResponder.onMoveShouldSetPanResponder` (lines 97-98),
with the gesture deltas `gs.dx`, `gs.dy` since the touch started. -/
def movePanResponder.onMoveShouldSetPanResponder (dx dy : ℚ) : Bool :=
  decide (|dx| > 2) || decide (|dy| > 2)

/-- What the drag responder knows of one touch that started on the circle:
whether it has become the responder, and the component state. -/
structure DragTouch where
  isResponder : Bool
  state : State
deriving DecidableEq, Repr

/-- The events of one touch: its start, and a move with the deltas since the
start. -/
inductive TouchEvent where
  | start
  | move (dx dy : ℚ)
deriving DecidableEq, Repr

/-- The responder negotiation of React Native's `PanResponder` for a touch
on the circle, as far as it calls the handlers of `movePanResponder`: at the
touch start the view becomes the responder if `onStartShouldSetPanResponder`
answers true; while it is not the responder, a move asks
`onMoveShouldSetPanResponder`; becoming the responder calls
`onPanResponderGrant`; a move of the responder calls `onPanResponderMove`. -/
def movePanResponder.handle (t : DragTouch) : TouchEvent → DragTouch
  | TouchEvent.start =>
    if movePanResponder.onStartShouldSetPanResponder then
      { isResponder := true, state := movePanResponder.onPanResponderGrant t.state }
    else { isResponder := false, state := t.state }
  | TouchEvent.move dx dy =>
    if t.isResponder then
      { isResponder := true, state := movePanResponder.onPanResponderMove t.state dx dy }
    else if movePanResponder.onMoveShouldSetPanResponder dx dy then
      { isResponder := true
        state := movePanResponder.onPanResponderMove
          (movePanResponder.onPanResponderGrant t.state) dx dy }
    else t

end ImagePreviewScreen

/-!
# API client (`services/api.js` of both prototypes)

The request parameters of `analyzeBottle`: the choice `roiParams || {...}` and
the query string built by `toQueryString`.  JavaScript strings are modelled
as `String`; `String(value)` on a number depends on the double
representation and is a parameter `numberToString`.
-/

namespace Api

/-- The marks that `encodeURIComponent` leaves unescaped besides letters and
digits: `- _ . ! ~ * ' ( )`. -/
def unescapedMarks : List Char :=
  ['-', '_', '.', '!', '~', '*', Char.ofNat 39, '(', ')']

/-- The characters that `encodeURIComponent` leaves unescaped. -/
def isUnescaped (c : Char) : Bool :=
  c.isAlphanum || unescapedMarks.contains c

def hexDigit (n : Nat) : Char :=
  "0123456789ABCDEF".data.getD n '0'

/-- One escaped byte, `%XX`. -/
def percentByte (b : Nat) : List Char :=
  ['%', hexDigit (b / 16), hexDigit (b % 16)]

def utf8Bytes (c : Char) : List Nat :=
  (String.utf8EncodeChar c).map UInt8.toNat

/-- The builtin `encodeURIComponent`: every character that is not unescaped
is replaced by the escaped bytes of its UTF-8 encoding. -/
def encodeURIComponent (s : String) : String :=
  String.mk (s.data.flatMap fun c =>
    if isUnescaped c then [c] else (utf8Bytes c).flatMap percentByte)

/-- The builtin `Object.entries` on a ROI parameter object: the four fields
in insertion order. -/
def entries (paramsObj : ImagePreviewScreen.RoiParams) : List (String × ℚ) :=
  [("roi_x_percent", paramsObj.roi_x_percent),
   ("roi_y_percent", paramsObj.roi_y_percent),
   ("roi_width_percent", paramsObj.roi_width_percent),
   ("roi_height_percent", paramsObj.roi_height_percent)]

/-- The local function `toQueryString` (Main lines 39-45, Rapid lines 14-20;
the same text in both files). -/
def toQueryString (numberToString : ℚ → String)
    (paramsObj : ImagePreviewScreen.RoiParams) : String :=
  "&".intercalate
    ((entries paramsObj).map fun kv =>
      encodeURIComponent kv.1 ++ "=" ++ encodeURIComponent (numberToString kv.2))

/-- The local `params` of `analyzeBottle` in the Main prototype (lines 47-53);
`none` is `roiParams = null`. -/
def Main.params (roiParams : Option ImagePreviewScreen.RoiParams) :
    ImagePreviewScreen.RoiParams :=
  match roiParams with
  | some p => p
  | none =>
    { roi_x_percent := 175 / 1000
      roi_y_percent := 175 / 1000
      roi_width_percent := 65 / 100
      roi_height_percent := 65 / 100 }

/-- The local `queryString` of `analyzeBottle` in the Main prototype
(line 55). -/
def Main.queryString (numberToString : ℚ → String)
    (roiParams : Option ImagePreviewScreen.RoiParams) : String :=
  toQueryString numberToString (Main.params roiParams)

/-- The local `params` of `analyzeBottle` in the Rapid prototype (lines
22-28); `none` is `roiParams = null`. -/
def Rapid.params (roiParams : Option ImagePreviewScreen.RoiParams) :
    ImagePreviewScreen.RoiParams :=
  match roiParams with
  | some p => p
  | none =>
    { roi_x_percent := 25 / 100
      roi_y_percent := 25 / 100
      roi_width_percent := 5 / 10
      roi_height_percent := 5 / 10 }

/-- The local `queryString` of `analyzeBottle` in the Rapid prototype
(line 30). -/
def Rapid.queryString (numberToString : ℚ → String)
    (roiParams : Option ImagePreviewScreen.RoiParams) : String :=
  toQueryString numberToString (Rapid.params roiParams)

end Api

/-!
# Settings screen (`screens/SettingsScreen.js`)

The URL check and clean-up of `handleSave` and `handleTest`.
-/

namespace SettingsScreen

/-- The code points that `String.prototype.trim` removes: white space and
line terminators. -/
def isTrimSpace (c : Char) : Bool :=
  [9, 10, 11, 12, 13, 32, 160, 5760, 8232, 8233, 8239, 8287, 12288, 65279].contains c.toNat ||
    (8192 ≤ c.toNat && c.toNat ≤ 8202)

/-- The builtin `String.prototype.trim`. -/
def trim (s : String) : String :=
  String.mk ((s.data.dropWhile isTrimSpace).reverse.dropWhile isTrimSpace).reverse

/-- The line terminators, which `.` of a regular expression does not match. -/
def isLineTerminator (c : Char) : Bool :=
  [10, 13, 8232, 8233].contains c.toNat

/-- The test of the regular expression `^https:\/\/.+`: the text begins with
`https://` and a character other than a line terminator follows. -/
def httpsRegexTest (s : String) : Bool :=
  "https://".data.isPrefixOf s.data &&
    (match s.data.drop 8 with
     | c :: _ => !isLineTerminator c
     | [] => false)

/-- Source function `isValidHttps` (lines 35-36). -/
def isValidHttps (value : String) : Bool :=
  httpsRegexTest (trim value)

/-- The replacement `.replace(/\/+$/, '')`: the run of slashes at the end of
the text is removed. -/
def stripTrailingSlashes (s : String) : String :=
  String.mk (s.data.reverse.dropWhile fun c => c == '/').reverse

/-- Source function `handleSave` (lines 40-52) on the text of the input
field: the URL it passes to `setApiUrl`, or `none` when it shows the alert
and returns without saving. -/
def handleSave (url : String) : Option String :=
  let trimmed := trim url
  if !isValidHttps trimmed then none
  else
    let cleaned := stripTrailingSlashes trimmed
    some cleaned

/-- Source function `handleTest` (lines 54-81) on the text of the input
field: the base URL whose `/health` it fetches, or `none` when it shows the
alert and returns. -/
def handleTest (url : String) : Option String :=
  let trimmed := stripTrailingSlashes (trim url)
  if !isValidHttps trimmed then none
  else some trimmed

/-- The text begins with `https://`. -/
def startsWithHttps (s : String) : Bool :=
  "https://".data.isPrefixOf s.data

/-- The text ends with a slash. -/
def endsWithSlash (s : String) : Bool :=
  s.data.getLast? == some '/'

end SettingsScreen

/-!
# Binary64 arithmetic

JavaScript numbers are IEEE 754 binary64 values.  `Binary64.rnd` rounds an
exact value to the nearest binary64 value (ties to even); every arithmetic
operation of the program is the exact operation followed by `rnd`.  The
exponent range is not bounded: overflow to infinity, subnormal numbers and
NaN are outside this model, which agrees with the program wherever every
intermediate value is zero or of normal magnitude and no divisor is zero.
-/

namespace Binary64

/-- The nearest integer, the even one of two nearest. -/
def roundHalfEven (y : ℚ) : ℤ :=
  if y - ⌊y⌋ < 1 / 2 then ⌊y⌋
  else if 1 / 2 < y - ⌊y⌋ then ⌊y⌋ + 1
  else if ⌊y⌋ % 2 = 0 then ⌊y⌋ else ⌊y⌋ + 1

/-- The exponent of the last place of the 53-bit significand of a value of
the magnitude of `x`. -/
def ulpExponent (x : ℚ) : ℤ :=
  Int.log 2 |x| - 52

/-- Rounding to the nearest binary64 value, ties to even. -/
def rnd (x : ℚ) : ℚ :=
  if x = 0 then 0
  else (roundHalfEven (x / 2 ^ ulpExponent x) : ℚ) * 2 ^ ulpExponent x

/-- The sum `a + b` of two numbers as the program evaluates it. -/
def add (a b : ℚ) : ℚ := rnd (a + b)

/-- The difference `a - b` as the program evaluates it. -/
def sub (a b : ℚ) : ℚ := rnd (a - b)

/-- The product `a * b` as the program evaluates it. -/
def mul (a b : ℚ) : ℚ := rnd (a * b)

/-- The quotient `a / b` as the program evaluates it (`b` nonzero). -/
def div (a b : ℚ) : ℚ := rnd (a / b)

end Binary64

/-!
# The image-preview screen over binary64

The same source lines as in `ImagePreviewScreen`, with every `+`, `-`, `*`
and `/` evaluated in binary64 and every decimal literal read as the nearest
binary64 value.  `Math.max`, `Math.min` and the comparisons are exact.
-/

namespace ImagePreviewScreen.Double

open Binary64

def IMAGE_AREA_HEIGHT (w : Window) : ℚ :=
  sub (sub (SCREEN_HEIGHT w) TOP_BAR_HEIGHT) BOTTOM_BAR_HEIGHT

/-- The layout computed by the `Image.getSize` success callback (lines
49-68). -/
def computeLayout (imgWidth imgHeight areaWidth areaHeight : ℚ) : Layout :=
  let imageAspect := div imgWidth imgHeight
  let areaAspect := div areaWidth areaHeight
  let displayWidth :=
    if imageAspect > areaAspect then areaWidth else mul areaHeight imageAspect
  let displayHeight :=
    if imageAspect > areaAspect then div areaWidth imageAspect else areaHeight
  let offsetX := div (sub areaWidth displayWidth) 2
  let offsetY := div (sub areaHeight displayHeight) 2
  { displayWidth := displayWidth, displayHeight := displayHeight,
    offsetX := offsetX, offsetY := offsetY }

/-- The initial component state (lines 25-39). -/
def initialState (w : Window) : State :=
  { imageLayout := none
    roiCenter := { x := div (SCREEN_WIDTH w) 2, y := div (IMAGE_AREA_HEIGHT w) 2 }
    roiDiameter := mul (SCREEN_WIDTH w) (rnd (55 / 100))
    dragStart := { x := 0, y := 0 }
    resizeStart := 0 }

/-- The whole success callback of `Image.getSize` (lines 49-77). -/
def onGetSize (w : Window) (s : State) (imgWidth imgHeight : ℚ) : State :=
  let layout := computeLayout imgWidth imgHeight (SCREEN_WIDTH w) (IMAGE_AREA_HEIGHT w)
  let diameter := mul (min layout.displayWidth layout.displayHeight) (rnd (65 / 100))
  { s with
    imageLayout := some layout
    roiCenter := { x := add layout.offsetX (div layout.displayWidth 2),
                   y := add layout.offsetY (div layout.displayHeight 2) }
    roiDiameter := diameter }

/-- Source function `clampCenter` (lines 83-91). -/
def clampCenter (imageLayout : Option Layout) (x y diameter : ℚ) : Point :=
  match imageLayout with
  | none => { x := x, y := y }
  | some layout =>
    let r := div diameter 2
    { x := max (add layout.offsetX r) (min (sub (add layout.offsetX layout.displayWidth) r) x)
      y := max (add layout.offsetY r) (min (sub (add layout.offsetY layout.displayHeight) r) y) }

/-- Handler `movePanResponder.onPanResponderMove` (lines 102-115). -/
def movePanResponder.onPanResponderMove (s : State) (dx dy : ℚ) : State :=
  let newX := add s.dragStart.x dx
  let newY := add s.dragStart.y dy
  match s.imageLayout with
  | some layout =>
    let r := div s.roiDiameter 2
    { s with
      roiCenter :=
        { x := max (add layout.offsetX r)
            (min (sub (add layout.offsetX layout.displayWidth) r) newX)
          y := max (add layout.offsetY r)
            (min (sub (add layout.offsetY layout.displayHeight) r) newY) } }
  | none => { s with roiCenter := { x := newX, y := newY } }

/-- The bound `maxSize` of the resize handler (lines 130-132). -/
def maxSize (w : Window) (imageLayout : Option Layout) : ℚ :=
  match imageLayout with
  | some layout => mul (min layout.displayWidth layout.displayHeight) (rnd (95 / 100))
  | none => mul (SCREEN_WIDTH w) (rnd (9 / 10))

/-- Handler `resizePanResponder.onPanResponderMove` (lines 127-145). -/
def resizePanResponder.onPanResponderMove (w : Window) (s : State) (dx dy : ℚ) : State :=
  let delta := mul (add dx dy) (rnd (8 / 10))
  let newDiameter := max 80 (min (maxSize w s.imageLayout) (add s.resizeStart delta))
  let center := s.roiCenter
  match s.imageLayout with
  | some layout =>
    let r := div newDiameter 2
    { s with
      roiDiameter := newDiameter
      roiCenter :=
        { x := max (add layout.offsetX r)
            (min (sub (add layout.offsetX layout.displayWidth) r) center.x)
          y := max (add layout.offsetY r)
            (min (sub (add layout.offsetY layout.displayHeight) r) center.y) } }
  | none => { s with roiDiameter := newDiameter }

/-- The four clamped locals of `computeRoiParams` (lines 152-163), before
`toFixed`. -/
def clampedRoi (layout : Layout) (roiCenter : Point) (roiDiameter : ℚ) : RoiParams :=
  let roiLeft := sub roiCenter.x (div roiDiameter 2)
  let roiTop := sub roiCenter.y (div roiDiameter 2)
  let relativeLeft := sub roiLeft layout.offsetX
  let relativeTop := sub roiTop layout.offsetY
  { roi_x_percent := max 0 (min 1 (div relativeLeft layout.displayWidth))
    roi_y_percent := max 0 (min 1 (div relativeTop layout.displayHeight))
    roi_width_percent := max (rnd (5 / 100)) (min 1 (div roiDiameter layout.displayWidth))
    roi_height_percent := max (rnd (5 / 100)) (min 1 (div roiDiameter layout.displayHeight)) }

/-- Source function `computeRoiParams` (lines 150-171): `toFixed(4)` works
on the exact value of the number, `parseFloat` reads the decimal back as the
nearest binary64 value. -/
def computeRoiParams (s : State) : Option RoiParams :=
  match s.imageLayout with
  | none => none
  | some layout =>
    let p := clampedRoi layout s.roiCenter s.roiDiameter
    some
      { roi_x_percent := rnd (toFixed4 p.roi_x_percent)
        roi_y_percent := rnd (toFixed4 p.roi_y_percent)
        roi_width_percent := rnd (toFixed4 p.roi_width_percent)
        roi_height_percent := rnd (toFixed4 p.roi_height_percent) }

/-- The projection of section 4.4 with its formulas evaluated in binary64:
each quotient clamped, rounded to four decimal places and stored as a
number. -/
def specProject (centerX centerY diameter : ℚ) (layout : Layout) : RoiParams :=
  let roiLeft := sub centerX (div diameter 2)
  let roiTop := sub centerY (div diameter 2)
  let relLeft := sub roiLeft layout.offsetX
  let relTop := sub roiTop layout.offsetY
  { roi_x_percent := rnd (specRound4 (specClamp (div relLeft layout.displayWidth) 0 1))
    roi_y_percent := rnd (specRound4 (specClamp (div relTop layout.displayHeight) 0 1))
    roi_width_percent :=
      rnd (specRound4 (specClamp (div diameter layout.displayWidth) (rnd (5 / 100)) 1))
    roi_height_percent :=
      rnd (specRound4 (specClamp (div diameter layout.displayHeight) (rnd (5 / 100)) 1)) }

/-- The whole circle of the selection lies inside the rectangle of `layout`
up to the slack `(|offset| + display size) / 2 ^ 50` on each axis. -/
def CircleNearInside (layout : Layout) (s : State) : Prop :=
  layout.offsetX - (|layout.offsetX| + layout.displayWidth) / 2 ^ (50 : ℕ) ≤
    s.roiCenter.x - s.roiDiameter / 2 ∧
  s.roiCenter.x + s.roiDiameter / 2 ≤
    layout.offsetX + layout.displayWidth +
      (|layout.offsetX| + layout.displayWidth) / 2 ^ (50 : ℕ) ∧
  layout.offsetY - (|layout.offsetY| + layout.displayHeight) / 2 ^ (50 : ℕ) ≤
    s.roiCenter.y - s.roiDiameter / 2 ∧
  s.roiCenter.y + s.roiDiameter / 2 ≤
    layout.offsetY + layout.displayHeight +
      (|layout.offsetY| + layout.displayHeight) / 2 ^ (50 : ℕ)

end ImagePreviewScreen.Double

/-! # Binary64 rounding: evaluation, monotonicity, error bound -/

namespace Binary64

theorem roundHalfEven_eq (y : ℚ) (n : ℤ) (h1 : (n : ℚ) - 1 / 2 < y) (h2 : y < n + 1 / 2) :
    roundHalfEven y = n := by
  unfold roundHalfEven
  rcases le_or_lt (n : ℚ) y with h | h
  · have hf : ⌊y⌋ = n := Int.floor_eq_iff.mpr ⟨h, by linarith⟩
    rw [hf, if_pos (by linarith)]
  · have hf : ⌊y⌋ = n - 1 := Int.floor_eq_iff.mpr ⟨by push_cast; linarith, by push_cast; linarith⟩
    rw [hf]
    push_cast
    rw [if_neg (by linarith), if_pos (by linarith)]
    ring

theorem ulpExponent_eq (x : ℚ) (e : ℤ) (hlo : (2 : ℚ) ^ e ≤ |x|) (hhi : |x| < (2 : ℚ) ^ (e + 1)) :
    ulpExponent x = e - 52 := by
  have hpos : 0 < |x| := lt_of_lt_of_le (by positivity) hlo
  have h1 : e ≤ Int.log 2 |x| := by
    rw [← Int.zpow_le_iff_le_log (by norm_num) hpos]
    exact_mod_cast hlo
  have h2 : Int.log 2 |x| < e + 1 := by
    rw [← Int.lt_zpow_iff_log_lt (by norm_num) hpos]
    exact_mod_cast hhi
  unfold ulpExponent
  omega

theorem rnd_eq (x : ℚ) (e n : ℤ) (hlo : (2 : ℚ) ^ e ≤ |x|) (hhi : |x| < (2 : ℚ) ^ (e + 1))
    (h1 : (n : ℚ) - 1 / 2 < x / 2 ^ (e - 52)) (h2 : x / 2 ^ (e - 52) < n + 1 / 2) :
    rnd x = n * 2 ^ (e - 52) := by
  have hx : x ≠ 0 := by
    intro h
    rw [h, abs_zero] at hlo
    exact absurd hlo (not_le.mpr (by positivity))
  unfold rnd
  rw [if_neg hx, ulpExponent_eq x e hlo hhi, roundHalfEven_eq _ n h1 h2]

theorem rnd_eq_pos (x : ℚ) (e n : ℤ) (hlo : (2 : ℚ) ^ e ≤ x) (hhi : x < (2 : ℚ) ^ (e + 1))
    (h1 : (n : ℚ) - 1 / 2 < x / 2 ^ (e - 52)) (h2 : x / 2 ^ (e - 52) < n + 1 / 2) :
    rnd x = n * 2 ^ (e - 52) := by
  have hpos : 0 < x := lt_of_lt_of_le (by positivity) hlo
  exact rnd_eq x e n (by rwa [abs_of_pos hpos]) (by rwa [abs_of_pos hpos]) h1 h2

theorem rnd_eq_neg (x : ℚ) (e n : ℤ) (hlo : (2 : ℚ) ^ e ≤ -x) (hhi : -x < (2 : ℚ) ^ (e + 1))
    (h1 : (n : ℚ) - 1 / 2 < x / 2 ^ (e - 52)) (h2 : x / 2 ^ (e - 52) < n + 1 / 2) :
    rnd x = n * 2 ^ (e - 52) := by
  have hneg : x < 0 := by
    have : 0 < -x := lt_of_lt_of_le (by positivity) hlo
    linarith
  exact rnd_eq x e n (by rwa [abs_of_neg hneg]) (by rwa [abs_of_neg hneg]) h1 h2

theorem rnd_zero : rnd 0 = 0 := by
  simp [rnd]

/-- The rounded integer is within one half of the value. -/
theorem roundHalfEven_near (y : ℚ) :
    (roundHalfEven y : ℚ) - 1 / 2 ≤ y ∧ y ≤ roundHalfEven y + 1 / 2 := by
  have h1 : (⌊y⌋ : ℚ) ≤ y := Int.floor_le y
  have h2 : y < ⌊y⌋ + 1 := Int.lt_floor_add_one y
  unfold roundHalfEven
  split_ifs with a b c
  · constructor <;> linarith
  · push_cast
    constructor <;> linarith
  · constructor <;> linarith
  · push_cast
    constructor <;> linarith

/-- An integer rounds to itself. -/
theorem roundHalfEven_intCast (n : ℤ) : roundHalfEven (n : ℚ) = n := by
  apply roundHalfEven_eq <;> linarith

theorem roundHalfEven_mono {y1 y2 : ℚ} (h : y1 ≤ y2) : roundHalfEven y1 ≤ roundHalfEven y2 := by
  by_contra hcon
  have hlt : roundHalfEven y2 + 1 ≤ roundHalfEven y1 := by omega
  have hq : (roundHalfEven y2 : ℚ) + 1 ≤ roundHalfEven y1 := by exact_mod_cast hlt
  obtain ⟨a1, _⟩ := roundHalfEven_near y1
  obtain ⟨_, b2⟩ := roundHalfEven_near y2
  have e : y1 = y2 := le_antisymm h (by linarith)
  rw [e] at hcon
  exact hcon le_rfl

/-- Rounding is odd. -/
theorem roundHalfEven_neg (y : ℚ) : roundHalfEven (-y) = -roundHalfEven y := by
  by_cases ht : y - ⌊y⌋ = 1 / 2
  · -- a tie: both round to the even neighbour
    have hy : y = ⌊y⌋ + 1 / 2 := by linarith
    have hf : ⌊-y⌋ = -⌊y⌋ - 1 := by
      rw [Int.floor_eq_iff]
      push_cast
      constructor <;> linarith
    unfold roundHalfEven
    rw [hf]
    push_cast
    have e1 : -y - (-(⌊y⌋ : ℚ) - 1) = 1 / 2 := by linarith
    rw [e1, ht]
    simp only [lt_self_iff_false, if_false]
    split_ifs <;> omega
  · -- no tie: the nearest integer is unique
    apply roundHalfEven_eq
    · obtain ⟨a, b⟩ := roundHalfEven_near y
      push_cast
      rcases lt_or_eq_of_le b with h | h
      · linarith
      · exfalso
        -- y = r + 1/2 forces the tie
        have hr : ⌊y⌋ = roundHalfEven y := by
          rw [Int.floor_eq_iff]
          constructor <;> linarith
        apply ht
        rw [hr]
        linarith
    · obtain ⟨a, b⟩ := roundHalfEven_near y
      push_cast
      rcases lt_or_eq_of_le a with h | h
      · linarith
      · exfalso
        have hr : ⌊y⌋ = roundHalfEven y - 1 := by
          rw [Int.floor_eq_iff]
          push_cast
          constructor <;> linarith
        apply ht
        rw [hr]
        push_cast
        linarith

theorem ulpExponent_neg (x : ℚ) : ulpExponent (-x) = ulpExponent x := by
  simp [ulpExponent]

theorem rnd_neg (x : ℚ) : rnd (-x) = -rnd x := by
  unfold rnd
  by_cases h : x = 0
  · simp [h]
  · rw [if_neg h, if_neg (neg_ne_zero.mpr h), ulpExponent_neg, neg_div, roundHalfEven_neg]
    push_cast
    ring

/-- The scale of a positive value: `2 ^ e ≤ x < 2 ^ (e + 1)` for `e = log2 x`. -/
theorem scale_bounds (x : ℚ) (hx : 0 < x) :
    (2 : ℚ) ^ (ulpExponent x + 52) ≤ x ∧ x < (2 : ℚ) ^ (ulpExponent x + 52 + 1) := by
  have e : ulpExponent x + 52 = Int.log 2 |x| := by
    unfold ulpExponent
    ring
  rw [e, abs_of_pos hx]
  constructor
  · exact_mod_cast Int.zpow_log_le_self (b := 2) (by norm_num) hx
  · exact_mod_cast Int.lt_zpow_succ_log_self (b := 2) (by norm_num) x

theorem two_zpow_pos (k : ℤ) : (0 : ℚ) < 2 ^ k := by positivity

/-- For a positive value the scaled value lies in `[2 ^ 52, 2 ^ 53)`. -/
theorem scaled_bounds (x : ℚ) (hx : 0 < x) :
    (2 : ℚ) ^ (52 : ℕ) ≤ x / 2 ^ ulpExponent x ∧ x / 2 ^ ulpExponent x < (2 : ℚ) ^ (53 : ℕ) := by
  obtain ⟨h1, h2⟩ := scale_bounds x hx
  have hs := two_zpow_pos (ulpExponent x)
  have e1 : (2 : ℚ) ^ (ulpExponent x + 52) = 2 ^ ulpExponent x * 2 ^ (52 : ℕ) := by
    rw [zpow_add₀ (by norm_num : (2 : ℚ) ≠ 0)]
    norm_cast
  have e2 : (2 : ℚ) ^ (ulpExponent x + 52 + 1) = 2 ^ ulpExponent x * 2 ^ (53 : ℕ) := by
    rw [add_assoc, zpow_add₀ (by norm_num : (2 : ℚ) ≠ 0)]
    norm_cast
  rw [e1] at h1
  rw [e2] at h2
  constructor
  · rw [le_div_iff₀ hs]
    linarith
  · rw [div_lt_iff₀ hs]
    linarith

theorem rnd_pos_bounds (x : ℚ) (hx : 0 < x) :
    (2 : ℚ) ^ (ulpExponent x + 52) ≤ rnd x ∧ rnd x ≤ (2 : ℚ) ^ (ulpExponent x + 52 + 1) := by
  obtain ⟨h1, h2⟩ := scaled_bounds x hx
  have hs := two_zpow_pos (ulpExponent x)
  have r1 : ((2 : ℤ) ^ (52 : ℕ)) ≤ roundHalfEven (x / 2 ^ ulpExponent x) := by
    have := roundHalfEven_mono h1
    have c : ((2 : ℚ) ^ (52 : ℕ)) = (((2 : ℤ) ^ (52 : ℕ) : ℤ) : ℚ) := by norm_cast
    rw [c, roundHalfEven_intCast] at this
    exact this
  have r2 : roundHalfEven (x / 2 ^ ulpExponent x) ≤ ((2 : ℤ) ^ (53 : ℕ)) := by
    have := roundHalfEven_mono h2.le
    have c : ((2 : ℚ) ^ (53 : ℕ)) = (((2 : ℤ) ^ (53 : ℕ) : ℤ) : ℚ) := by norm_cast
    rw [c, roundHalfEven_intCast] at this
    exact this
  have q1 : ((2 : ℚ) ^ (52 : ℕ)) ≤ (roundHalfEven (x / 2 ^ ulpExponent x) : ℚ) := by
    exact_mod_cast r1
  have q2 : (roundHalfEven (x / 2 ^ ulpExponent x) : ℚ) ≤ ((2 : ℚ) ^ (53 : ℕ)) := by
    exact_mod_cast r2
  have e1 : (2 : ℚ) ^ (ulpExponent x + 52) = 2 ^ (52 : ℕ) * 2 ^ ulpExponent x := by
    rw [zpow_add₀ (by norm_num : (2 : ℚ) ≠ 0), mul_comm]
    norm_cast
  have e2 : (2 : ℚ) ^ (ulpExponent x + 52 + 1) = 2 ^ (53 : ℕ) * 2 ^ ulpExponent x := by
    rw [add_assoc, zpow_add₀ (by norm_num : (2 : ℚ) ≠ 0), mul_comm]
    norm_cast
  unfold rnd
  rw [if_neg hx.ne', e1, e2]
  exact ⟨mul_le_mul_of_nonneg_right q1 hs.le, mul_le_mul_of_nonneg_right q2 hs.le⟩

theorem rnd_nonneg (x : ℚ) (hx : 0 ≤ x) : 0 ≤ rnd x := by
  rcases hx.lt_or_eq with h | h
  · exact le_trans (two_zpow_pos _).le (rnd_pos_bounds x h).1
  · rw [← h, rnd_zero]

theorem rnd_mono_pos {x y : ℚ} (hx : 0 < x) (h : x ≤ y) : rnd x ≤ rnd y := by
  have hy : 0 < y := lt_of_lt_of_le hx h
  have hlog : ulpExponent x ≤ ulpExponent y := by
    unfold ulpExponent
    have := Int.log_mono_right (b := 2) (by rwa [abs_of_pos hx] : 0 < |x|)
      (by rwa [abs_of_pos hx, abs_of_pos hy] : |x| ≤ |y|)
    omega
  rcases hlog.lt_or_eq with hlt | heq
  · have b1 := (rnd_pos_bounds x hx).2
    have b2 := (rnd_pos_bounds y hy).1
    have : (2 : ℚ) ^ (ulpExponent x + 52 + 1) ≤ 2 ^ (ulpExponent y + 52) :=
      zpow_le_zpow_right₀ (by norm_num) (by omega)
    linarith
  · unfold rnd
    rw [if_neg hx.ne', if_neg hy.ne', heq]
    have hs := two_zpow_pos (ulpExponent y)
    have : roundHalfEven (x / 2 ^ ulpExponent y) ≤ roundHalfEven (y / 2 ^ ulpExponent y) :=
      roundHalfEven_mono (div_le_div_of_nonneg_right h hs.le)
    have q : (roundHalfEven (x / 2 ^ ulpExponent y) : ℚ) ≤
        (roundHalfEven (y / 2 ^ ulpExponent y) : ℚ) := by exact_mod_cast this
    exact mul_le_mul_of_nonneg_right q hs.le

/-- Rounding to binary64 is monotone. -/
theorem rnd_mono {x y : ℚ} (h : x ≤ y) : rnd x ≤ rnd y := by
  rcases lt_trichotomy 0 x with hx | hx | hx
  · exact rnd_mono_pos hx h
  · rw [← hx, rnd_zero]
    exact rnd_nonneg y (by linarith)
  · rcases lt_or_le y 0 with hy | hy
    · have := rnd_mono_pos (x := -y) (y := -x) (by linarith) (by linarith)
      rw [rnd_neg, rnd_neg] at this
      linarith
    · have h1 : rnd x ≤ 0 := by
        have := rnd_nonneg (-x) (by linarith)
        rw [rnd_neg] at this
        linarith
      exact le_trans h1 (rnd_nonneg y hy)

/-- The relative error of rounding is at most `2 ^ (-53)`. -/
theorem rnd_error (x : ℚ) : |rnd x - x| ≤ |x| / 2 ^ (53 : ℕ) := by
  by_cases hx : x = 0
  · simp [hx, rnd_zero]
  · have hpos : 0 < |x| := abs_pos.mpr hx
    have hs := two_zpow_pos (ulpExponent x)
    have hlo : (2 : ℚ) ^ (ulpExponent x + 52) ≤ |x| := by
      have := (scale_bounds |x| hpos).1
      rwa [show ulpExponent |x| = ulpExponent x by simp [ulpExponent]] at this
    have e1 : (2 : ℚ) ^ (ulpExponent x + 52) = 2 ^ ulpExponent x * 2 ^ (52 : ℕ) := by
      rw [zpow_add₀ (by norm_num : (2 : ℚ) ≠ 0)]
      norm_cast
    rw [e1] at hlo
    obtain ⟨a, b⟩ := roundHalfEven_near (x / 2 ^ ulpExponent x)
    have key : rnd x - x =
        ((roundHalfEven (x / 2 ^ ulpExponent x) : ℚ) - x / 2 ^ ulpExponent x) *
          2 ^ ulpExponent x := by
      unfold rnd
      rw [if_neg hx]
      field_simp
    rw [key, abs_mul, abs_of_pos hs]
    have habs : |(roundHalfEven (x / 2 ^ ulpExponent x) : ℚ) - x / 2 ^ ulpExponent x| ≤ 1 / 2 := by
      rw [abs_le]
      constructor <;> linarith
    rw [le_div_iff₀ (by positivity)]
    calc |(roundHalfEven (x / 2 ^ ulpExponent x) : ℚ) - x / 2 ^ ulpExponent x| *
          2 ^ ulpExponent x * 2 ^ (53 : ℕ)
        ≤ 1 / 2 * 2 ^ ulpExponent x * 2 ^ (53 : ℕ) := by
          apply mul_le_mul_of_nonneg_right _ (by positivity)
          exact mul_le_mul_of_nonneg_right habs hs.le
      _ = 2 ^ ulpExponent x * 2 ^ (52 : ℕ) := by norm_num; ring
      _ ≤ |x| := hlo

theorem rnd_pos (x : ℚ) (hx : 0 < x) : 0 < rnd x :=
  lt_of_lt_of_le (two_zpow_pos _) (rnd_pos_bounds x hx).1

theorem rnd_nonpos (x : ℚ) (hx : x ≤ 0) : rnd x ≤ 0 := by
  have := rnd_nonneg (-x) (by linarith)
  rw [rnd_neg] at this
  linarith

theorem rnd_one : rnd 1 = 1 := by
  rw [rnd_eq_pos 1 0 4503599627370496 (by norm_num) (by norm_num) (by norm_num) (by norm_num)]
  norm_num

/-- A nonnegative value grows by at most the factor `1 + 2 ^ (-53)`. -/
theorem rnd_le_of_nonneg (x : ℚ) (hx : 0 ≤ x) : rnd x ≤ x * (1 + 1 / 2 ^ (53 : ℕ)) := by
  have h := rnd_error x
  rw [abs_of_nonneg hx, abs_le] at h
  have e : x * (1 + 1 / 2 ^ (53 : ℕ)) = x + x / 2 ^ (53 : ℕ) := by ring
  rw [e]
  linarith [h.2]

/-- A nonnegative value shrinks by at most the factor `1 - 2 ^ (-53)`. -/
theorem rnd_ge_of_nonneg (x : ℚ) (hx : 0 ≤ x) : x * (1 - 1 / 2 ^ (53 : ℕ)) ≤ rnd x := by
  have h := rnd_error x
  rw [abs_of_nonneg hx, abs_le] at h
  have e : x * (1 - 1 / 2 ^ (53 : ℕ)) = x - x / 2 ^ (53 : ℕ) := by ring
  rw [e]
  linarith [h.1]

/-- A nonpositive value moves away from zero by at most the factor
`1 + 2 ^ (-53)`. -/
theorem rnd_ge_of_nonpos (x : ℚ) (hx : x ≤ 0) : x * (1 + 1 / 2 ^ (53 : ℕ)) ≤ rnd x := by
  have h := rnd_le_of_nonneg (-x) (by linarith)
  rw [rnd_neg] at h
  linarith

theorem sub_self_eq (a : ℚ) : sub a a = 0 := by
  simp [sub, rnd_zero]

theorem zero_div_eq (b : ℚ) : div 0 b = 0 := by
  simp [div, rnd_zero]

end Binary64

namespace ImagePreviewScreen

/-! ## Layout theorems -/

theorem computeLayout_wide (imgW imgH areaW areaH : ℚ)
    (h : imgW / imgH > areaW / areaH) :
    computeLayout imgW imgH areaW areaH =
      { displayWidth := areaW
        displayHeight := areaW / (imgW / imgH)
        offsetX := (areaW - areaW) / 2
        offsetY := (areaH - areaW / (imgW / imgH)) / 2 } := by
  simp [computeLayout, h]

theorem computeLayout_tall (imgW imgH areaW areaH : ℚ)
    (h : ¬ imgW / imgH > areaW / areaH) :
    computeLayout imgW imgH areaW areaH =
      { displayWidth := areaH * (imgW / imgH)
        displayHeight := areaH
        offsetX := (areaW - areaH * (imgW / imgH)) / 2
        offsetY := (areaH - areaH) / 2 } := by
  simp [computeLayout, h]

/-- In the width-constrained branch the scaled height fits the area. -/
theorem wide_height_le (imgW imgH areaW areaH : ℚ)
    (hiw : 0 < imgW) (hih : 0 < imgH) (hah : 0 < areaH)
    (h : imgW / imgH > areaW / areaH) :
    areaW / (imgW / imgH) ≤ areaH := by
  have ha : 0 < imgW / imgH := div_pos hiw hih
  rw [div_le_iff₀ ha]
  have := (div_lt_iff₀ hah).mp h
  linarith [mul_comm areaH (imgW / imgH)]

/-- In the height-constrained branch the scaled width fits the area. -/
theorem tall_width_le (imgW imgH areaW areaH : ℚ)
    (hah : 0 < areaH)
    (h : ¬ imgW / imgH > areaW / areaH) :
    areaH * (imgW / imgH) ≤ areaW := by
  have h1 : imgW / imgH ≤ areaW / areaH := not_lt.mp h
  have := (le_div_iff₀ hah).mp h1
  linarith [mul_comm areaH (imgW / imgH)]

/-- Over exact rationals: for positive image and area dimensions the computed
layout is a sub-rectangle of the area. -/
theorem computeLayout_within_area_exact (imgW imgH areaW areaH : ℚ)
    (hiw : 0 < imgW) (hih : 0 < imgH) (haw : 0 < areaW) (hah : 0 < areaH) :
    0 ≤ (computeLayout imgW imgH areaW areaH).offsetX ∧
    0 ≤ (computeLayout imgW imgH areaW areaH).offsetY ∧
    (computeLayout imgW imgH areaW areaH).offsetX +
      (computeLayout imgW imgH areaW areaH).displayWidth ≤ areaW ∧
    (computeLayout imgW imgH areaW areaH).offsetY +
      (computeLayout imgW imgH areaW areaH).displayHeight ≤ areaH ∧
    (computeLayout imgW imgH areaW areaH).displayWidth ≤ areaW ∧
    (computeLayout imgW imgH areaW areaH).displayHeight ≤ areaH := by
  have _ := haw
  by_cases h : imgW / imgH > areaW / areaH
  · have hh := wide_height_le imgW imgH areaW areaH hiw hih hah h
    rw [computeLayout_wide _ _ _ _ h]
    refine ⟨?_, ?_, ?_, ?_, ?_, ?_⟩ <;> dsimp only <;> linarith
  · have hw := tall_width_le imgW imgH areaW areaH hah h
    rw [computeLayout_tall _ _ _ _ h]
    refine ⟨?_, ?_, ?_, ?_, ?_, ?_⟩ <;> dsimp only <;> linarith

/-- C4: for positive image and area dimensions the computed layout keeps the
aspect ratio of the image exactly, `displayWidth / displayHeight =
imgW / imgH`, whichever of the two branches (width-constrained or
height-constrained) is taken. -/
theorem computeLayout_aspect (imgW imgH areaW areaH : ℚ)
    (hiw : 0 < imgW) (hih : 0 < imgH) (haw : 0 < areaW) (hah : 0 < areaH) :
    (computeLayout imgW imgH areaW areaH).displayWidth /
      (computeLayout imgW imgH areaW areaH).displayHeight = imgW / imgH := by
  have ha : imgW / imgH ≠ 0 := (div_pos hiw hih).ne'
  have hw : areaW ≠ 0 := haw.ne'
  have hh : areaH ≠ 0 := hah.ne'
  by_cases h : imgW / imgH > areaW / areaH
  · rw [computeLayout_wide _ _ _ _ h]
    dsimp only
    field_simp
    ring
  · rw [computeLayout_tall _ _ _ _ h]
    dsimp only
    field_simp
    ring

theorem computeLayout_aspect_witness :
    ((1200 : ℚ) / 800 > 400 / 800 ∧
      (computeLayout 1200 800 400 800).displayWidth /
        (computeLayout 1200 800 400 800).displayHeight = 1200 / 800) ∧
    (¬ (800 : ℚ) / 1200 > 400 / 500 ∧
      (computeLayout 800 1200 400 500).displayWidth /
        (computeLayout 800 1200 400 500).displayHeight = 800 / 1200) :=
  ⟨⟨by norm_num, computeLayout_aspect 1200 800 400 800
      (by norm_num) (by norm_num) (by norm_num) (by norm_num)⟩,
   ⟨by norm_num, computeLayout_aspect 800 1200 400 500
      (by norm_num) (by norm_num) (by norm_num) (by norm_num)⟩⟩

/-- C5: the layout computed by the callback is the contain fit of the
specification for all inputs, and its offsets are
`(areaW - displayWidth) / 2` and `(areaH - displayHeight) / 2`, so the
margins on the two sides of each axis are equal. -/
theorem computeLayout_eq_specContainFit (imgW imgH areaW areaH : ℚ) :
    computeLayout imgW imgH areaW areaH = specContainFit imgW imgH areaW areaH ∧
    (computeLayout imgW imgH areaW areaH).offsetX =
      (areaW - (computeLayout imgW imgH areaW areaH).displayWidth) / 2 ∧
    (computeLayout imgW imgH areaW areaH).offsetY =
      (areaH - (computeLayout imgW imgH areaW areaH).displayHeight) / 2 ∧
    areaW - ((computeLayout imgW imgH areaW areaH).offsetX +
        (computeLayout imgW imgH areaW areaH).displayWidth) =
      (computeLayout imgW imgH areaW areaH).offsetX ∧
    areaH - ((computeLayout imgW imgH areaW areaH).offsetY +
        (computeLayout imgW imgH areaW areaH).displayHeight) =
      (computeLayout imgW imgH areaW areaH).offsetY := by
  by_cases h : imgW / imgH > areaW / areaH
  · rw [computeLayout_wide _ _ _ _ h]
    refine ⟨by simp [specContainFit, h], ?_, ?_, ?_, ?_⟩ <;> dsimp only <;> ring
  · rw [computeLayout_tall _ _ _ _ h]
    refine ⟨by simp [specContainFit, h], ?_, ?_, ?_, ?_⟩ <;> dsimp only <;> ring

/-! ## Gesture handlers: preserved facts -/

theorem step_imageLayout (w : Window) (s : State) (e : Event) :
    (step w s e).imageLayout = s.imageLayout := by
  cases e <;>
    simp only [step, movePanResponder.onPanResponderGrant,
      movePanResponder.onPanResponderMove, resizePanResponder.onPanResponderGrant,
      resizePanResponder.onPanResponderMove] <;>
    cases s.imageLayout <;> rfl

theorem run_imageLayout (w : Window) (s : State) (es : List Event) :
    (run w s es).imageLayout = s.imageLayout := by
  induction es generalizing s with
  | nil => rfl
  | cons e es ih =>
    show (run w (step w s e) es).imageLayout = s.imageLayout
    rw [ih, step_imageLayout]

theorem run_append_singleton (w : Window) (s : State) (es : List Event) (e : Event) :
    run w s (es ++ [e]) = step w (run w s es) e := by
  simp [run, List.foldl_append]

/-- A clamp `max lo (min hi x)` with `lo ≤ hi` lands in `[lo, hi]`. -/
theorem clamp_mem (lo hi x : ℚ) (h : lo ≤ hi) :
    lo ≤ max lo (min hi x) ∧ max lo (min hi x) ≤ hi :=
  ⟨le_max_left _ _, max_le h (min_le_left _ _)⟩

/-- The move handler with a layout: the centre is the clamped candidate. -/
theorem drag_move_some (s : State) (L : Layout) (dx dy : ℚ)
    (hL : s.imageLayout = some L) :
    movePanResponder.onPanResponderMove s dx dy =
      { s with
        roiCenter :=
          { x := max (L.offsetX + s.roiDiameter / 2)
              (min (L.offsetX + L.displayWidth - s.roiDiameter / 2) (s.dragStart.x + dx))
            y := max (L.offsetY + s.roiDiameter / 2)
              (min (L.offsetY + L.displayHeight - s.roiDiameter / 2) (s.dragStart.y + dy)) } } := by
  simp [movePanResponder.onPanResponderMove, hL]

/-- The resize handler with a layout: new diameter and re-clamped centre. -/
theorem resize_move_some (w : Window) (s : State) (L : Layout) (dx dy : ℚ)
    (hL : s.imageLayout = some L) :
    resizePanResponder.onPanResponderMove w s dx dy =
      { s with
        roiDiameter := resizedDiameter L s.resizeStart dx dy
        roiCenter :=
          { x := max (L.offsetX + resizedDiameter L s.resizeStart dx dy / 2)
              (min (L.offsetX + L.displayWidth - resizedDiameter L s.resizeStart dx dy / 2)
                s.roiCenter.x)
            y := max (L.offsetY + resizedDiameter L s.resizeStart dx dy / 2)
              (min (L.offsetY + L.displayHeight - resizedDiameter L s.resizeStart dx dy / 2)
                s.roiCenter.y) } } := by
  simp [resizePanResponder.onPanResponderMove, hL, resizedDiameter]

theorem resizedDiameter_ge (L : Layout) (r0 dx dy : ℚ) :
    80 ≤ resizedDiameter L r0 dx dy :=
  le_max_left _ _

theorem resizedDiameter_le_max (L : Layout) (r0 dx dy : ℚ)
    (h : 80 ≤ min L.displayWidth L.displayHeight * (95 / 100)) :
    resizedDiameter L r0 dx dy ≤ min L.displayWidth L.displayHeight * (95 / 100) :=
  max_le h (min_le_left _ _)

theorem resizedDiameter_le_dims (L : Layout) (r0 dx dy : ℚ)
    (h : 80 ≤ min L.displayWidth L.displayHeight) :
    resizedDiameter L r0 dx dy ≤ min L.displayWidth L.displayHeight := by
  refine max_le h (le_trans (min_le_left _ _) ?_)
  linarith

/-- With a diameter that fits both display dimensions the clamped centre
keeps the circle inside the layout rectangle. -/
theorem circleInside_of_clamped (L : Layout) (s : State) (x y : ℚ)
    (hw : s.roiDiameter ≤ L.displayWidth) (hh : s.roiDiameter ≤ L.displayHeight)
    (hx : s.roiCenter.x = max (L.offsetX + s.roiDiameter / 2)
      (min (L.offsetX + L.displayWidth - s.roiDiameter / 2) x))
    (hy : s.roiCenter.y = max (L.offsetY + s.roiDiameter / 2)
      (min (L.offsetY + L.displayHeight - s.roiDiameter / 2) y)) :
    CircleInside L s := by
  have hx' := clamp_mem (L.offsetX + s.roiDiameter / 2)
    (L.offsetX + L.displayWidth - s.roiDiameter / 2) x (by linarith)
  have hy' := clamp_mem (L.offsetY + s.roiDiameter / 2)
    (L.offsetY + L.displayHeight - s.roiDiameter / 2) y (by linarith)
  rw [← hx] at hx'
  rw [← hy] at hy'
  refine ⟨?_, ?_, ?_, ?_⟩ <;> linarith [hx'.1, hx'.2, hy'.1, hy'.2]

/-! ## Diameter bounds (C2) -/

/-- C2 (as the code has it): with a layout stored, after every resize event
that follows any sequence of events from any state the diameter is at least
80, and it is at most `min(displayWidth, displayHeight) * 0.95` whenever that
maximum is itself at least 80. -/
theorem resize_diameter_bounds (w : Window) (s : State) (L : Layout)
    (hL : s.imageLayout = some L) (es : List Event) (dx dy : ℚ) :
    80 ≤ (run w s (es ++ [Event.resizeMove dx dy])).roiDiameter ∧
    (80 ≤ min L.displayWidth L.displayHeight * (95 / 100) →
      (run w s (es ++ [Event.resizeMove dx dy])).roiDiameter ≤
        min L.displayWidth L.displayHeight * (95 / 100)) := by
  have hL' : (run w s es).imageLayout = some L := by rw [run_imageLayout, hL]
  have key : (run w s (es ++ [Event.resizeMove dx dy])).roiDiameter =
      resizedDiameter L (run w s es).resizeStart dx dy := by
    rw [run_append_singleton]
    show (resizePanResponder.onPanResponderMove w (run w s es) dx dy).roiDiameter = _
    rw [resize_move_some w _ L dx dy hL']
  rw [key]
  exact ⟨resizedDiameter_ge _ _ _ _, fun h => resizedDiameter_le_max _ _ _ _ h⟩

theorem resize_diameter_bounds_witness :
    80 ≤ (run { width := 400, height := 990 }
      (onGetSize { width := 400, height := 990 }
        (initialState { width := 400, height := 990 }) 1200 800)
      ([Event.resizeGrant] ++ [Event.resizeMove 500 500])).roiDiameter ∧
    (run { width := 400, height := 990 }
      (onGetSize { width := 400, height := 990 }
        (initialState { width := 400, height := 990 }) 1200 800)
      ([Event.resizeGrant] ++ [Event.resizeMove 500 500])).roiDiameter ≤
        min (computeLayout 1200 800 400 800).displayWidth
          (computeLayout 1200 800 400 800).displayHeight * (95 / 100) :=
  have h := resize_diameter_bounds { width := 400, height := 990 }
    (onGetSize { width := 400, height := 990 }
      (initialState { width := 400, height := 990 }) 1200 800)
    (computeLayout 1200 800 400 800)
    (by norm_num [onGetSize, SCREEN_WIDTH, IMAGE_AREA_HEIGHT, SCREEN_HEIGHT,
      TOP_BAR_HEIGHT, BOTTOM_BAR_HEIGHT])
    [Event.resizeGrant] 500 500
  ⟨h.1, h.2 (by norm_num [computeLayout])⟩

/-- C2 fails as stated: on the 400 x 40 layout of a 1000 x 100 image the
maximum `min(displayWidth, displayHeight) * 0.95` is 38, and the diameter
after a resize event is 80. -/
theorem resize_diameter_exceeds_max :
    ¬ ((run { width := 400, height := 990 }
        (onGetSize { width := 400, height := 990 }
          (initialState { width := 400, height := 990 }) 1000 100)
        [Event.resizeGrant, Event.resizeMove 0 0]).roiDiameter ≤
      min (computeLayout 1000 100 400 800).displayWidth
        (computeLayout 1000 100 400 800).displayHeight * (95 / 100)) := by
  norm_num [run, step, onGetSize, initialState, computeLayout,
    SCREEN_WIDTH, SCREEN_HEIGHT, IMAGE_AREA_HEIGHT, TOP_BAR_HEIGHT, BOTTOM_BAR_HEIGHT,
    resizePanResponder.onPanResponderGrant, resizePanResponder.onPanResponderMove]

/-! ## Rounding with `toFixed(4)` -/

theorem toFixed4_of_nonneg (v : ℚ) (h : 0 ≤ v) :
    toFixed4 v = ((⌊v * 10000 + 1 / 2⌋ : ℤ) : ℚ) / 10000 := by
  simp [toFixed4, not_lt.mpr h]

/-- Evaluation of `toFixed4` at a nonnegative value: the integer `n` with
`n ≤ v * 10000 + 1/2 < n + 1` gives the result `n / 10000`. -/
theorem toFixed4_eq_of (v : ℚ) (n : ℤ) (h0 : 0 ≤ v)
    (h1 : (n : ℚ) ≤ v * 10000 + 1 / 2) (h2 : v * 10000 + 1 / 2 < n + 1) :
    toFixed4 v = (n : ℚ) / 10000 := by
  rw [toFixed4_of_nonneg v h0, Int.floor_eq_iff.mpr ⟨h1, h2⟩]

/-- Every value of `toFixed4` is a multiple of `1 / 10000`. -/
theorem toFixed4_multiple (v : ℚ) : ∃ n : ℤ, toFixed4 v = (n : ℚ) / 10000 := by
  unfold toFixed4
  split
  · exact ⟨-⌊-v * 10000 + 1 / 2⌋, by push_cast; ring⟩
  · exact ⟨⌊v * 10000 + 1 / 2⌋, rfl⟩

/-- Rounding does not go below a lower bound that is a multiple of
`1 / 10000`. -/
theorem toFixed4_ge (v : ℚ) (a : ℤ) (h0 : 0 ≤ v) (h : (a : ℚ) / 10000 ≤ v) :
    (a : ℚ) / 10000 ≤ toFixed4 v := by
  rw [toFixed4_of_nonneg v h0]
  have ha : a ≤ ⌊v * 10000 + 1 / 2⌋ := by
    rw [Int.le_floor]
    have := (div_le_iff₀ (by norm_num : (0 : ℚ) < 10000)).mp h
    linarith
  have hc : (a : ℚ) ≤ ((⌊v * 10000 + 1 / 2⌋ : ℤ) : ℚ) := by exact_mod_cast ha
  exact div_le_div_of_nonneg_right hc (by norm_num)

/-- Rounding does not go above an upper bound that is a multiple of
`1 / 10000`. -/
theorem toFixed4_le (v : ℚ) (b : ℤ) (h0 : 0 ≤ v) (h : v ≤ (b : ℚ) / 10000) :
    toFixed4 v ≤ (b : ℚ) / 10000 := by
  rw [toFixed4_of_nonneg v h0]
  have hb : ⌊v * 10000 + 1 / 2⌋ < b + 1 := by
    rw [Int.floor_lt]
    have := (le_div_iff₀ (by norm_num : (0 : ℚ) < 10000)).mp h
    push_cast
    linarith
  have hc : ((⌊v * 10000 + 1 / 2⌋ : ℤ) : ℚ) ≤ (b : ℚ) := by
    exact_mod_cast Int.lt_add_one_iff.mp hb
  exact div_le_div_of_nonneg_right hc (by norm_num)

/-- On nonnegative values `toFixed4` is monotone. -/
theorem toFixed4_mono (u v : ℚ) (h0 : 0 ≤ u) (h : u ≤ v) :
    toFixed4 u ≤ toFixed4 v := by
  rw [toFixed4_of_nonneg u h0, toFixed4_of_nonneg v (le_trans h0 h)]
  have hf : ⌊u * 10000 + 1 / 2⌋ ≤ ⌊v * 10000 + 1 / 2⌋ :=
    Int.floor_mono (by linarith)
  have hc : ((⌊u * 10000 + 1 / 2⌋ : ℤ) : ℚ) ≤ ((⌊v * 10000 + 1 / 2⌋ : ℤ) : ℚ) := by
    exact_mod_cast hf
  exact div_le_div_of_nonneg_right hc (by norm_num)

/-- Two nonnegative values one rounding step apart round to different
values. -/
theorem toFixed4_strict (u v : ℚ) (h0 : 0 ≤ u) (h : u + 1 / 10000 ≤ v) :
    toFixed4 u < toFixed4 v := by
  rw [toFixed4_of_nonneg u h0, toFixed4_of_nonneg v (by linarith)]
  have hf : ⌊u * 10000 + 1 / 2⌋ + 1 ≤ ⌊v * 10000 + 1 / 2⌋ := by
    rw [← Int.floor_add_one]
    exact Int.floor_mono (by linarith)
  have hc : ((⌊u * 10000 + 1 / 2⌋ : ℤ) : ℚ) < ((⌊v * 10000 + 1 / 2⌋ : ℤ) : ℚ) := by
    exact_mod_cast Int.lt_of_lt_of_le (Int.lt_add_one_iff.mpr le_rfl) hf
  exact div_lt_div_of_pos_right hc (by norm_num)

/-- On nonnegative values `toFixed4` is rounding to the nearest multiple of
`1 / 10000`. -/
theorem toFixed4_eq_specRound4 (v : ℚ) (h0 : 0 ≤ v) : toFixed4 v = specRound4 v := by
  rw [toFixed4_of_nonneg v h0, specRound4, round_eq]

/-- The code's clamp `max lo (min hi v)` is the clamp of the glossary when
`lo ≤ hi`. -/
theorem max_min_eq_specClamp (v lo hi : ℚ) (h : lo ≤ hi) :
    max lo (min hi v) = specClamp v lo hi := by
  unfold specClamp
  split_ifs with h1 h2
  · rw [min_eq_right (by linarith), max_eq_left h1.le]
  · rw [min_eq_left h2.le, max_eq_right h]
  · rw [min_eq_right (not_lt.mp h2), max_eq_right (not_lt.mp h1)]

/-! ## Percentage projection (C6-C9) -/

theorem computeRoiParams_some (s : State) (L : Layout) (hL : s.imageLayout = some L) :
    computeRoiParams s = some
      { roi_x_percent := toFixed4 (clampedRoi L s.roiCenter s.roiDiameter).roi_x_percent
        roi_y_percent := toFixed4 (clampedRoi L s.roiCenter s.roiDiameter).roi_y_percent
        roi_width_percent :=
          toFixed4 (clampedRoi L s.roiCenter s.roiDiameter).roi_width_percent
        roi_height_percent :=
          toFixed4 (clampedRoi L s.roiCenter s.roiDiameter).roi_height_percent } := by
  simp [computeRoiParams, hL]

/-- The rounded value of a clamp to `[a / 10000, b / 10000]` stays in that
interval and is a multiple of `1 / 10000`. -/
theorem toFixed4_clamp_range (a b : ℤ) (v : ℚ) (ha : 0 ≤ (a : ℚ) / 10000)
    (hab : (a : ℚ) / 10000 ≤ (b : ℚ) / 10000) :
    (a : ℚ) / 10000 ≤ toFixed4 (max ((a : ℚ) / 10000) (min ((b : ℚ) / 10000) v)) ∧
    toFixed4 (max ((a : ℚ) / 10000) (min ((b : ℚ) / 10000) v)) ≤ (b : ℚ) / 10000 := by
  have hm := clamp_mem ((a : ℚ) / 10000) ((b : ℚ) / 10000) v hab
  exact ⟨toFixed4_ge _ a (le_trans ha hm.1) hm.1, toFixed4_le _ b (le_trans ha hm.1) hm.2⟩

/-- C6: with a layout of positive display width and height stored,
`computeRoiParams` returns, for every selection, position fields in `[0, 1]`
and size fields in `[0.05, 1]`, each a multiple of `1 / 10000`. -/
theorem computeRoiParams_range (s : State) (L : Layout)
    (hL : s.imageLayout = some L)
    (hw : 0 < L.displayWidth) (hh : 0 < L.displayHeight) :
    ∃ p : RoiParams, computeRoiParams s = some p ∧
      (0 ≤ p.roi_x_percent ∧ p.roi_x_percent ≤ 1) ∧
      (0 ≤ p.roi_y_percent ∧ p.roi_y_percent ≤ 1) ∧
      (5 / 100 ≤ p.roi_width_percent ∧ p.roi_width_percent ≤ 1) ∧
      (5 / 100 ≤ p.roi_height_percent ∧ p.roi_height_percent ≤ 1) ∧
      (∃ n : ℤ, p.roi_x_percent = (n : ℚ) / 10000) ∧
      (∃ n : ℤ, p.roi_y_percent = (n : ℚ) / 10000) ∧
      (∃ n : ℤ, p.roi_width_percent = (n : ℚ) / 10000) ∧
      (∃ n : ℤ, p.roi_height_percent = (n : ℚ) / 10000) := by
  have _ := hw
  have _ := hh
  have pos : ∀ v : ℚ, 0 ≤ toFixed4 (max 0 (min 1 v)) ∧ toFixed4 (max 0 (min 1 v)) ≤ 1 := by
    intro v
    have := toFixed4_clamp_range 0 10000 v (by norm_num) (by norm_num)
    norm_num at this
    exact this
  have size : ∀ v : ℚ, 5 / 100 ≤ toFixed4 (max (5 / 100) (min 1 v)) ∧
      toFixed4 (max (5 / 100) (min 1 v)) ≤ 1 := by
    intro v
    have := toFixed4_clamp_range 500 10000 v (by norm_num) (by norm_num)
    norm_num at this
    norm_num
    exact this
  refine ⟨_, computeRoiParams_some s L hL, ?_, ?_, ?_, ?_,
    toFixed4_multiple _, toFixed4_multiple _, toFixed4_multiple _, toFixed4_multiple _⟩
  · exact pos _
  · exact pos _
  · exact size _
  · exact size _

theorem computeRoiParams_range_witness :
    ∃ p : RoiParams,
      computeRoiParams
        { imageLayout := some { displayWidth := 400, displayHeight := 300,
                                offsetX := 0, offsetY := 250 }
          roiCenter := { x := -50, y := 900 }
          roiDiameter := 1000
          dragStart := { x := 0, y := 0 }
          resizeStart := 0 } = some p ∧
      (0 ≤ p.roi_x_percent ∧ p.roi_x_percent ≤ 1) ∧
      (0 ≤ p.roi_y_percent ∧ p.roi_y_percent ≤ 1) ∧
      (5 / 100 ≤ p.roi_width_percent ∧ p.roi_width_percent ≤ 1) ∧
      (5 / 100 ≤ p.roi_height_percent ∧ p.roi_height_percent ≤ 1) ∧
      (∃ n : ℤ, p.roi_x_percent = (n : ℚ) / 10000) ∧
      (∃ n : ℤ, p.roi_y_percent = (n : ℚ) / 10000) ∧
      (∃ n : ℤ, p.roi_width_percent = (n : ℚ) / 10000) ∧
      (∃ n : ℤ, p.roi_height_percent = (n : ℚ) / 10000) :=
  computeRoiParams_range _ { displayWidth := 400, displayHeight := 300,
                             offsetX := 0, offsetY := 250 }
    rfl (by norm_num) (by norm_num)

/-- Over exact rationals: whenever a layout is stored, `computeRoiParams`
returns the projection of section 4.4. -/
theorem computeRoiParams_eq_specProject_exact (s : State) (L : Layout)
    (hL : s.imageLayout = some L) :
    computeRoiParams s =
      some (specProject s.roiCenter.x s.roiCenter.y s.roiDiameter L) := by
  rw [computeRoiParams_some s L hL]
  have c0 : ∀ v : ℚ, toFixed4 (max 0 (min 1 v)) = specRound4 (specClamp v 0 1) := by
    intro v
    rw [toFixed4_eq_specRound4 _ (le_max_left _ _), max_min_eq_specClamp v 0 1 (by norm_num)]
  have c5 : ∀ v : ℚ, toFixed4 (max (5 / 100) (min 1 v)) =
      specRound4 (specClamp v (5 / 100) 1) := by
    intro v
    rw [toFixed4_eq_specRound4 _ (le_trans (by norm_num) (le_max_left _ _)),
      max_min_eq_specClamp v (5 / 100) 1 (by norm_num)]
  simp only [clampedRoi, specProject, c0, c5]

/-- C8: `computeRoiParams` returns `null` exactly when no layout is stored,
and with a layout stored it returns a record of the four fields for every
selection. -/
theorem computeRoiParams_none_iff (s : State) :
    (computeRoiParams s = none ↔ s.imageLayout = none) ∧
    (∀ (L : Layout) (roiCenter dragStart : Point) (roiDiameter resizeStart : ℚ),
      ∃ p : RoiParams,
        computeRoiParams
          { imageLayout := some L, roiCenter := roiCenter, roiDiameter := roiDiameter,
            dragStart := dragStart, resizeStart := resizeStart } = some p) := by
  constructor
  · cases h : s.imageLayout with
    | none => simp [computeRoiParams, h]
    | some L => simp [computeRoiParams, h]
  · intro L c ds d rs
    exact ⟨_, computeRoiParams_some _ L rfl⟩

/-- The unrounded size fraction `max 0.05 (min 1 (d / dim))` is monotone in
the diameter `d` for a positive dimension. -/
theorem size_fraction_mono (dim d1 d2 : ℚ) (hdim : 0 < dim) (h : d1 ≤ d2) :
    max (5 / 100) (min 1 (d1 / dim)) ≤ max (5 / 100) (min 1 (d2 / dim)) :=
  max_le_max le_rfl (min_le_min le_rfl (div_le_div_of_nonneg_right h hdim.le))

/-- Between the two clamps the unrounded size fraction is `d / dim`. -/
theorem size_fraction_unclamped (dim d : ℚ) (hdim : 0 < dim)
    (hlo : 5 / 100 * dim ≤ d) (hhi : d ≤ dim) :
    max (5 / 100) (min 1 (d / dim)) = d / dim := by
  have h1 : d / dim ≤ 1 := (div_le_one hdim).mpr hhi
  have h2 : 5 / 100 ≤ d / dim := (le_div_iff₀ hdim).mpr hlo
  rw [min_eq_right h1, max_eq_right h2]

/-- The rounded size fraction is monotone in the diameter. -/
theorem size_percent_mono (dim d1 d2 : ℚ) (hdim : 0 < dim) (h : d1 ≤ d2) :
    toFixed4 (max (5 / 100) (min 1 (d1 / dim))) ≤
      toFixed4 (max (5 / 100) (min 1 (d2 / dim))) :=
  toFixed4_mono _ _ (le_trans (by norm_num) (le_max_left _ _))
    (size_fraction_mono dim d1 d2 hdim h)

/-- Between the clamps the unrounded size fraction is strictly monotone. -/
theorem size_fraction_strict (dim d1 d2 : ℚ) (hdim : 0 < dim) (h : d1 < d2)
    (hlo : 5 / 100 * dim ≤ d1) (hhi : d2 ≤ dim) :
    max (5 / 100) (min 1 (d1 / dim)) < max (5 / 100) (min 1 (d2 / dim)) := by
  rw [size_fraction_unclamped dim d1 hdim hlo (by linarith),
    size_fraction_unclamped dim d2 hdim (by linarith) hhi]
  exact div_lt_div_of_pos_right h hdim

/-- Between the clamps two diameters one rounding step apart give different
rounded size fractions. -/
theorem size_percent_strict (dim d1 d2 : ℚ) (hdim : 0 < dim)
    (hlo : 5 / 100 * dim ≤ d1) (hhi : d2 ≤ dim) (hstep : d1 + dim / 10000 ≤ d2) :
    toFixed4 (max (5 / 100) (min 1 (d1 / dim))) <
      toFixed4 (max (5 / 100) (min 1 (d2 / dim))) := by
  have hpos : 0 < dim / 10000 := by positivity
  rw [size_fraction_unclamped dim d1 hdim hlo (by linarith),
    size_fraction_unclamped dim d2 hdim (by linarith) hhi]
  refine toFixed4_strict _ _ (div_nonneg (by nlinarith) hdim.le) ?_
  rw [le_div_iff₀ hdim]
  have : (d1 / dim + 1 / 10000) * dim = d1 + dim / 10000 := by
    field_simp
    ring
  linarith

/-! ## Drag clamps exactly to the boundary (C10) -/

/-- C10: with a layout stored, a drag event whose candidate `dragStart.x + dx`
lies beyond `offsetX + displayWidth - r` sets `centerX` to exactly that
boundary when the diameter does not exceed `displayWidth`; a candidate below
`offsetX + r` gives exactly `offsetX + r`; and the same holds on the Y axis
with `offsetY` and `displayHeight`. -/
theorem drag_clamps_to_boundary (s : State) (L : Layout) (dx dy : ℚ)
    (hL : s.imageLayout = some L) :
    (s.roiDiameter ≤ L.displayWidth →
      L.offsetX + L.displayWidth - s.roiDiameter / 2 < s.dragStart.x + dx →
      (movePanResponder.onPanResponderMove s dx dy).roiCenter.x =
        L.offsetX + L.displayWidth - s.roiDiameter / 2) ∧
    (s.dragStart.x + dx < L.offsetX + s.roiDiameter / 2 →
      (movePanResponder.onPanResponderMove s dx dy).roiCenter.x =
        L.offsetX + s.roiDiameter / 2) ∧
    (s.roiDiameter ≤ L.displayHeight →
      L.offsetY + L.displayHeight - s.roiDiameter / 2 < s.dragStart.y + dy →
      (movePanResponder.onPanResponderMove s dx dy).roiCenter.y =
        L.offsetY + L.displayHeight - s.roiDiameter / 2) ∧
    (s.dragStart.y + dy < L.offsetY + s.roiDiameter / 2 →
      (movePanResponder.onPanResponderMove s dx dy).roiCenter.y =
        L.offsetY + s.roiDiameter / 2) := by
  rw [drag_move_some s L dx dy hL]
  dsimp only
  refine ⟨fun hd hc => ?_, fun hc => ?_, fun hd hc => ?_, fun hc => ?_⟩
  · rw [min_eq_left hc.le, max_eq_right (by linarith)]
  · rw [max_eq_left (le_trans (min_le_right _ _) hc.le)]
  · rw [min_eq_left hc.le, max_eq_right (by linarith)]
  · rw [max_eq_left (le_trans (min_le_right _ _) hc.le)]

theorem drag_clamps_to_boundary_witness :
    (movePanResponder.onPanResponderMove
        { imageLayout := some { displayWidth := 400, displayHeight := 300,
                                offsetX := 0, offsetY := 250 }
          roiCenter := { x := 200, y := 400 }, roiDiameter := 100
          dragStart := { x := 200, y := 400 }, resizeStart := 0 } 500 500).roiCenter.x =
      0 + 400 - 100 / 2 ∧
    (movePanResponder.onPanResponderMove
        { imageLayout := some { displayWidth := 400, displayHeight := 300,
                                offsetX := 0, offsetY := 250 }
          roiCenter := { x := 200, y := 400 }, roiDiameter := 100
          dragStart := { x := 200, y := 400 }, resizeStart := 0 } (-500) (-500)).roiCenter.x =
      0 + 100 / 2 ∧
    (movePanResponder.onPanResponderMove
        { imageLayout := some { displayWidth := 400, displayHeight := 300,
                                offsetX := 0, offsetY := 250 }
          roiCenter := { x := 200, y := 400 }, roiDiameter := 100
          dragStart := { x := 200, y := 400 }, resizeStart := 0 } 500 500).roiCenter.y =
      250 + 300 - 100 / 2 ∧
    (movePanResponder.onPanResponderMove
        { imageLayout := some { displayWidth := 400, displayHeight := 300,
                                offsetX := 0, offsetY := 250 }
          roiCenter := { x := 200, y := 400 }, roiDiameter := 100
          dragStart := { x := 200, y := 400 }, resizeStart := 0 } (-500) (-500)).roiCenter.y =
      250 + 100 / 2 :=
  ⟨(drag_clamps_to_boundary _ _ 500 500 rfl).1 (by norm_num) (by norm_num),
   (drag_clamps_to_boundary _ _ (-500) (-500) rfl).2.1 (by norm_num),
   (drag_clamps_to_boundary _ _ 500 500 rfl).2.2.1 (by norm_num) (by norm_num),
   (drag_clamps_to_boundary _ _ (-500) (-500) rfl).2.2.2 (by norm_num)⟩

/-! ## Resize rule, layout arrival and the no-layout fallback (C11-C14) -/

/-- C11: a resize event sets the diameter to
`max(80, min(maxSize, resizeStart + (dx + dy) * 0.8))` with `maxSize =
min(displayWidth, displayHeight) * 0.95` when a layout is stored and
`SCREEN_WIDTH * 0.9` otherwise; the result is at least 80, and it is the
glossary clamp of the candidate to `[80, maxSize]` whenever `80 ≤ maxSize`. -/
theorem resize_diameter_eq_spec (w : Window) (s : State) (dx dy : ℚ) :
    (resizePanResponder.onPanResponderMove w s dx dy).roiDiameter =
      specResizeDiameter s.imageLayout (SCREEN_WIDTH w) s.resizeStart dx dy ∧
    (resizePanResponder.onPanResponderMove w s dx dy).roiDiameter =
      max 80 (min (specMaxSize s.imageLayout (SCREEN_WIDTH w))
        (s.resizeStart + (dx + dy) * (8 / 10))) ∧
    (∀ L : Layout, specMaxSize (some L) (SCREEN_WIDTH w) =
      min L.displayWidth L.displayHeight * (95 / 100)) ∧
    specMaxSize none (SCREEN_WIDTH w) = SCREEN_WIDTH w * (9 / 10) ∧
    (resizePanResponder.onPanResponderMove w (resizePanResponder.onPanResponderGrant s)
        dx dy).roiDiameter =
      specResizeDiameter s.imageLayout (SCREEN_WIDTH w) s.roiDiameter dx dy ∧
    80 ≤ (resizePanResponder.onPanResponderMove w s dx dy).roiDiameter ∧
    (80 ≤ specMaxSize s.imageLayout (SCREEN_WIDTH w) →
      (resizePanResponder.onPanResponderMove w s dx dy).roiDiameter =
        specClamp (s.resizeStart + (dx + dy) * (8 / 10)) 80
          (specMaxSize s.imageLayout (SCREEN_WIDTH w))) := by
  have key : (resizePanResponder.onPanResponderMove w s dx dy).roiDiameter =
      max 80 (min (specMaxSize s.imageLayout (SCREEN_WIDTH w))
        (s.resizeStart + (dx + dy) * (8 / 10))) := by
    cases h : s.imageLayout <;>
      simp [resizePanResponder.onPanResponderMove, specMaxSize, h]
  refine ⟨?_, ?_, fun _ => rfl, rfl, ?_, ?_, ?_⟩
  rotate_left 3
  · rw [key]
    exact le_max_left _ _
  · intro h
    rw [key]
    exact max_min_eq_specClamp _ _ _ h
  · cases h : s.imageLayout <;>
      simp [resizePanResponder.onPanResponderMove, specResizeDiameter, specMaxSize, h]
  · cases h : s.imageLayout <;>
      simp [resizePanResponder.onPanResponderMove, specMaxSize, h]
  · cases h : s.imageLayout <;>
      simp [resizePanResponder.onPanResponderMove, resizePanResponder.onPanResponderGrant,
        specResizeDiameter, specMaxSize, h]

theorem resize_diameter_eq_spec_witness :
    (resizePanResponder.onPanResponderMove { width := 400, height := 990 }
        (initialState { width := 400, height := 990 }) 50 50).roiDiameter =
      specClamp ((initialState { width := 400, height := 990 }).resizeStart +
          (50 + 50) * (8 / 10)) 80
        (specMaxSize (initialState { width := 400, height := 990 }).imageLayout
          (SCREEN_WIDTH { width := 400, height := 990 })) :=
  (resize_diameter_eq_spec { width := 400, height := 990 }
    (initialState { width := 400, height := 990 }) 50 50).2.2.2.2.2.2
    (by norm_num [specMaxSize, initialState, SCREEN_WIDTH])

/-- C12: right after layout arrival the selection is the post-layout
default, centre `(offsetX + displayWidth / 2, offsetY + displayHeight / 2)`
and diameter `min(displayWidth, displayHeight) * 0.65`, whatever the state
was before: any two prior states give the same selection. -/
theorem onGetSize_discards_prior_selection (w : Window) (s1 s2 : State) (imgW imgH : ℚ) :
    (onGetSize w s1 imgW imgH).roiCenter = (onGetSize w s2 imgW imgH).roiCenter ∧
    (onGetSize w s1 imgW imgH).roiDiameter = (onGetSize w s2 imgW imgH).roiDiameter ∧
    (onGetSize w s1 imgW imgH).imageLayout =
      some (computeLayout imgW imgH (SCREEN_WIDTH w) (IMAGE_AREA_HEIGHT w)) ∧
    (onGetSize w s1 imgW imgH).roiCenter =
      { x := (computeLayout imgW imgH (SCREEN_WIDTH w) (IMAGE_AREA_HEIGHT w)).offsetX +
          (computeLayout imgW imgH (SCREEN_WIDTH w) (IMAGE_AREA_HEIGHT w)).displayWidth / 2
        y := (computeLayout imgW imgH (SCREEN_WIDTH w) (IMAGE_AREA_HEIGHT w)).offsetY +
          (computeLayout imgW imgH (SCREEN_WIDTH w) (IMAGE_AREA_HEIGHT w)).displayHeight / 2 } ∧
    (onGetSize w s1 imgW imgH).roiDiameter =
      min (computeLayout imgW imgH (SCREEN_WIDTH w) (IMAGE_AREA_HEIGHT w)).displayWidth
        (computeLayout imgW imgH (SCREEN_WIDTH w) (IMAGE_AREA_HEIGHT w)).displayHeight *
        (65 / 100) ∧
    (∀ es1 es2 : List Event,
      (onGetSize w (run w (initialState w) es1) imgW imgH).roiCenter =
        (onGetSize w (run w (initialState w) es2) imgW imgH).roiCenter ∧
      (onGetSize w (run w (initialState w) es1) imgW imgH).roiDiameter =
        (onGetSize w (run w (initialState w) es2) imgW imgH).roiDiameter) :=
  ⟨rfl, rfl, rfl, rfl, rfl, fun _ _ => ⟨rfl, rfl⟩⟩

/-- For positive image and area dimensions both display dimensions are
positive. -/
theorem computeLayout_pos (imgW imgH areaW areaH : ℚ)
    (hiw : 0 < imgW) (hih : 0 < imgH) (haw : 0 < areaW) (hah : 0 < areaH) :
    0 < (computeLayout imgW imgH areaW areaH).displayWidth ∧
    0 < (computeLayout imgW imgH areaW areaH).displayHeight := by
  have ha : 0 < imgW / imgH := div_pos hiw hih
  by_cases h : imgW / imgH > areaW / areaH
  · rw [computeLayout_wide _ _ _ _ h]
    exact ⟨haw, div_pos haw ha⟩
  · rw [computeLayout_tall _ _ _ _ h]
    exact ⟨mul_pos hah ha, hah⟩

/-- C13 (as the code has it): on a resolved layout (positive image and area
dimensions) the post-layout default selection has a diameter of at most
`min(displayWidth, displayHeight) * 0.95` and its centre lies in
`[offsetX + r, offsetX + displayWidth - r] x [offsetY + r, offsetY +
displayHeight - r]`; the diameter is at least 80 exactly when
`min(displayWidth, displayHeight)` is at least `80 / 0.65 = 1600 / 13`. -/
theorem default_selection_bounds (w : Window) (s : State) (imgW imgH : ℚ)
    (hiw : 0 < imgW) (hih : 0 < imgH)
    (haw : 0 < SCREEN_WIDTH w) (hah : 0 < IMAGE_AREA_HEIGHT w) :
    (onGetSize w s imgW imgH).roiDiameter ≤
      min (computeLayout imgW imgH (SCREEN_WIDTH w) (IMAGE_AREA_HEIGHT w)).displayWidth
        (computeLayout imgW imgH (SCREEN_WIDTH w) (IMAGE_AREA_HEIGHT w)).displayHeight *
        (95 / 100) ∧
    (80 ≤ (onGetSize w s imgW imgH).roiDiameter ↔
      1600 / 13 ≤
        min (computeLayout imgW imgH (SCREEN_WIDTH w) (IMAGE_AREA_HEIGHT w)).displayWidth
          (computeLayout imgW imgH (SCREEN_WIDTH w) (IMAGE_AREA_HEIGHT w)).displayHeight) ∧
    ((computeLayout imgW imgH (SCREEN_WIDTH w) (IMAGE_AREA_HEIGHT w)).offsetX +
        (onGetSize w s imgW imgH).roiDiameter / 2 ≤ (onGetSize w s imgW imgH).roiCenter.x ∧
      (onGetSize w s imgW imgH).roiCenter.x ≤
        (computeLayout imgW imgH (SCREEN_WIDTH w) (IMAGE_AREA_HEIGHT w)).offsetX +
          (computeLayout imgW imgH (SCREEN_WIDTH w) (IMAGE_AREA_HEIGHT w)).displayWidth -
          (onGetSize w s imgW imgH).roiDiameter / 2) ∧
    ((computeLayout imgW imgH (SCREEN_WIDTH w) (IMAGE_AREA_HEIGHT w)).offsetY +
        (onGetSize w s imgW imgH).roiDiameter / 2 ≤ (onGetSize w s imgW imgH).roiCenter.y ∧
      (onGetSize w s imgW imgH).roiCenter.y ≤
        (computeLayout imgW imgH (SCREEN_WIDTH w) (IMAGE_AREA_HEIGHT w)).offsetY +
          (computeLayout imgW imgH (SCREEN_WIDTH w) (IMAGE_AREA_HEIGHT w)).displayHeight -
          (onGetSize w s imgW imgH).roiDiameter / 2) := by
  obtain ⟨hpw, hph⟩ :=
    computeLayout_pos imgW imgH (SCREEN_WIDTH w) (IMAGE_AREA_HEIGHT w) hiw hih haw hah
  unfold onGetSize
  dsimp only
  generalize computeLayout imgW imgH (SCREEN_WIDTH w) (IMAGE_AREA_HEIGHT w) = L at hpw hph ⊢
  have hm : 0 < min L.displayWidth L.displayHeight := lt_min hpw hph
  have hw : min L.displayWidth L.displayHeight ≤ L.displayWidth := min_le_left _ _
  have hh : min L.displayWidth L.displayHeight ≤ L.displayHeight := min_le_right _ _
  refine ⟨by linarith, ⟨fun h => by linarith, fun h => by linarith⟩,
    ⟨by linarith, by linarith⟩, ⟨by linarith, by linarith⟩⟩

theorem default_selection_bounds_witness :
    (onGetSize { width := 400, height := 990 }
        (initialState { width := 400, height := 990 }) 1200 800).roiDiameter ≤
      min (computeLayout 1200 800 (SCREEN_WIDTH { width := 400, height := 990 })
          (IMAGE_AREA_HEIGHT { width := 400, height := 990 })).displayWidth
        (computeLayout 1200 800 (SCREEN_WIDTH { width := 400, height := 990 })
          (IMAGE_AREA_HEIGHT { width := 400, height := 990 })).displayHeight * (95 / 100) :=
  (default_selection_bounds { width := 400, height := 990 }
    (initialState { width := 400, height := 990 }) 1200 800
    (by norm_num) (by norm_num)
    (by norm_num [SCREEN_WIDTH])
    (by norm_num [IMAGE_AREA_HEIGHT, SCREEN_HEIGHT, TOP_BAR_HEIGHT, BOTTOM_BAR_HEIGHT])).1

/-- C13 fails as stated: a 1200 x 300 image in a 400 x 800 area resolves to
a 400 x 100 layout, and the default diameter `100 * 0.65 = 65` is below 80. -/
theorem default_diameter_below_80 :
    (onGetSize { width := 400, height := 990 }
        (initialState { width := 400, height := 990 }) 1200 300).imageLayout =
      some { displayWidth := 400, displayHeight := 100, offsetX := 0, offsetY := 350 } ∧
    (onGetSize { width := 400, height := 990 }
        (initialState { width := 400, height := 990 }) 1200 300).roiDiameter = 65 ∧
    ¬ (80 ≤ (onGetSize { width := 400, height := 990 }
        (initialState { width := 400, height := 990 }) 1200 300).roiDiameter) := by
  norm_num [onGetSize, initialState, computeLayout,
    SCREEN_WIDTH, SCREEN_HEIGHT, IMAGE_AREA_HEIGHT, TOP_BAR_HEIGHT, BOTTOM_BAR_HEIGHT]

/-- C14: while no layout is stored, a drag event sets the centre to exactly
`dragStart + (dx, dy)` (after a grant: the centre at the grant plus the
deltas), and a resize event leaves the centre unchanged. -/
theorem no_layout_unclamped (w : Window) (s : State) (dx dy : ℚ)
    (hL : s.imageLayout = none) :
    (movePanResponder.onPanResponderMove s dx dy).roiCenter =
      { x := s.dragStart.x + dx, y := s.dragStart.y + dy } ∧
    (movePanResponder.onPanResponderMove (movePanResponder.onPanResponderGrant s)
        dx dy).roiCenter =
      { x := s.roiCenter.x + dx, y := s.roiCenter.y + dy } ∧
    (resizePanResponder.onPanResponderMove w s dx dy).roiCenter = s.roiCenter := by
  refine ⟨?_, ?_, ?_⟩
  · simp [movePanResponder.onPanResponderMove, hL]
  · simp [movePanResponder.onPanResponderMove, movePanResponder.onPanResponderGrant, hL]
  · simp [resizePanResponder.onPanResponderMove, hL]

theorem no_layout_unclamped_witness :
    (movePanResponder.onPanResponderMove (initialState { width := 400, height := 990 })
        5000 (-7000)).roiCenter =
      { x := (initialState { width := 400, height := 990 }).dragStart.x + 5000
        y := (initialState { width := 400, height := 990 }).dragStart.y + -7000 } ∧
    (resizePanResponder.onPanResponderMove { width := 400, height := 990 }
        (initialState { width := 400, height := 990 }) 5000 (-7000)).roiCenter =
      (initialState { width := 400, height := 990 }).roiCenter :=
  ⟨(no_layout_unclamped { width := 400, height := 990 }
      (initialState { width := 400, height := 990 }) 5000 (-7000) rfl).1,
   (no_layout_unclamped { width := 400, height := 990 }
      (initialState { width := 400, height := 990 }) 5000 (-7000) rfl).2.2⟩

/-! ## Scenarios of section 8 (C15-C17) -/

/-- C15: for a 1200 x 800 image in a 400 x 800 area the width-constrained
branch is taken (`imageAspect = 1.5 > areaAspect = 0.5`) and the layout is
`displayWidth = 400`, `displayHeight = 800 / 3`, `offsetX = 0`,
`offsetY = 800 / 3`, where `800 / 3` is 266.67 to two decimals. -/
theorem layout_scenario :
    (1200 : ℚ) / 800 = 3 / 2 ∧ (400 : ℚ) / 800 = 1 / 2 ∧
    (1200 : ℚ) / 800 > 400 / 800 ∧
    computeLayout 1200 800 400 800 =
      { displayWidth := 400, displayHeight := 800 / 3, offsetX := 0, offsetY := 800 / 3 } ∧
    |(800 : ℚ) / 3 - 26667 / 100| < 5 / 1000 := by
  refine ⟨by norm_num, by norm_num, by norm_num, ?_, ?_⟩
  · rw [computeLayout_wide _ _ _ _ (by norm_num)]
    norm_num
  · rw [abs_lt]
    constructor <;> norm_num

/-- The state right after layout arrival in the scenario: a 400 x 990 window
(area 400 x 800) and a 1200 x 800 image. -/
theorem scenario_state :
    onGetSize { width := 400, height := 990 }
        (initialState { width := 400, height := 990 }) 1200 800 =
      { imageLayout := some { displayWidth := 400, displayHeight := 800 / 3,
                              offsetX := 0, offsetY := 800 / 3 }
        roiCenter := { x := 200, y := 400 }
        roiDiameter := 520 / 3
        dragStart := { x := 0, y := 0 }
        resizeStart := 0 } := by
  norm_num [onGetSize, initialState, computeLayout,
    SCREEN_WIDTH, SCREEN_HEIGHT, IMAGE_AREA_HEIGHT, TOP_BAR_HEIGHT, BOTTOM_BAR_HEIGHT]

/-- C16: on the scenario layout the post-layout default selection has
diameter `800 / 3 * 0.65 = 520 / 3` (173.33) and centre `(200, 400)`; its
projection has the unrounded `x_pct = 17 / 60` (0.283) and `w_pct = 13 / 30`
(0.433), and `computeRoiParams` returns 0.2833 and 0.4333 (with
`roi_y_percent = 0.175` and `roi_height_percent = 0.65`). -/
theorem default_selection_scenario :
    (onGetSize { width := 400, height := 990 }
        (initialState { width := 400, height := 990 }) 1200 800).imageLayout =
      some { displayWidth := 400, displayHeight := 800 / 3,
             offsetX := 0, offsetY := 800 / 3 } ∧
    (onGetSize { width := 400, height := 990 }
        (initialState { width := 400, height := 990 }) 1200 800).roiDiameter = 520 / 3 ∧
    (800 : ℚ) / 3 * (65 / 100) = 520 / 3 ∧
    |(520 : ℚ) / 3 - 17333 / 100| < 5 / 1000 ∧
    (onGetSize { width := 400, height := 990 }
        (initialState { width := 400, height := 990 }) 1200 800).roiCenter =
      { x := 200, y := 400 } ∧
    (clampedRoi { displayWidth := 400, displayHeight := 800 / 3,
                  offsetX := 0, offsetY := 800 / 3 }
        { x := 200, y := 400 } (520 / 3)).roi_x_percent = 17 / 60 ∧
    (clampedRoi { displayWidth := 400, displayHeight := 800 / 3,
                  offsetX := 0, offsetY := 800 / 3 }
        { x := 200, y := 400 } (520 / 3)).roi_width_percent = 13 / 30 ∧
    |(17 : ℚ) / 60 - 283 / 1000| < 5 / 10000 ∧
    |(13 : ℚ) / 30 - 433 / 1000| < 5 / 10000 ∧
    computeRoiParams
        (onGetSize { width := 400, height := 990 }
          (initialState { width := 400, height := 990 }) 1200 800) =
      some { roi_x_percent := 2833 / 10000, roi_y_percent := 175 / 1000,
             roi_width_percent := 4333 / 10000, roi_height_percent := 65 / 100 } := by
  have hx : (clampedRoi
      { displayWidth := 400, displayHeight := 800 / 3, offsetX := 0, offsetY := 800 / 3 }
      { x := 200, y := 400 } (520 / 3)).roi_x_percent =
      17 / 60 := by
    norm_num [clampedRoi]
  have hy : (clampedRoi
      { displayWidth := 400, displayHeight := 800 / 3, offsetX := 0, offsetY := 800 / 3 }
      { x := 200, y := 400 } (520 / 3)).roi_y_percent =
      7 / 40 := by
    norm_num [clampedRoi]
  have hw : (clampedRoi
      { displayWidth := 400, displayHeight := 800 / 3, offsetX := 0, offsetY := 800 / 3 }
      { x := 200, y := 400 } (520 / 3)).roi_width_percent =
      13 / 30 := by
    norm_num [clampedRoi]
  have hh : (clampedRoi
      { displayWidth := 400, displayHeight := 800 / 3, offsetX := 0, offsetY := 800 / 3 }
      { x := 200, y := 400 } (520 / 3)).roi_height_percent =
      13 / 20 := by
    norm_num [clampedRoi]
  have rx : toFixed4 (17 / 60) = 2833 / 10000 := by
    have := toFixed4_eq_of (17 / 60) 2833 (by norm_num) (by norm_num) (by norm_num)
    simpa using this
  have ry : toFixed4 (7 / 40) = 175 / 1000 := by
    have := toFixed4_eq_of (7 / 40) 1750 (by norm_num) (by norm_num) (by norm_num)
    rw [this]
    norm_num
  have rw' : toFixed4 (13 / 30) = 4333 / 10000 := by
    have := toFixed4_eq_of (13 / 30) 4333 (by norm_num) (by norm_num) (by norm_num)
    simpa using this
  have rh : toFixed4 (13 / 20) = 65 / 100 := by
    have := toFixed4_eq_of (13 / 20) 6500 (by norm_num) (by norm_num) (by norm_num)
    rw [this]
    norm_num
  rw [scenario_state]
  refine ⟨rfl, rfl, by norm_num, ?_, rfl, hx, hw, ?_, ?_, ?_⟩
  · rw [abs_lt]
    constructor <;> norm_num
  · rw [abs_lt]
    constructor <;> norm_num
  · rw [abs_lt]
    constructor <;> norm_num
  · rw [computeRoiParams_some _ _ rfl]
    dsimp only
    rw [hx, hy, hw, hh, rx, ry, rw', rh]

/-- C17 (as the code has it): on the scenario layout a resize event with
`dx = dy = 50` from `resizeStart = 520 / 3` has `delta = 80` and gives the
diameter `760 / 3 = 520 / 3 + 80` (253.33); the clamp interval in force is
`[80, min(400, 800 / 3) * 0.95] = [80, 760 / 3]`, so the candidate is exactly
the upper bound and the clamp leaves it unchanged. -/
theorem resize_scenario :
    ((50 : ℚ) + 50) * (8 / 10) = 80 ∧
    (520 : ℚ) / 3 + 80 = 760 / 3 ∧
    |(760 : ℚ) / 3 - 25333 / 100| < 5 / 1000 ∧
    (run { width := 400, height := 990 }
        (onGetSize { width := 400, height := 990 }
          (initialState { width := 400, height := 990 }) 1200 800)
        [Event.resizeGrant]).resizeStart = 520 / 3 ∧
    (run { width := 400, height := 990 }
        (onGetSize { width := 400, height := 990 }
          (initialState { width := 400, height := 990 }) 1200 800)
        [Event.resizeGrant, Event.resizeMove 50 50]).roiDiameter = 760 / 3 ∧
    specMaxSize
        (onGetSize { width := 400, height := 990 }
          (initialState { width := 400, height := 990 }) 1200 800).imageLayout
        (SCREEN_WIDTH { width := 400, height := 990 }) = 760 / 3 := by
  rw [scenario_state]
  refine ⟨by norm_num, by norm_num, ?_, rfl, ?_, ?_⟩
  · rw [abs_lt]
    constructor <;> norm_num
  · norm_num [run, step, resizePanResponder.onPanResponderGrant,
      resizePanResponder.onPanResponderMove]
  · norm_num [specMaxSize]

/-- C17 fails as stated: the clamp interval in force on the scenario layout
is not `[80, 380]`: the bound `maxSize` is `760 / 3`, and a resize event with
`dx = dy = 100` from `520 / 3`, whose candidate `1000 / 3` lies in
`[80, 380]`, is clamped to `760 / 3`. -/
theorem resize_scenario_interval_not_380 :
    specMaxSize
        (onGetSize { width := 400, height := 990 }
          (initialState { width := 400, height := 990 }) 1200 800).imageLayout
        (SCREEN_WIDTH { width := 400, height := 990 }) ≠ 400 * (95 / 100) ∧
    (80 ≤ (520 : ℚ) / 3 + (100 + 100) * (8 / 10) ∧
      (520 : ℚ) / 3 + (100 + 100) * (8 / 10) ≤ 400 * (95 / 100)) ∧
    (run { width := 400, height := 990 }
        (onGetSize { width := 400, height := 990 }
          (initialState { width := 400, height := 990 }) 1200 800)
        [Event.resizeGrant, Event.resizeMove 100 100]).roiDiameter ≠
      520 / 3 + (100 + 100) * (8 / 10) := by
  rw [scenario_state]
  refine ⟨?_, ⟨by norm_num, by norm_num⟩, ?_⟩
  · norm_num [specMaxSize]
  · norm_num [run, step, resizePanResponder.onPanResponderGrant,
      resizePanResponder.onPanResponderMove]

/-! ## Single-step re-clamping (C20) -/

/-- Over exact rationals: with a layout stored whose bound
`min(displayWidth, displayHeight) * 0.95` is at least 80, a resize event gives
a diameter in `[80, min(displayWidth, displayHeight) * 0.95]` and the centre
of `clampCenter` on the new diameter, circle inside the rectangle; a drag
event with a diameter of at most `min(displayWidth, displayHeight)` gives
the centre of `clampCenter` on the candidate, circle inside the rectangle. -/
theorem single_step_reclamp_exact (w : Window) (s : State) (L : Layout) (dx dy : ℚ)
    (hL : s.imageLayout = some L)
    (h80 : 80 ≤ min L.displayWidth L.displayHeight * (95 / 100)) :
    (80 ≤ (resizePanResponder.onPanResponderMove w s dx dy).roiDiameter ∧
      (resizePanResponder.onPanResponderMove w s dx dy).roiDiameter ≤
        min L.displayWidth L.displayHeight * (95 / 100) ∧
      (resizePanResponder.onPanResponderMove w s dx dy).roiCenter =
        clampCenter (some L) s.roiCenter.x s.roiCenter.y
          (resizePanResponder.onPanResponderMove w s dx dy).roiDiameter ∧
      CircleInside L (resizePanResponder.onPanResponderMove w s dx dy)) ∧
    (s.roiDiameter ≤ min L.displayWidth L.displayHeight →
      (movePanResponder.onPanResponderMove s dx dy).roiDiameter = s.roiDiameter ∧
      (movePanResponder.onPanResponderMove s dx dy).roiCenter =
        clampCenter (some L) (s.dragStart.x + dx) (s.dragStart.y + dy) s.roiDiameter ∧
      CircleInside L (movePanResponder.onPanResponderMove s dx dy)) := by
  have hmin : 80 ≤ min L.displayWidth L.displayHeight := by linarith
  constructor
  · rw [resize_move_some w s L dx dy hL]
    have hn := resizedDiameter_le_dims L s.resizeStart dx dy hmin
    exact ⟨resizedDiameter_ge _ _ _ _, resizedDiameter_le_max _ _ _ _ h80, rfl,
      circleInside_of_clamped L _ _ _ (le_trans hn (min_le_left _ _))
        (le_trans hn (min_le_right _ _)) rfl rfl⟩
  · intro hd
    rw [drag_move_some s L dx dy hL]
    exact ⟨rfl, rfl, circleInside_of_clamped L _ _ _ (le_trans hd (min_le_left _ _))
      (le_trans hd (min_le_right _ _)) rfl rfl⟩

/-! ## The projection of a selection inside the layout (C21, C22, C26) -/

/-- Between the two clamps the unrounded position fraction is `v / dim`. -/
theorem position_fraction_unclamped (dim v : ℚ) (hdim : 0 < dim)
    (hlo : 0 ≤ v) (hhi : v ≤ dim) :
    max 0 (min 1 (v / dim)) = v / dim := by
  have h1 : v / dim ≤ 1 := (div_le_one hdim).mpr hhi
  have h2 : 0 ≤ v / dim := div_nonneg hlo hdim.le
  rw [min_eq_right h1, max_eq_right h2]

/-- For a circle inside a layout of positive display dimensions whose
diameter is at least `0.05 * max(displayWidth, displayHeight)`, none of the
four clamps of `computeRoiParams` is active. -/
theorem clampedRoi_unclamped (L : Layout) (s : State)
    (hw : 0 < L.displayWidth) (hh : 0 < L.displayHeight)
    (hin : CircleInside L s)
    (hd : 5 / 100 * max L.displayWidth L.displayHeight ≤ s.roiDiameter) :
    (clampedRoi L s.roiCenter s.roiDiameter).roi_x_percent =
      (s.roiCenter.x - s.roiDiameter / 2 - L.offsetX) / L.displayWidth ∧
    (clampedRoi L s.roiCenter s.roiDiameter).roi_y_percent =
      (s.roiCenter.y - s.roiDiameter / 2 - L.offsetY) / L.displayHeight ∧
    (clampedRoi L s.roiCenter s.roiDiameter).roi_width_percent =
      s.roiDiameter / L.displayWidth ∧
    (clampedRoi L s.roiCenter s.roiDiameter).roi_height_percent =
      s.roiDiameter / L.displayHeight := by
  obtain ⟨h1, h2, h3, h4⟩ := hin
  have hmw : L.displayWidth ≤ max L.displayWidth L.displayHeight := le_max_left _ _
  have hmh : L.displayHeight ≤ max L.displayWidth L.displayHeight := le_max_right _ _
  have hdpos : 0 < s.roiDiameter := by linarith
  refine ⟨?_, ?_, ?_, ?_⟩
  · exact position_fraction_unclamped _ _ hw (by linarith) (by linarith)
  · exact position_fraction_unclamped _ _ hh (by linarith) (by linarith)
  · exact size_fraction_unclamped _ _ hw (by linarith) (by linarith)
  · exact size_fraction_unclamped _ _ hh (by linarith) (by linarith)

/-- Over exact rationals: for positive image and area dimensions the computed
layout fills the area on at least one axis and is the largest rectangle of
the image's aspect ratio that fits the area. -/
theorem computeLayout_fills_one_axis_exact (imgW imgH areaW areaH : ℚ)
    (hiw : 0 < imgW) (hih : 0 < imgH) (haw : 0 < areaW) (hah : 0 < areaH) :
    (((computeLayout imgW imgH areaW areaH).displayWidth = areaW ∧
        (computeLayout imgW imgH areaW areaH).offsetX = 0) ∨
      ((computeLayout imgW imgH areaW areaH).displayHeight = areaH ∧
        (computeLayout imgW imgH areaW areaH).offsetY = 0)) ∧
    (∀ w h : ℚ, w / h = imgW / imgH → w ≤ areaW → h ≤ areaH →
      w ≤ (computeLayout imgW imgH areaW areaH).displayWidth ∧
      h ≤ (computeLayout imgW imgH areaW areaH).displayHeight) := by
  have ha : 0 < imgW / imgH := div_pos hiw hih
  obtain ⟨hpw, hph⟩ := computeLayout_pos imgW imgH areaW areaH hiw hih haw hah
  have fit : ∀ w h : ℚ, w / h = imgW / imgH → 0 < h →
      w = h * (imgW / imgH) ∧ h = w / (imgW / imgH) := by
    intro w h hwh hpos
    have e1 : w = h * (imgW / imgH) := by
      rw [← hwh]
      field_simp
    refine ⟨e1, ?_⟩
    rw [e1]
    field_simp
  constructor
  · by_cases h : imgW / imgH > areaW / areaH
    · rw [computeLayout_wide _ _ _ _ h]
      exact Or.inl ⟨rfl, by norm_num⟩
    · rw [computeLayout_tall _ _ _ _ h]
      exact Or.inr ⟨rfl, by norm_num⟩
  · intro w h hwh hwa hha
    rcases lt_trichotomy h 0 with hneg | hzero | hpos
    · have hwneg : w < 0 := by
        by_contra hcon
        have : w / h ≤ 0 := div_nonpos_of_nonneg_of_nonpos (not_lt.mp hcon) hneg.le
        linarith
      exact ⟨by linarith, by linarith⟩
    · rw [hzero, div_zero] at hwh
      linarith
    · obtain ⟨e1, e2⟩ := fit w h hwh hpos
      by_cases hb : imgW / imgH > areaW / areaH
      · rw [computeLayout_wide _ _ _ _ hb]
        dsimp only
        refine ⟨hwa, ?_⟩
        rw [e2]
        exact div_le_div_of_nonneg_right hwa ha.le
      · rw [computeLayout_tall _ _ _ _ hb]
        dsimp only
        refine ⟨?_, hha⟩
        rw [e1]
        exact mul_le_mul_of_nonneg_right hha ha.le

/-- Rounding a nonnegative value raises it by at most half a step. -/
theorem toFixed4_le_add_half (v : ℚ) (h0 : 0 ≤ v) : toFixed4 v ≤ v + 1 / 20000 := by
  rw [toFixed4_of_nonneg v h0]
  have hf : ((⌊v * 10000 + 1 / 2⌋ : ℤ) : ℚ) ≤ v * 10000 + 1 / 2 := Int.floor_le _
  rw [div_le_iff₀ (by norm_num : (0 : ℚ) < 10000)]
  linarith

/-- C26: for a layout of positive display dimensions and a selection whose
circle lies inside the layout rectangle, with a diameter of at least
`0.05 * max(displayWidth, displayHeight)`, the unrounded fractions satisfy
`x_pct + w_pct ≤ 1` and `y_pct + h_pct ≤ 1`, and the values returned by
`computeRoiParams` satisfy `roi_x_percent + roi_width_percent ≤ 1 + 1/10000`
and `roi_y_percent + roi_height_percent ≤ 1 + 1/10000`. -/
theorem projection_inside_image (s : State) (L : Layout)
    (hL : s.imageLayout = some L)
    (hw : 0 < L.displayWidth) (hh : 0 < L.displayHeight)
    (hin : CircleInside L s)
    (hd : 5 / 100 * max L.displayWidth L.displayHeight ≤ s.roiDiameter) :
    (clampedRoi L s.roiCenter s.roiDiameter).roi_x_percent +
      (clampedRoi L s.roiCenter s.roiDiameter).roi_width_percent ≤ 1 ∧
    (clampedRoi L s.roiCenter s.roiDiameter).roi_y_percent +
      (clampedRoi L s.roiCenter s.roiDiameter).roi_height_percent ≤ 1 ∧
    ∃ p : RoiParams, computeRoiParams s = some p ∧
      p.roi_x_percent + p.roi_width_percent ≤ 1 + 1 / 10000 ∧
      p.roi_y_percent + p.roi_height_percent ≤ 1 + 1 / 10000 := by
  obtain ⟨ex, ey, ew, eh⟩ := clampedRoi_unclamped L s hw hh hin hd
  obtain ⟨h1, h2, h3, h4⟩ := hin
  have hmw : L.displayWidth ≤ max L.displayWidth L.displayHeight := le_max_left _ _
  have hdpos : 0 < s.roiDiameter := by linarith
  have sx : (s.roiCenter.x - s.roiDiameter / 2 - L.offsetX) / L.displayWidth +
      s.roiDiameter / L.displayWidth ≤ 1 := by
    rw [← add_div, div_le_one hw]
    linarith
  have sy : (s.roiCenter.y - s.roiDiameter / 2 - L.offsetY) / L.displayHeight +
      s.roiDiameter / L.displayHeight ≤ 1 := by
    rw [← add_div, div_le_one hh]
    linarith
  have nx : 0 ≤ (s.roiCenter.x - s.roiDiameter / 2 - L.offsetX) / L.displayWidth :=
    div_nonneg (by linarith) hw.le
  have ny : 0 ≤ (s.roiCenter.y - s.roiDiameter / 2 - L.offsetY) / L.displayHeight :=
    div_nonneg (by linarith) hh.le
  have nw : 0 ≤ s.roiDiameter / L.displayWidth := div_nonneg hdpos.le hw.le
  have nh : 0 ≤ s.roiDiameter / L.displayHeight := div_nonneg hdpos.le hh.le
  refine ⟨by rw [ex, ew]; exact sx, by rw [ey, eh]; exact sy, _,
    computeRoiParams_some s L hL, ?_, ?_⟩
  · dsimp only
    rw [ex, ew]
    linarith [toFixed4_le_add_half _ nx, toFixed4_le_add_half _ nw]
  · dsimp only
    rw [ey, eh]
    linarith [toFixed4_le_add_half _ ny, toFixed4_le_add_half _ nh]

theorem projection_inside_image_witness :
    ∃ p : RoiParams,
      computeRoiParams
        { imageLayout := some { displayWidth := 400, displayHeight := 300,
                                offsetX := 0, offsetY := 250 }
          roiCenter := { x := 150, y := 400 }, roiDiameter := 200
          dragStart := { x := 0, y := 0 }, resizeStart := 0 } = some p ∧
      p.roi_x_percent + p.roi_width_percent ≤ 1 + 1 / 10000 ∧
      p.roi_y_percent + p.roi_height_percent ≤ 1 + 1 / 10000 :=
  (projection_inside_image
    { imageLayout := some { displayWidth := 400, displayHeight := 300,
                            offsetX := 0, offsetY := 250 }
      roiCenter := { x := 150, y := 400 }, roiDiameter := 200
      dragStart := { x := 0, y := 0 }, resizeStart := 0 }
    { displayWidth := 400, displayHeight := 300, offsetX := 0, offsetY := 250 }
    rfl (by norm_num) (by norm_num)
    (by norm_num [CircleInside]) (by norm_num)).2.2

/-! ## Gesture recognition (C24) -/

/-- C24 (as the code has it): `onMoveShouldSetPanResponder` answers true
exactly when `|dx| > 2` or `|dy| > 2`, but `onStartShouldSetPanResponder` is
constantly true: a touch on the circle is claimed at its start, and every
following move, whatever its deltas, is handled by `onPanResponderMove` on
the state of the grant; without a layout the centre moves by exactly
`(dx, dy)`. -/
theorem drag_claimed_at_start (s : State) (dx dy : ℚ) :
    (movePanResponder.onMoveShouldSetPanResponder dx dy = true ↔ |dx| > 2 ∨ |dy| > 2) ∧
    movePanResponder.onStartShouldSetPanResponder = true ∧
    (movePanResponder.handle { isResponder := false, state := s }
      TouchEvent.start).isResponder = true ∧
    (movePanResponder.handle
        (movePanResponder.handle { isResponder := false, state := s } TouchEvent.start)
        (TouchEvent.move dx dy)).state =
      movePanResponder.onPanResponderMove (movePanResponder.onPanResponderGrant s) dx dy ∧
    (movePanResponder.handle
        (movePanResponder.handle
          { isResponder := false, state := { s with imageLayout := none } } TouchEvent.start)
        (TouchEvent.move dx dy)).state.roiCenter =
      { x := s.roiCenter.x + dx, y := s.roiCenter.y + dy } := by
  refine ⟨?_, rfl, rfl, rfl, ?_⟩
  · simp [movePanResponder.onMoveShouldSetPanResponder]
  · simp [movePanResponder.handle, movePanResponder.onStartShouldSetPanResponder,
      movePanResponder.onPanResponderMove, movePanResponder.onPanResponderGrant]

/-- C24 fails as stated: in the scenario state (centre `(200, 400)`) a touch
on the circle is claimed at its start, and a move by `(1, 1)`, inside the
deadzone, sets the centre to `(201, 401)`. -/
theorem deadzone_move_changes_center :
    |(1 : ℚ)| ≤ 2 ∧
    movePanResponder.onMoveShouldSetPanResponder 1 1 = false ∧
    (movePanResponder.handle
        { isResponder := false
          state := onGetSize { width := 400, height := 990 }
            (initialState { width := 400, height := 990 }) 1200 800 }
        TouchEvent.start).isResponder = true ∧
    (onGetSize { width := 400, height := 990 }
        (initialState { width := 400, height := 990 }) 1200 800).roiCenter =
      { x := 200, y := 400 } ∧
    (movePanResponder.handle
        (movePanResponder.handle
          { isResponder := false
            state := onGetSize { width := 400, height := 990 }
              (initialState { width := 400, height := 990 }) 1200 800 }
          TouchEvent.start)
        (TouchEvent.move 1 1)).state.roiCenter = { x := 201, y := 401 } := by
  rw [scenario_state]
  refine ⟨by norm_num, ?_, rfl, rfl, ?_⟩
  · norm_num [movePanResponder.onMoveShouldSetPanResponder]
  · norm_num [movePanResponder.handle, movePanResponder.onStartShouldSetPanResponder,
      movePanResponder.onPanResponderMove, movePanResponder.onPanResponderGrant]

/-! ## Projection of the default selection (C25) -/

theorem toFixed4_0175 : toFixed4 (7 / 40) = 175 / 1000 := by
  rw [toFixed4_eq_of (7 / 40) 1750 (by norm_num) (by norm_num) (by norm_num)]
  norm_num

theorem toFixed4_065 : toFixed4 (13 / 20) = 65 / 100 := by
  rw [toFixed4_eq_of (13 / 20) 6500 (by norm_num) (by norm_num) (by norm_num)]
  norm_num

/-- On an axis of positive dimension `dim`, a circle of diameter `dim * 0.65`
centred at `off + dim / 2` projects, before rounding, to the position `7/40`
and the size `13/20`. -/
theorem default_axis_fraction (dim off : ℚ) (hdim : 0 < dim) :
    max 0 (min 1 ((off + dim / 2 - dim * (65 / 100) / 2 - off) / dim)) = 7 / 40 ∧
    max (5 / 100) (min 1 (dim * (65 / 100) / dim)) = 13 / 20 := by
  have e1 : (off + dim / 2 - dim * (65 / 100) / 2 - off) / dim = 7 / 40 := by
    field_simp
    ring
  have e2 : dim * (65 / 100) / dim = 13 / 20 := by
    field_simp
    ring
  rw [e1, e2]
  constructor <;> norm_num

/-- C25: on a resolved layout (positive image and area dimensions) the
projection of the post-layout default selection has position 0.175 and size
0.65 on the axis of the smaller display dimension; when `displayWidth =
displayHeight` it is `{0.175, 0.175, 0.65, 0.65}`, the default rectangle of
the Main prototype's API client. -/
theorem default_projection (w : Window) (s : State) (imgW imgH : ℚ)
    (hiw : 0 < imgW) (hih : 0 < imgH)
    (haw : 0 < SCREEN_WIDTH w) (hah : 0 < IMAGE_AREA_HEIGHT w) :
    ∃ p : RoiParams, computeRoiParams (onGetSize w s imgW imgH) = some p ∧
      ((computeLayout imgW imgH (SCREEN_WIDTH w) (IMAGE_AREA_HEIGHT w)).displayWidth ≤
          (computeLayout imgW imgH (SCREEN_WIDTH w) (IMAGE_AREA_HEIGHT w)).displayHeight →
        p.roi_x_percent = 175 / 1000 ∧ p.roi_width_percent = 65 / 100) ∧
      ((computeLayout imgW imgH (SCREEN_WIDTH w) (IMAGE_AREA_HEIGHT w)).displayHeight ≤
          (computeLayout imgW imgH (SCREEN_WIDTH w) (IMAGE_AREA_HEIGHT w)).displayWidth →
        p.roi_y_percent = 175 / 1000 ∧ p.roi_height_percent = 65 / 100) ∧
      ((computeLayout imgW imgH (SCREEN_WIDTH w) (IMAGE_AREA_HEIGHT w)).displayWidth =
          (computeLayout imgW imgH (SCREEN_WIDTH w) (IMAGE_AREA_HEIGHT w)).displayHeight →
        p = { roi_x_percent := 175 / 1000, roi_y_percent := 175 / 1000,
              roi_width_percent := 65 / 100, roi_height_percent := 65 / 100 } ∧
        p = Api.Main.params none) := by
  obtain ⟨hpw, hph⟩ :=
    computeLayout_pos imgW imgH (SCREEN_WIDTH w) (IMAGE_AREA_HEIGHT w) hiw hih haw hah
  refine ⟨_, computeRoiParams_some _ _ rfl, ?_, ?_, ?_⟩
  · intro hle
    simp only [onGetSize, clampedRoi]
    rw [min_eq_left hle]
    obtain ⟨e1, e2⟩ := default_axis_fraction _
      (computeLayout imgW imgH (SCREEN_WIDTH w) (IMAGE_AREA_HEIGHT w)).offsetX hpw
    rw [e1, e2]
    exact ⟨toFixed4_0175, toFixed4_065⟩
  · intro hle
    simp only [onGetSize, clampedRoi]
    rw [min_eq_right hle]
    obtain ⟨e1, e2⟩ := default_axis_fraction _
      (computeLayout imgW imgH (SCREEN_WIDTH w) (IMAGE_AREA_HEIGHT w)).offsetY hph
    rw [e1, e2]
    exact ⟨toFixed4_0175, toFixed4_065⟩
  · intro heq
    suffices key : _ = (⟨175 / 1000, 175 / 1000, 65 / 100, 65 / 100⟩ : RoiParams) from
      ⟨key, key⟩
    simp only [onGetSize, clampedRoi]
    obtain ⟨e1, e2⟩ := default_axis_fraction _
      (computeLayout imgW imgH (SCREEN_WIDTH w) (IMAGE_AREA_HEIGHT w)).offsetX hpw
    obtain ⟨e3, e4⟩ := default_axis_fraction _
      (computeLayout imgW imgH (SCREEN_WIDTH w) (IMAGE_AREA_HEIGHT w)).offsetY hph
    rw [min_eq_left heq.le, e1, e2]
    rw [heq, e3, e4, toFixed4_0175, toFixed4_065]

theorem default_projection_witness :
    ∃ p : RoiParams,
      computeRoiParams (onGetSize { width := 400, height := 990 }
        (initialState { width := 400, height := 990 }) 1000 1000) = some p ∧
      p = { roi_x_percent := 175 / 1000, roi_y_percent := 175 / 1000,
            roi_width_percent := 65 / 100, roi_height_percent := 65 / 100 } ∧
      p = Api.Main.params none := by
  obtain ⟨p, hp, _, _, h3⟩ := default_projection { width := 400, height := 990 }
    (initialState { width := 400, height := 990 }) 1000 1000
    (by norm_num) (by norm_num)
    (by norm_num [SCREEN_WIDTH])
    (by norm_num [IMAGE_AREA_HEIGHT, SCREEN_HEIGHT, TOP_BAR_HEIGHT, BOTTOM_BAR_HEIGHT])
  exact ⟨p, hp, h3 (by norm_num [computeLayout, SCREEN_WIDTH, IMAGE_AREA_HEIGHT,
    SCREEN_HEIGHT, TOP_BAR_HEIGHT, BOTTOM_BAR_HEIGHT])⟩

/-! ## The layout over binary64 (C3, C22) -/

theorem Double.layout_wide (imgW imgH areaW areaH : ℚ)
    (h : Binary64.div imgW imgH > Binary64.div areaW areaH) :
    Double.computeLayout imgW imgH areaW areaH =
      { displayWidth := areaW
        displayHeight := Binary64.div areaW (Binary64.div imgW imgH)
        offsetX := 0
        offsetY := Binary64.div
          (Binary64.sub areaH (Binary64.div areaW (Binary64.div imgW imgH))) 2 } := by
  simp only [Double.computeLayout, if_pos h, Binary64.sub_self_eq, Binary64.zero_div_eq]

theorem Double.layout_tall (imgW imgH areaW areaH : ℚ)
    (h : ¬ Binary64.div imgW imgH > Binary64.div areaW areaH) :
    Double.computeLayout imgW imgH areaW areaH =
      { displayWidth := Binary64.mul areaH (Binary64.div imgW imgH)
        displayHeight := areaH
        offsetX := Binary64.div
          (Binary64.sub areaW (Binary64.mul areaH (Binary64.div imgW imgH))) 2
        offsetY := 0 } := by
  simp only [Double.computeLayout, if_neg h, Binary64.sub_self_eq, Binary64.zero_div_eq]

/-- The centring offset `(A - F) / 2` over binary64, for a free dimension `F`
that exceeds the area dimension `A` by at most the factor `1 + 3 * 2 ^ (-53)`:
it is at least `-A * 2 ^ (-51)`, and offset plus `F` is at most
`A * (1 + 2 ^ (-51))`. -/
theorem Double.offset_bounds (A F : ℚ) (hA : 0 < A)
    (hF : F ≤ A * (1 + 3 / 2 ^ (53 : ℕ))) :
    -(A / 2 ^ (51 : ℕ)) ≤ Binary64.div (Binary64.sub A F) 2 ∧
    Binary64.div (Binary64.sub A F) 2 + F ≤ A * (1 + 1 / 2 ^ (51 : ℕ)) := by
  unfold Binary64.div Binary64.sub
  rcases le_or_lt 0 (A - F) with ht | ht
  · have r1 := Binary64.rnd_nonneg (A - F) ht
    have r1u := Binary64.rnd_le_of_nonneg (A - F) ht
    have h0 : 0 ≤ Binary64.rnd (A - F) / 2 := by linarith
    have r2 := Binary64.rnd_nonneg _ h0
    have r2u := Binary64.rnd_le_of_nonneg _ h0
    norm_num at r1u r2u ⊢
    constructor <;> linarith
  · have r1 := Binary64.rnd_nonpos (A - F) ht.le
    have r1l := Binary64.rnd_ge_of_nonpos (A - F) ht.le
    have h0 : Binary64.rnd (A - F) / 2 ≤ 0 := by linarith
    have r2 := Binary64.rnd_nonpos _ h0
    have r2l := Binary64.rnd_ge_of_nonpos _ h0
    norm_num at r1l r2l hF ⊢
    constructor <;> linarith

/-- The free display dimension over binary64 exceeds the area dimension by at
most the factor `1 + 3 * 2 ^ (-53)`, and both display dimensions are
positive. -/
theorem Double.free_dimension_bound (imgW imgH areaW areaH : ℚ)
    (hiw : 0 < imgW) (hih : 0 < imgH) (haw : 0 < areaW) (hah : 0 < areaH) :
    0 < (Double.computeLayout imgW imgH areaW areaH).displayWidth ∧
    0 < (Double.computeLayout imgW imgH areaW areaH).displayHeight ∧
    (Double.computeLayout imgW imgH areaW areaH).displayWidth ≤
      areaW * (1 + 3 / 2 ^ (53 : ℕ)) ∧
    (Double.computeLayout imgW imgH areaW areaH).displayHeight ≤
      areaH * (1 + 3 / 2 ^ (53 : ℕ)) := by
  have hA : 0 < imgW / imgH := div_pos hiw hih
  have hB : 0 < areaW / areaH := div_pos haw hah
  have ha : 0 < Binary64.div imgW imgH := Binary64.rnd_pos _ hA
  have hb : 0 < Binary64.div areaW areaH := Binary64.rnd_pos _ hB
  have hbu : Binary64.div areaW areaH ≤ areaW / areaH * (1 + 1 / 2 ^ (53 : ℕ)) :=
    Binary64.rnd_le_of_nonneg _ hB.le
  have hbl : areaW / areaH * (1 - 1 / 2 ^ (53 : ℕ)) ≤ Binary64.div areaW areaH :=
    Binary64.rnd_ge_of_nonneg _ hB.le
  have hmul : areaH * (areaW / areaH) = areaW := by field_simp
  by_cases h : Binary64.div imgW imgH > Binary64.div areaW areaH
  · rw [Double.layout_wide _ _ _ _ h]
    dsimp only
    have hq : 0 < areaW / Binary64.div imgW imgH := div_pos haw ha
    have hdh : Binary64.div areaW (Binary64.div imgW imgH) ≤
        areaW / Binary64.div imgW imgH * (1 + 1 / 2 ^ (53 : ℕ)) :=
      Binary64.rnd_le_of_nonneg _ hq.le
    have hq1 : areaW / Binary64.div imgW imgH ≤ areaW / Binary64.div areaW areaH :=
      div_le_div_of_nonneg_left haw.le hb h.le
    have hq2 : areaW / Binary64.div areaW areaH * (1 - 1 / 2 ^ (53 : ℕ)) ≤ areaH := by
      rw [div_mul_eq_mul_div, div_le_iff₀ hb]
      have := mul_le_mul_of_nonneg_left hbl hah.le
      rw [← mul_assoc, hmul] at this
      linarith
    have hdpos : 0 < Binary64.div areaW (Binary64.div imgW imgH) := Binary64.rnd_pos _ hq
    refine ⟨haw, hdpos, by norm_num; linarith, ?_⟩
    norm_num at hdh hq2 ⊢
    linarith
  · rw [Double.layout_tall _ _ _ _ h]
    dsimp only
    have hle : Binary64.div imgW imgH ≤ Binary64.div areaW areaH := not_lt.mp h
    have hp : 0 < areaH * Binary64.div imgW imgH := mul_pos hah ha
    have hdw : Binary64.mul areaH (Binary64.div imgW imgH) ≤
        areaH * Binary64.div imgW imgH * (1 + 1 / 2 ^ (53 : ℕ)) :=
      Binary64.rnd_le_of_nonneg _ hp.le
    have hp1 : areaH * Binary64.div imgW imgH ≤ areaW * (1 + 1 / 2 ^ (53 : ℕ)) := by
      have h1 := mul_le_mul_of_nonneg_left (le_trans hle hbu) hah.le
      rw [← mul_assoc, hmul] at h1
      exact h1
    have hdpos : 0 < Binary64.mul areaH (Binary64.div imgW imgH) := Binary64.rnd_pos _ hp
    refine ⟨hdpos, hah, ?_, by norm_num; linarith⟩
    norm_num at hdw hp1 ⊢
    linarith

/-- Over binary64: for positive image and area dimensions the layout is a
sub-rectangle of the area up to a relative rounding error of `2 ^ (-51)`. -/
theorem Double.computeLayout_near_area (imgW imgH areaW areaH : ℚ)
    (hiw : 0 < imgW) (hih : 0 < imgH) (haw : 0 < areaW) (hah : 0 < areaH) :
    -(areaW / 2 ^ (51 : ℕ)) ≤ (Double.computeLayout imgW imgH areaW areaH).offsetX ∧
    -(areaH / 2 ^ (51 : ℕ)) ≤ (Double.computeLayout imgW imgH areaW areaH).offsetY ∧
    (Double.computeLayout imgW imgH areaW areaH).offsetX +
      (Double.computeLayout imgW imgH areaW areaH).displayWidth ≤
        areaW * (1 + 1 / 2 ^ (51 : ℕ)) ∧
    (Double.computeLayout imgW imgH areaW areaH).offsetY +
      (Double.computeLayout imgW imgH areaW areaH).displayHeight ≤
        areaH * (1 + 1 / 2 ^ (51 : ℕ)) ∧
    (Double.computeLayout imgW imgH areaW areaH).displayWidth ≤
      areaW * (1 + 1 / 2 ^ (51 : ℕ)) ∧
    (Double.computeLayout imgW imgH areaW areaH).displayHeight ≤
      areaH * (1 + 1 / 2 ^ (51 : ℕ)) := by
  obtain ⟨pw, ph, bw, bh⟩ := Double.free_dimension_bound imgW imgH areaW areaH hiw hih haw hah
  have ox : (Double.computeLayout imgW imgH areaW areaH).offsetX =
      Binary64.div (Binary64.sub areaW
        (Double.computeLayout imgW imgH areaW areaH).displayWidth) 2 := rfl
  have oy : (Double.computeLayout imgW imgH areaW areaH).offsetY =
      Binary64.div (Binary64.sub areaH
        (Double.computeLayout imgW imgH areaW areaH).displayHeight) 2 := rfl
  obtain ⟨x1, x2⟩ := Double.offset_bounds areaW _ haw bw
  obtain ⟨y1, y2⟩ := Double.offset_bounds areaH _ hah bh
  rw [← ox] at x1 x2
  rw [← oy] at y1 y2
  refine ⟨x1, y1, x2, y2, ?_, ?_⟩
  · norm_num at bw ⊢
    linarith
  · norm_num at bh ⊢
    linarith

/-- C3 (as the code has it): for positive image and area dimensions the
resolved layout is a sub-rectangle of the area in exact arithmetic (offsets
nonnegative, offset plus display size within the area, display size within
the area); as the program evaluates it in binary64 the same six bounds hold
up to a relative rounding error of `2 ^ (-51)`. -/
theorem layout_within_area_up_to_rounding (imgW imgH areaW areaH : ℚ)
    (hiw : 0 < imgW) (hih : 0 < imgH) (haw : 0 < areaW) (hah : 0 < areaH) :
    (0 ≤ (computeLayout imgW imgH areaW areaH).offsetX ∧
      0 ≤ (computeLayout imgW imgH areaW areaH).offsetY ∧
      (computeLayout imgW imgH areaW areaH).offsetX +
        (computeLayout imgW imgH areaW areaH).displayWidth ≤ areaW ∧
      (computeLayout imgW imgH areaW areaH).offsetY +
        (computeLayout imgW imgH areaW areaH).displayHeight ≤ areaH ∧
      (computeLayout imgW imgH areaW areaH).displayWidth ≤ areaW ∧
      (computeLayout imgW imgH areaW areaH).displayHeight ≤ areaH) ∧
    (-(areaW / 2 ^ (51 : ℕ)) ≤ (Double.computeLayout imgW imgH areaW areaH).offsetX ∧
      -(areaH / 2 ^ (51 : ℕ)) ≤ (Double.computeLayout imgW imgH areaW areaH).offsetY ∧
      (Double.computeLayout imgW imgH areaW areaH).offsetX +
        (Double.computeLayout imgW imgH areaW areaH).displayWidth ≤
          areaW * (1 + 1 / 2 ^ (51 : ℕ)) ∧
      (Double.computeLayout imgW imgH areaW areaH).offsetY +
        (Double.computeLayout imgW imgH areaW areaH).displayHeight ≤
          areaH * (1 + 1 / 2 ^ (51 : ℕ)) ∧
      (Double.computeLayout imgW imgH areaW areaH).displayWidth ≤
        areaW * (1 + 1 / 2 ^ (51 : ℕ)) ∧
      (Double.computeLayout imgW imgH areaW areaH).displayHeight ≤
        areaH * (1 + 1 / 2 ^ (51 : ℕ))) :=
  ⟨computeLayout_within_area_exact imgW imgH areaW areaH hiw hih haw hah,
    Double.computeLayout_near_area imgW imgH areaW areaH hiw hih haw hah⟩

theorem layout_within_area_up_to_rounding_witness :
    (computeLayout 1080 1773 360 591).displayWidth ≤ 360 ∧
    (Double.computeLayout 1080 1773 360 591).displayWidth ≤ 360 * (1 + 1 / 2 ^ (51 : ℕ)) ∧
    -(360 / 2 ^ (51 : ℕ)) ≤ (Double.computeLayout 1080 1773 360 591).offsetX :=
  ⟨(layout_within_area_up_to_rounding 1080 1773 360 591
      (by norm_num) (by norm_num) (by norm_num) (by norm_num)).1.2.2.2.2.1,
   (layout_within_area_up_to_rounding 1080 1773 360 591
      (by norm_num) (by norm_num) (by norm_num) (by norm_num)).2.2.2.2.2.1,
   (layout_within_area_up_to_rounding 1080 1773 360 591
      (by norm_num) (by norm_num) (by norm_num) (by norm_num)).2.1⟩

/-- C3 fails as stated: for a 1080 x 1773 image in a 360 x 591 area the
program computes, in binary64, `displayWidth = 591 * (1080 / 1773) =
360.00000000000006`, greater than the area width 360, and a negative
`offsetX`. -/
theorem layout_exceeds_area_binary64 :
    Double.computeLayout 1080 1773 360 591 =
      { displayWidth := 6333186975989761 / 17592186044416, displayHeight := 591,
        offsetX := -(1 / 35184372088832), offsetY := 0 } ∧
    ¬ ((Double.computeLayout 1080 1773 360 591).displayWidth ≤ 360) ∧
    ¬ (0 ≤ (Double.computeLayout 1080 1773 360 591).offsetX) := by
  have h1 : Binary64.rnd (120 / 197) = 685827354421903 / 1125899906842624 := by
    rw [Binary64.rnd_eq_pos _ (-1) 5486618835375224 (by norm_num) (by norm_num) (by norm_num)
      (by norm_num)]
    norm_num
  have h2 : Binary64.rnd (405323966463344673 / 1125899906842624) = 6333186975989761 / 17592186044416 := by
    rw [Binary64.rnd_eq_pos _ 8 6333186975989761 (by norm_num) (by norm_num) (by norm_num)
      (by norm_num)]
    norm_num
  have h3 : Binary64.rnd (-(1 / 17592186044416)) = -(1 / 17592186044416) := by
    rw [Binary64.rnd_eq_neg _ (-44) (-4503599627370496) (by norm_num) (by norm_num) (by norm_num)
      (by norm_num)]
    norm_num
  have h4 : Binary64.rnd (-(1 / 35184372088832)) = -(1 / 35184372088832) := by
    rw [Binary64.rnd_eq_neg _ (-45) (-4503599627370496) (by norm_num) (by norm_num) (by norm_num)
      (by norm_num)]
    norm_num
  have key : Double.computeLayout 1080 1773 360 591 =
      { displayWidth := 6333186975989761 / 17592186044416, displayHeight := 591,
        offsetX := -(1 / 35184372088832), offsetY := 0 } := by
    simp only [Double.computeLayout, Binary64.div, Binary64.mul, Binary64.sub]
    norm_num [h1, h2, h3, h4, Binary64.rnd_zero]
  rw [key]
  refine ⟨rfl, ?_, ?_⟩ <;> norm_num

/-- Over binary64: the layout fills the area on at least one axis, and every
rectangle of the image's aspect ratio that fits the area is at most the
display size up to a relative rounding error of `2 ^ (-51)`. -/
theorem Double.computeLayout_maximal (imgW imgH areaW areaH : ℚ)
    (hiw : 0 < imgW) (hih : 0 < imgH) (haw : 0 < areaW) (hah : 0 < areaH) :
    (((Double.computeLayout imgW imgH areaW areaH).displayWidth = areaW ∧
        (Double.computeLayout imgW imgH areaW areaH).offsetX = 0) ∨
      ((Double.computeLayout imgW imgH areaW areaH).displayHeight = areaH ∧
        (Double.computeLayout imgW imgH areaW areaH).offsetY = 0)) ∧
    (∀ w h : ℚ, w / h = imgW / imgH → w ≤ areaW → h ≤ areaH →
      w ≤ (Double.computeLayout imgW imgH areaW areaH).displayWidth *
        (1 + 1 / 2 ^ (51 : ℕ)) ∧
      h ≤ (Double.computeLayout imgW imgH areaW areaH).displayHeight *
        (1 + 1 / 2 ^ (51 : ℕ))) := by
  have hA : 0 < imgW / imgH := div_pos hiw hih
  have ha : 0 < Binary64.div imgW imgH := Binary64.rnd_pos _ hA
  have hau : Binary64.div imgW imgH ≤ imgW / imgH * (1 + 1 / 2 ^ (53 : ℕ)) :=
    Binary64.rnd_le_of_nonneg _ hA.le
  have hal : imgW / imgH * (1 - 1 / 2 ^ (53 : ℕ)) ≤ Binary64.div imgW imgH :=
    Binary64.rnd_ge_of_nonneg _ hA.le
  obtain ⟨pw, ph, _, _⟩ := Double.free_dimension_bound imgW imgH areaW areaH hiw hih haw hah
  constructor
  · by_cases h : Binary64.div imgW imgH > Binary64.div areaW areaH
    · rw [Double.layout_wide _ _ _ _ h]
      exact Or.inl ⟨rfl, rfl⟩
    · rw [Double.layout_tall _ _ _ _ h]
      exact Or.inr ⟨rfl, rfl⟩
  · intro w h hwh hwa hha
    rcases lt_trichotomy h 0 with hneg | hzero | hpos
    · have hwneg : w < 0 := by
        by_contra hcon
        have : w / h ≤ 0 := div_nonpos_of_nonneg_of_nonpos (not_lt.mp hcon) hneg.le
        linarith
      constructor
      · norm_num
        linarith
      · norm_num
        linarith
    · rw [hzero, div_zero] at hwh
      linarith
    · have e1 : w = h * (imgW / imgH) := by
        rw [← hwh]
        field_simp
      have e2 : h = w / (imgW / imgH) := by
        rw [e1]
        field_simp
      have hw0 : 0 < w := by
        rw [e1]
        exact mul_pos hpos hA
      by_cases hb : Binary64.div imgW imgH > Binary64.div areaW areaH
      · rw [Double.layout_wide _ _ _ _ hb] at ph ⊢
        dsimp only at ph ⊢
        have hR : 0 < areaW / Binary64.div imgW imgH := div_pos haw ha
        have hdh : areaW / Binary64.div imgW imgH * (1 - 1 / 2 ^ (53 : ℕ)) ≤
            Binary64.div areaW (Binary64.div imgW imgH) :=
          Binary64.rnd_ge_of_nonneg _ hR.le
        have hQ : areaW / (imgW / imgH) ≤
            areaW / Binary64.div imgW imgH * (1 + 1 / 2 ^ (53 : ℕ)) := by
          rw [div_mul_eq_mul_div, le_div_iff₀ ha]
          have hQ0 : 0 ≤ areaW / (imgW / imgH) := (div_pos haw hA).le
          have h1 := mul_le_mul_of_nonneg_left hau hQ0
          have h2 : areaW / (imgW / imgH) * (imgW / imgH * (1 + 1 / 2 ^ (53 : ℕ))) =
              areaW * (1 + 1 / 2 ^ (53 : ℕ)) := by
            field_simp
            ring
          rw [h2] at h1
          exact h1
        have hh2 : h ≤ areaW / (imgW / imgH) := by
          rw [e2]
          exact div_le_div_of_nonneg_right hwa hA.le
        constructor
        · norm_num
          linarith
        · norm_num at hdh hQ ⊢
          linarith
      · rw [Double.layout_tall _ _ _ _ hb] at pw ⊢
        dsimp only at pw ⊢
        have hP : 0 < areaH * Binary64.div imgW imgH := mul_pos hah ha
        have hdw : areaH * Binary64.div imgW imgH * (1 - 1 / 2 ^ (53 : ℕ)) ≤
            Binary64.mul areaH (Binary64.div imgW imgH) :=
          Binary64.rnd_ge_of_nonneg _ hP.le
        have hZ : areaH * (imgW / imgH * (1 - 1 / 2 ^ (53 : ℕ))) ≤
            areaH * Binary64.div imgW imgH :=
          mul_le_mul_of_nonneg_left hal hah.le
        have hw2 : w ≤ areaH * (imgW / imgH) := by
          rw [e1]
          exact mul_le_mul_of_nonneg_right hha hA.le
        have hZ0 : 0 < areaH * (imgW / imgH) := mul_pos hah hA
        constructor
        · norm_num at hdw hZ ⊢
          linarith
        · norm_num
          linarith

/-- C22 (as the code has it): for positive image and area dimensions the
resolved layout fills the area on at least one axis (`displayWidth = areaW`
and `offsetX = 0`, or `displayHeight = areaH` and `offsetY = 0`), in exact
arithmetic and in binary64 alike; in exact arithmetic it is the largest
rectangle of the image's aspect ratio that fits the area, and in binary64
every such rectangle is at most the display size up to a relative rounding
error of `2 ^ (-51)`. -/
theorem layout_fills_one_axis_up_to_rounding (imgW imgH areaW areaH : ℚ)
    (hiw : 0 < imgW) (hih : 0 < imgH) (haw : 0 < areaW) (hah : 0 < areaH) :
    ((((computeLayout imgW imgH areaW areaH).displayWidth = areaW ∧
          (computeLayout imgW imgH areaW areaH).offsetX = 0) ∨
        ((computeLayout imgW imgH areaW areaH).displayHeight = areaH ∧
          (computeLayout imgW imgH areaW areaH).offsetY = 0)) ∧
      (∀ w h : ℚ, w / h = imgW / imgH → w ≤ areaW → h ≤ areaH →
        w ≤ (computeLayout imgW imgH areaW areaH).displayWidth ∧
        h ≤ (computeLayout imgW imgH areaW areaH).displayHeight)) ∧
    ((((Double.computeLayout imgW imgH areaW areaH).displayWidth = areaW ∧
          (Double.computeLayout imgW imgH areaW areaH).offsetX = 0) ∨
        ((Double.computeLayout imgW imgH areaW areaH).displayHeight = areaH ∧
          (Double.computeLayout imgW imgH areaW areaH).offsetY = 0)) ∧
      (∀ w h : ℚ, w / h = imgW / imgH → w ≤ areaW → h ≤ areaH →
        w ≤ (Double.computeLayout imgW imgH areaW areaH).displayWidth *
          (1 + 1 / 2 ^ (51 : ℕ)) ∧
        h ≤ (Double.computeLayout imgW imgH areaW areaH).displayHeight *
          (1 + 1 / 2 ^ (51 : ℕ)))) :=
  ⟨computeLayout_fills_one_axis_exact imgW imgH areaW areaH hiw hih haw hah,
    Double.computeLayout_maximal imgW imgH areaW areaH hiw hih haw hah⟩

theorem layout_fills_one_axis_up_to_rounding_witness :
    (((Double.computeLayout 822 800 411 700).displayWidth = 411 ∧
        (Double.computeLayout 822 800 411 700).offsetX = 0) ∨
      ((Double.computeLayout 822 800 411 700).displayHeight = 700 ∧
        (Double.computeLayout 822 800 411 700).offsetY = 0)) ∧
    ((411 : ℚ) ≤ (Double.computeLayout 822 800 411 700).displayWidth *
        (1 + 1 / 2 ^ (51 : ℕ)) ∧
      (400 : ℚ) ≤ (Double.computeLayout 822 800 411 700).displayHeight *
        (1 + 1 / 2 ^ (51 : ℕ))) :=
  ⟨(layout_fills_one_axis_up_to_rounding 822 800 411 700
      (by norm_num) (by norm_num) (by norm_num) (by norm_num)).2.1,
   (layout_fills_one_axis_up_to_rounding 822 800 411 700
      (by norm_num) (by norm_num) (by norm_num) (by norm_num)).2.2 411 400
      (by norm_num) (by norm_num) (by norm_num)⟩

/-- C22 fails as stated: for an 822 x 800 image in a 411 x 700 area the
program computes, in binary64, `displayHeight = 411 / (822 / 800) =
399.99999999999994`; the rectangle 411 x 400 has the image's aspect ratio
and fits the area, yet its height exceeds `displayHeight`. -/
theorem layout_not_maximal_binary64 :
    (411 : ℚ) / 400 = 822 / 800 ∧ (411 : ℚ) ≤ 411 ∧ (400 : ℚ) ≤ 700 ∧
    Double.computeLayout 822 800 411 700 =
      { displayWidth := 411, displayHeight := 7036874417766399 / 17592186044416,
        offsetX := 0, offsetY := 5277655813324801 / 35184372088832 } ∧
    ¬ ((400 : ℚ) ≤ (Double.computeLayout 822 800 411 700).displayHeight) := by
  have h1 : Binary64.rnd (411 / 400) = 4627448617123185 / 4503599627370496 := by
    rw [Binary64.rnd_eq_pos _ 0 4627448617123185 (by norm_num) (by norm_num) (by norm_num)
      (by norm_num)]
    norm_num
  have h2 : Binary64.rnd (411 / 700) = 661064088160455 / 1125899906842624 := by
    rw [Binary64.rnd_eq_pos _ (-1) 5288512705283640 (by norm_num) (by norm_num) (by norm_num)
      (by norm_num)]
    norm_num
  have h3 : Binary64.rnd (616993148949757952 / 1542482872374395) = 7036874417766399 / 17592186044416 := by
    rw [Binary64.rnd_eq_pos _ 8 7036874417766399 (by norm_num) (by norm_num) (by norm_num)
      (by norm_num)]
    norm_num
  have h4 : Binary64.rnd (5277655813324801 / 17592186044416) = 5277655813324801 / 17592186044416 := by
    rw [Binary64.rnd_eq_pos _ 8 5277655813324801 (by norm_num) (by norm_num) (by norm_num)
      (by norm_num)]
    norm_num
  have h5 : Binary64.rnd (5277655813324801 / 35184372088832) = 5277655813324801 / 35184372088832 := by
    rw [Binary64.rnd_eq_pos _ 7 5277655813324801 (by norm_num) (by norm_num) (by norm_num)
      (by norm_num)]
    norm_num
  have key : Double.computeLayout 822 800 411 700 =
      { displayWidth := 411, displayHeight := 7036874417766399 / 17592186044416,
        offsetX := 0, offsetY := 5277655813324801 / 35184372088832 } := by
    simp only [Double.computeLayout, Binary64.div, Binary64.mul, Binary64.sub]
    norm_num [h1, h2, h3, h4, h5, Binary64.rnd_zero]
  rw [key]
  refine ⟨by norm_num, by norm_num, by norm_num, rfl, ?_⟩
  norm_num

/-! ## Single-step re-clamping over binary64 (C1, C20) -/

/-- Over binary64: the clamp of one axis, `max(off + r, min(off + dim - r,
x))` with `r = d / 2`, keeps a circle of diameter `0 ≤ d ≤ dim` inside
`[off, off + dim]` up to the slack `(|off| + dim) / 2 ^ 50`. -/
theorem Double.clamp_axis_near (off dim d x : ℚ) (hd0 : 0 ≤ d) (hd : d ≤ dim) :
    off - (|off| + dim) / 2 ^ (50 : ℕ) ≤
      max (Binary64.add off (Binary64.div d 2))
        (min (Binary64.sub (Binary64.add off dim) (Binary64.div d 2)) x) - d / 2 ∧
    max (Binary64.add off (Binary64.div d 2))
        (min (Binary64.sub (Binary64.add off dim) (Binary64.div d 2)) x) + d / 2 ≤
      off + dim + (|off| + dim) / 2 ^ (50 : ℕ) := by
  have e1 : |Binary64.div d 2 - d / 2| ≤ |d / 2| / 2 ^ (53 : ℕ) := Binary64.rnd_error _
  have e2 : |Binary64.add off (Binary64.div d 2) - (off + Binary64.div d 2)| ≤
      |off + Binary64.div d 2| / 2 ^ (53 : ℕ) := Binary64.rnd_error _
  have e3 : |Binary64.add off dim - (off + dim)| ≤ |off + dim| / 2 ^ (53 : ℕ) :=
    Binary64.rnd_error _
  have e4 : |Binary64.sub (Binary64.add off dim) (Binary64.div d 2) -
        (Binary64.add off dim - Binary64.div d 2)| ≤
      |Binary64.add off dim - Binary64.div d 2| / 2 ^ (53 : ℕ) := Binary64.rnd_error _
  have hr0 : 0 ≤ Binary64.div d 2 := Binary64.rnd_nonneg _ (by linarith)
  rw [abs_of_nonneg (by linarith : (0 : ℚ) ≤ d / 2)] at e1
  have a0 : 0 ≤ |off| := abs_nonneg _
  have a2 : |off + Binary64.div d 2| ≤ |off| + Binary64.div d 2 := by
    have := abs_add off (Binary64.div d 2)
    rwa [abs_of_nonneg hr0] at this
  have a3 : |off + dim| ≤ |off| + dim := by
    have := abs_add off dim
    rwa [abs_of_nonneg (by linarith : (0 : ℚ) ≤ dim)] at this
  have a4 : |Binary64.add off dim - Binary64.div d 2| ≤
      |Binary64.add off dim| + Binary64.div d 2 := by
    have := abs_sub (Binary64.add off dim) (Binary64.div d 2)
    rwa [abs_of_nonneg hr0] at this
  have a5 : |Binary64.add off dim| ≤ |off + dim| + |Binary64.add off dim - (off + dim)| := by
    have := abs_add (off + dim) (Binary64.add off dim - (off + dim))
    rwa [add_sub_cancel] at this
  obtain ⟨e1l, e1u⟩ := abs_le.mp e1
  obtain ⟨e2l, e2u⟩ := abs_le.mp e2
  obtain ⟨e3l, e3u⟩ := abs_le.mp e3
  obtain ⟨e4l, e4u⟩ := abs_le.mp e4
  have hlo : Binary64.add off (Binary64.div d 2) ≤
      max (Binary64.add off (Binary64.div d 2))
        (min (Binary64.sub (Binary64.add off dim) (Binary64.div d 2)) x) := le_max_left _ _
  have hhi : max (Binary64.add off (Binary64.div d 2))
        (min (Binary64.sub (Binary64.add off dim) (Binary64.div d 2)) x) ≤
      max (Binary64.add off (Binary64.div d 2))
        (Binary64.sub (Binary64.add off dim) (Binary64.div d 2)) :=
    max_le_max le_rfl (min_le_left _ _)
  constructor
  · norm_num at e1l e1u e2l e2u e3l e3u e4l e4u ⊢
    linarith
  · rcases le_total (Binary64.add off (Binary64.div d 2))
        (Binary64.sub (Binary64.add off dim) (Binary64.div d 2)) with h | h
    · rw [max_eq_right h] at hhi
      norm_num at e1l e1u e2l e2u e3l e3u e4l e4u ⊢
      linarith
    · rw [max_eq_left h] at hhi
      norm_num at e1l e1u e2l e2u e3l e3u e4l e4u ⊢
      linarith

/-- Over binary64: the bound `maxSize` of a stored layout is at most the
smaller display dimension when that is nonnegative. -/
theorem Double.maxSize_le_min (w : Window) (L : Layout)
    (hm : 0 ≤ min L.displayWidth L.displayHeight) :
    Double.maxSize w (some L) ≤ min L.displayWidth L.displayHeight := by
  have hc : Binary64.rnd (95 / 100) = 4278419646001971 / 4503599627370496 := by
    rw [Binary64.rnd_eq_pos _ (-1) 8556839292003942 (by norm_num) (by norm_num) (by norm_num)
      (by norm_num)]
    norm_num
  have h := Binary64.rnd_le_of_nonneg
    (min L.displayWidth L.displayHeight * (4278419646001971 / 4503599627370496))
    (mul_nonneg hm (by norm_num))
  have hk : (4278419646001971 / 4503599627370496 : ℚ) * (1 + 1 / 2 ^ (53 : ℕ)) ≤ 1 := by
    norm_num
  show Binary64.rnd (min L.displayWidth L.displayHeight * Binary64.rnd (95 / 100)) ≤
    min L.displayWidth L.displayHeight
  rw [hc]
  refine le_trans h ?_
  calc min L.displayWidth L.displayHeight * (4278419646001971 / 4503599627370496) *
        (1 + 1 / 2 ^ (53 : ℕ))
      = min L.displayWidth L.displayHeight *
          (4278419646001971 / 4503599627370496 * (1 + 1 / 2 ^ (53 : ℕ))) := by ring
    _ ≤ min L.displayWidth L.displayHeight * 1 := mul_le_mul_of_nonneg_left hk hm
    _ = min L.displayWidth L.displayHeight := mul_one _

/-- Over binary64: with a layout stored, a resize event sets the diameter
`max(80, min(maxSize, resizeStart + delta))` and clamps the prior centre
against the new radius. -/
theorem Double.resize_event_some (w : Window) (s : State) (L : Layout) (dx dy : ℚ)
    (hL : s.imageLayout = some L) :
    (Double.resizePanResponder.onPanResponderMove w s dx dy).roiDiameter =
      max 80 (min (Double.maxSize w (some L))
        (Binary64.add s.resizeStart (Binary64.mul (Binary64.add dx dy) (Binary64.rnd (8 / 10))))) ∧
    (Double.resizePanResponder.onPanResponderMove w s dx dy).roiCenter =
      Double.clampCenter (some L) s.roiCenter.x s.roiCenter.y
        (Double.resizePanResponder.onPanResponderMove w s dx dy).roiDiameter := by
  simp [Double.resizePanResponder.onPanResponderMove, Double.clampCenter, hL]

/-- Over binary64: with a layout stored, a drag event keeps the diameter and
clamps the candidate centre against the current radius. -/
theorem Double.drag_event_some (s : State) (L : Layout) (dx dy : ℚ)
    (hL : s.imageLayout = some L) :
    (Double.movePanResponder.onPanResponderMove s dx dy).roiDiameter = s.roiDiameter ∧
    (Double.movePanResponder.onPanResponderMove s dx dy).roiCenter =
      Double.clampCenter (some L) (Binary64.add s.dragStart.x dx)
        (Binary64.add s.dragStart.y dy) s.roiDiameter := by
  simp [Double.movePanResponder.onPanResponderMove, Double.clampCenter, hL]

/-- Over binary64: the centre of `clampCenter` on a diameter `0 ≤ d ≤
min(displayWidth, displayHeight)` leaves the circle inside the layout
rectangle up to the slack of `CircleNearInside`. -/
theorem Double.circleNearInside_of_clamped (L : Layout) (s : State) (x y : ℚ)
    (hd0 : 0 ≤ s.roiDiameter) (hd : s.roiDiameter ≤ min L.displayWidth L.displayHeight)
    (hc : s.roiCenter = Double.clampCenter (some L) x y s.roiDiameter) :
    Double.CircleNearInside L s := by
  have hx := Double.clamp_axis_near L.offsetX L.displayWidth s.roiDiameter x hd0
    (le_trans hd (min_le_left _ _))
  have hy := Double.clamp_axis_near L.offsetY L.displayHeight s.roiDiameter y hd0
    (le_trans hd (min_le_right _ _))
  unfold Double.CircleNearInside
  rw [hc]
  exact ⟨hx.1, hx.2, hy.1, hy.2⟩

/-- C20 (as the code has it): single-step re-clamping. With a layout stored,
in exact arithmetic and `min(displayWidth, displayHeight) * 0.95 >= 80`, a
resize event gives a diameter in `[80, min(displayWidth, displayHeight) *
0.95]` and the centre of `clampCenter` on the new diameter with the whole
circle inside the layout rectangle, and a drag event with a diameter of at
most `min(displayWidth, displayHeight)` gives the centre of `clampCenter` on
the candidate with the whole circle inside the rectangle. As the program
evaluates it in binary64, with the computed `maxSize >= 80`, the diameter
after a resize event lies in `[80, maxSize]`, the centre is that of
`clampCenter` on the new diameter (resize) or on the candidate (drag, diameter
in `[0, min(displayWidth, displayHeight)]`), and the circle lies inside the
rectangle up to the slack `(|offset| + display size) / 2 ^ 50` on each
axis. -/
theorem single_step_reclamp_up_to_rounding (w : Window) (s : State) (L : Layout) (dx dy : ℚ)
    (hL : s.imageLayout = some L) :
    (80 ≤ min L.displayWidth L.displayHeight * (95 / 100) →
      (80 ≤ (resizePanResponder.onPanResponderMove w s dx dy).roiDiameter ∧
        (resizePanResponder.onPanResponderMove w s dx dy).roiDiameter ≤
          min L.displayWidth L.displayHeight * (95 / 100) ∧
        (resizePanResponder.onPanResponderMove w s dx dy).roiCenter =
          clampCenter (some L) s.roiCenter.x s.roiCenter.y
            (resizePanResponder.onPanResponderMove w s dx dy).roiDiameter ∧
        CircleInside L (resizePanResponder.onPanResponderMove w s dx dy)) ∧
      (s.roiDiameter ≤ min L.displayWidth L.displayHeight →
        (movePanResponder.onPanResponderMove s dx dy).roiDiameter = s.roiDiameter ∧
        (movePanResponder.onPanResponderMove s dx dy).roiCenter =
          clampCenter (some L) (s.dragStart.x + dx) (s.dragStart.y + dy) s.roiDiameter ∧
        CircleInside L (movePanResponder.onPanResponderMove s dx dy))) ∧
    (80 ≤ Double.maxSize w (some L) →
      (80 ≤ (Double.resizePanResponder.onPanResponderMove w s dx dy).roiDiameter ∧
        (Double.resizePanResponder.onPanResponderMove w s dx dy).roiDiameter ≤
          Double.maxSize w (some L) ∧
        (Double.resizePanResponder.onPanResponderMove w s dx dy).roiCenter =
          Double.clampCenter (some L) s.roiCenter.x s.roiCenter.y
            (Double.resizePanResponder.onPanResponderMove w s dx dy).roiDiameter ∧
        Double.CircleNearInside L (Double.resizePanResponder.onPanResponderMove w s dx dy)) ∧
      (0 ≤ s.roiDiameter → s.roiDiameter ≤ min L.displayWidth L.displayHeight →
        (Double.movePanResponder.onPanResponderMove s dx dy).roiDiameter = s.roiDiameter ∧
        (Double.movePanResponder.onPanResponderMove s dx dy).roiCenter =
          Double.clampCenter (some L) (Binary64.add s.dragStart.x dx)
            (Binary64.add s.dragStart.y dy) s.roiDiameter ∧
        Double.CircleNearInside L (Double.movePanResponder.onPanResponderMove s dx dy))) := by
  refine ⟨fun h80 => single_step_reclamp_exact w s L dx dy hL h80, fun h80 => ?_⟩
  obtain ⟨hrd, hrc⟩ := Double.resize_event_some w s L dx dy hL
  obtain ⟨hdd, hdc⟩ := Double.drag_event_some s L dx dy hL
  have hm0 : 0 ≤ min L.displayWidth L.displayHeight := by
    by_contra hneg
    have hle : min L.displayWidth L.displayHeight * Binary64.rnd (95 / 100) ≤ 0 :=
      mul_nonpos_of_nonpos_of_nonneg (not_le.mp hneg).le
        (Binary64.rnd_nonneg _ (by norm_num))
    have := Binary64.rnd_nonpos _ hle
    have h80x : (80 : ℚ) ≤
        Binary64.rnd (min L.displayWidth L.displayHeight * Binary64.rnd (95 / 100)) := h80
    linarith
  have hmax := Double.maxSize_le_min w L hm0
  have h1 : 80 ≤ (Double.resizePanResponder.onPanResponderMove w s dx dy).roiDiameter := by
    rw [hrd]
    exact le_max_left _ _
  have h2 : (Double.resizePanResponder.onPanResponderMove w s dx dy).roiDiameter ≤
      Double.maxSize w (some L) := by
    rw [hrd]
    exact max_le h80 (min_le_left _ _)
  refine ⟨⟨h1, h2, hrc, ?_⟩, fun hd0 hd => ⟨hdd, hdc, ?_⟩⟩
  · exact Double.circleNearInside_of_clamped L _ _ _ (by linarith) (le_trans h2 hmax) hrc
  · exact Double.circleNearInside_of_clamped L _ _ _ (by rw [hdd]; exact hd0)
      (by rw [hdd]; exact hd) (by rw [hdd]; exact hdc)

theorem single_step_reclamp_up_to_rounding_witness :
    CircleInside { displayWidth := 400, displayHeight := 300, offsetX := 0, offsetY := 250 }
      (resizePanResponder.onPanResponderMove { width := 400, height := 990 }
        { imageLayout := some { displayWidth := 400, displayHeight := 300, offsetX := 0, offsetY := 250 },
          roiCenter := { x := 900, y := -40 }, roiDiameter := 300,
          dragStart := { x := 7, y := 7 }, resizeStart := 5000 } 10 10) ∧
    Double.CircleNearInside { displayWidth := 400, displayHeight := 300, offsetX := 0, offsetY := 250 }
      (Double.resizePanResponder.onPanResponderMove { width := 400, height := 990 }
        { imageLayout := some { displayWidth := 400, displayHeight := 300, offsetX := 0, offsetY := 250 },
          roiCenter := { x := 900, y := -40 }, roiDiameter := 300,
          dragStart := { x := 7, y := 7 }, resizeStart := 5000 } 10 10) ∧
    Double.CircleNearInside { displayWidth := 400, displayHeight := 300, offsetX := 0, offsetY := 250 }
      (Double.movePanResponder.onPanResponderMove
        { imageLayout := some { displayWidth := 400, displayHeight := 300, offsetX := 0, offsetY := 250 },
          roiCenter := { x := 900, y := -40 }, roiDiameter := 300,
          dragStart := { x := 7, y := 7 }, resizeStart := 5000 } 10 10) := by
  have m1 : Binary64.rnd (19 / 20) = 4278419646001971 / 4503599627370496 := by
    rw [Binary64.rnd_eq_pos _ (-1) 8556839292003942 (by norm_num) (by norm_num) (by norm_num)
      (by norm_num)]
    norm_num
  have m2 : Binary64.rnd (320881473450147825 / 1125899906842624) = 285 := by
    rw [Binary64.rnd_eq_pos _ 8 5013773022658560 (by norm_num) (by norm_num) (by norm_num)
      (by norm_num)]
    norm_num
  have hms : (80 : ℚ) ≤ Double.maxSize { width := 400, height := 990 }
      (some { displayWidth := 400, displayHeight := 300, offsetX := 0, offsetY := 250 }) := by
    simp only [Double.maxSize, Binary64.mul]
    norm_num [m1, m2]
  exact ⟨((single_step_reclamp_up_to_rounding { width := 400, height := 990 } _ _ 10 10 rfl).1
      (by norm_num)).1.2.2.2,
    ((single_step_reclamp_up_to_rounding { width := 400, height := 990 } _ _ 10 10 rfl).2 hms).1.2.2.2,
    (((single_step_reclamp_up_to_rounding { width := 400, height := 990 } _ _ 10 10 rfl).2 hms).2
      (by norm_num) (by norm_num)).2.2⟩

/-- C20 fails as stated: on a 360 x 780 window a 4000 x 1800 image resolves
to the layout 360 x 162 at offset (0, 214), with `maxSize = 153.9 >= 80` and
the default diameter `162 * 0.65 = 105.30000000000001`, below the smaller
display dimension. One drag event towards the top gives, in binary64, the
centre y `214 + r = 266.64999999999997`, and the circle's upper edge
`y - r` lies below `offsetY = 214`: the circle is not inside the layout
rectangle. -/
theorem drag_leaves_circle_outside_binary64 :
    (Double.onGetSize { width := 360, height := 780 } (Double.initialState { width := 360, height := 780 }) 4000 1800) =
      { imageLayout :=
          some { displayWidth := 360, displayHeight := 162, offsetX := 0, offsetY := 214 },
        roiCenter := { x := 180, y := 295 }, roiDiameter := 7409828761908019 / 70368744177664,
        dragStart := { x := 0, y := 0 }, resizeStart := 0 } ∧
    (80 : ℚ) ≤ Double.maxSize { width := 360, height := 780 }
      (some { displayWidth := 360, displayHeight := 162, offsetX := 0, offsetY := 214 }) ∧
    7409828761908019 / 70368744177664 ≤ min (360 : ℚ) 162 ∧
    (Double.movePanResponder.onPanResponderMove
      (movePanResponder.onPanResponderGrant
        (Double.onGetSize { width := 360, height := 780 } (Double.initialState { width := 360, height := 780 }) 4000 1800)) 0 (-1000)) =
      { imageLayout :=
          some { displayWidth := 360, displayHeight := 162, offsetX := 0, offsetY := 214 },
        roiCenter := { x := 180, y := 2345478204371763 / 8796093022208 },
        roiDiameter := 7409828761908019 / 70368744177664,
        dragStart := { x := 180, y := 295 }, resizeStart := 0 } ∧
    ¬ CircleInside { displayWidth := 360, displayHeight := 162, offsetX := 0, offsetY := 214 }
      (Double.movePanResponder.onPanResponderMove
      (movePanResponder.onPanResponderGrant
        (Double.onGetSize { width := 360, height := 780 } (Double.initialState { width := 360, height := 780 }) 4000 1800)) 0 (-1000)) := by
  have h1 : Binary64.rnd (690) = 690 := by
    rw [Binary64.rnd_eq_pos _ 9 6069304185323520 (by norm_num) (by norm_num) (by norm_num)
      (by norm_num)]
    norm_num
  have h2 : Binary64.rnd (590) = 590 := by
    rw [Binary64.rnd_eq_pos _ 9 5189694883102720 (by norm_num) (by norm_num) (by norm_num)
      (by norm_num)]
    norm_num
  have h3 : Binary64.rnd (20 / 9) = 2501999792983609 / 1125899906842624 := by
    rw [Binary64.rnd_eq_pos _ 1 5003999585967218 (by norm_num) (by norm_num) (by norm_num)
      (by norm_num)]
    norm_num
  have h4 : Binary64.rnd (36 / 59) = 5495918189333487 / 9007199254740992 := by
    rw [Binary64.rnd_eq_pos _ (-1) 5495918189333487 (by norm_num) (by norm_num) (by norm_num)
      (by norm_num)]
    norm_num
  have h5 : Binary64.rnd (405323966463344640 / 2501999792983609) = 162 := by
    rw [Binary64.rnd_eq_pos _ 7 5699868278390784 (by norm_num) (by norm_num) (by norm_num)
      (by norm_num)]
    norm_num
  have h6 : Binary64.rnd (428) = 428 := by
    rw [Binary64.rnd_eq_pos _ 8 7529455627010048 (by norm_num) (by norm_num) (by norm_num)
      (by norm_num)]
    norm_num
  have h7 : Binary64.rnd (214) = 214 := by
    rw [Binary64.rnd_eq_pos _ 7 7529455627010048 (by norm_num) (by norm_num) (by norm_num)
      (by norm_num)]
    norm_num
  have h8 : Binary64.rnd (13 / 20) = 5854679515581645 / 9007199254740992 := by
    rw [Binary64.rnd_eq_pos _ (-1) 5854679515581645 (by norm_num) (by norm_num) (by norm_num)
      (by norm_num)]
    norm_num
  have h9 : Binary64.rnd (474229040762113245 / 4503599627370496) = 7409828761908019 / 70368744177664 := by
    rw [Binary64.rnd_eq_pos _ 6 7409828761908019 (by norm_num) (by norm_num) (by norm_num)
      (by norm_num)]
    norm_num
  have h10 : Binary64.rnd (180) = 180 := by
    rw [Binary64.rnd_eq_pos _ 7 6333186975989760 (by norm_num) (by norm_num) (by norm_num)
      (by norm_num)]
    norm_num
  have h11 : Binary64.rnd (81) = 81 := by
    rw [Binary64.rnd_eq_pos _ 6 5699868278390784 (by norm_num) (by norm_num) (by norm_num)
      (by norm_num)]
    norm_num
  have h12 : Binary64.rnd (295) = 295 := by
    rw [Binary64.rnd_eq_pos _ 8 5189694883102720 (by norm_num) (by norm_num) (by norm_num)
      (by norm_num)]
    norm_num
  have h13 : Binary64.rnd (-705) = -705 := by
    rw [Binary64.rnd_eq_neg _ 9 (-6201245580656640) (by norm_num) (by norm_num) (by norm_num)
      (by norm_num)]
    norm_num
  have h14 : Binary64.rnd (7409828761908019 / 140737488355328) = 7409828761908019 / 140737488355328 := by
    rw [Binary64.rnd_eq_pos _ 5 7409828761908019 (by norm_num) (by norm_num) (by norm_num)
      (by norm_num)]
    norm_num
  have h15 : Binary64.rnd (360) = 360 := by
    rw [Binary64.rnd_eq_pos _ 8 6333186975989760 (by norm_num) (by norm_num) (by norm_num)
      (by norm_num)]
    norm_num
  have h16 : Binary64.rnd (43255667046010061 / 140737488355328) = 2703479190375629 / 8796093022208 := by
    rw [Binary64.rnd_eq_pos _ 8 5406958380751258 (by norm_num) (by norm_num) (by norm_num)
      (by norm_num)]
    norm_num
  have h17 : Binary64.rnd (37527651269948211 / 140737488355328) = 2345478204371763 / 8796093022208 := by
    rw [Binary64.rnd_eq_pos _ 8 4690956408743526 (by norm_num) (by norm_num) (by norm_num)
      (by norm_num)]
    norm_num
  have h18 : Binary64.rnd (376) = 376 := by
    rw [Binary64.rnd_eq_pos _ 8 6614661952700416 (by norm_num) (by norm_num) (by norm_num)
      (by norm_num)]
    norm_num
  have h19 : Binary64.rnd (45507466859695309 / 140737488355328) = 2844216678730957 / 8796093022208 := by
    rw [Binary64.rnd_eq_pos _ 8 5688433357461914 (by norm_num) (by norm_num) (by norm_num)
      (by norm_num)]
    norm_num
  have h20 : Binary64.rnd (19 / 20) = 4278419646001971 / 4503599627370496 := by
    rw [Binary64.rnd_eq_pos _ (-1) 8556839292003942 (by norm_num) (by norm_num) (by norm_num)
      (by norm_num)]
    norm_num
  have h21 : Binary64.rnd (346551991326159651 / 2251799813685248) = 5414874864471245 / 35184372088832 := by
    rw [Binary64.rnd_eq_pos _ 7 5414874864471245 (by norm_num) (by norm_num) (by norm_num)
      (by norm_num)]
    norm_num
  have k0 : (Double.onGetSize { width := 360, height := 780 } (Double.initialState { width := 360, height := 780 }) 4000 1800) =
      { imageLayout :=
          some { displayWidth := 360, displayHeight := 162, offsetX := 0, offsetY := 214 },
        roiCenter := { x := 180, y := 295 }, roiDiameter := 7409828761908019 / 70368744177664,
        dragStart := { x := 0, y := 0 }, resizeStart := 0 } := by
    simp only [Double.onGetSize, Double.initialState, Double.computeLayout,
      Double.IMAGE_AREA_HEIGHT, SCREEN_WIDTH, SCREEN_HEIGHT, TOP_BAR_HEIGHT, BOTTOM_BAR_HEIGHT,
      Binary64.div, Binary64.mul, Binary64.sub, Binary64.add]
    norm_num [h1, h2, h3, h4, h5, h6, h7, h8, h9, h10, h11, h12, h13, h14, h15, h16, h17, h18, h19, h20, h21, Binary64.rnd_zero]
  have k1 : (Double.movePanResponder.onPanResponderMove
      (movePanResponder.onPanResponderGrant
        (Double.onGetSize { width := 360, height := 780 } (Double.initialState { width := 360, height := 780 }) 4000 1800)) 0 (-1000)) =
      { imageLayout :=
          some { displayWidth := 360, displayHeight := 162, offsetX := 0, offsetY := 214 },
        roiCenter := { x := 180, y := 2345478204371763 / 8796093022208 },
        roiDiameter := 7409828761908019 / 70368744177664,
        dragStart := { x := 180, y := 295 }, resizeStart := 0 } := by
    rw [k0]
    simp only [Double.movePanResponder.onPanResponderMove, movePanResponder.onPanResponderGrant,
      Binary64.div, Binary64.mul, Binary64.sub, Binary64.add]
    norm_num [h1, h2, h3, h4, h5, h6, h7, h8, h9, h10, h11, h12, h13, h14, h15, h16, h17, h18, h19, h20, h21, Binary64.rnd_zero]
  rw [k1]
  refine ⟨k0, ?_, by norm_num, rfl, ?_⟩
  · simp only [Double.maxSize, Binary64.mul]
    norm_num [h1, h2, h3, h4, h5, h6, h7, h8, h9, h10, h11, h12, h13, h14, h15, h16, h17, h18, h19, h20, h21]
  · norm_num [CircleInside]

/-- C1 (code bug): on a 400 x 990 window a 1000 x 100 image resolves to the
layout 400 x 40 at offset (0, 380) with the default diameter 26; the first
resize event, with no finger movement at all, sets the diameter to the floor
80 (the bound `maxSize` is 38) and the centre to (200, 420), so the circle
spans 380..460 on the Y axis while the image ends at 420. The handler's own
clamp, meant to keep the circle within the image, leaves it outside. -/
theorem resize_floor_pushes_circle_outside :
    (Double.resizePanResponder.onPanResponderMove { width := 400, height := 990 }
      (resizePanResponder.onPanResponderGrant
        (Double.onGetSize { width := 400, height := 990 } (Double.initialState { width := 400, height := 990 }) 1000 100)) 0 0) =
      { imageLayout :=
          some { displayWidth := 400, displayHeight := 40, offsetX := 0, offsetY := 380 },
        roiCenter := { x := 200, y := 420 }, roiDiameter := 80,
        dragStart := { x := 0, y := 0 }, resizeStart := 26 } ∧
    Double.maxSize { width := 400, height := 990 }
      (some { displayWidth := 400, displayHeight := 40, offsetX := 0, offsetY := 380 }) = 38 ∧
    ¬ CircleInside { displayWidth := 400, displayHeight := 40, offsetX := 0, offsetY := 380 }
      (Double.resizePanResponder.onPanResponderMove { width := 400, height := 990 }
      (resizePanResponder.onPanResponderGrant
        (Double.onGetSize { width := 400, height := 990 } (Double.initialState { width := 400, height := 990 }) 1000 100)) 0 0) := by
  have h1 : Binary64.rnd (900) = 900 := by
    rw [Binary64.rnd_eq_pos _ 9 7916483719987200 (by norm_num) (by norm_num) (by norm_num)
      (by norm_num)]
    norm_num
  have h2 : Binary64.rnd (800) = 800 := by
    rw [Binary64.rnd_eq_pos _ 9 7036874417766400 (by norm_num) (by norm_num) (by norm_num)
      (by norm_num)]
    norm_num
  have h3 : Binary64.rnd (10) = 10 := by
    rw [Binary64.rnd_eq_pos _ 3 5629499534213120 (by norm_num) (by norm_num) (by norm_num)
      (by norm_num)]
    norm_num
  have h4 : Binary64.rnd (1 / 2) = 1 / 2 := by
    rw [Binary64.rnd_eq_pos _ (-1) 4503599627370496 (by norm_num) (by norm_num) (by norm_num)
      (by norm_num)]
    norm_num
  have h5 : Binary64.rnd (40) = 40 := by
    rw [Binary64.rnd_eq_pos _ 5 5629499534213120 (by norm_num) (by norm_num) (by norm_num)
      (by norm_num)]
    norm_num
  have h6 : Binary64.rnd (760) = 760 := by
    rw [Binary64.rnd_eq_pos _ 9 6685030696878080 (by norm_num) (by norm_num) (by norm_num)
      (by norm_num)]
    norm_num
  have h7 : Binary64.rnd (380) = 380 := by
    rw [Binary64.rnd_eq_pos _ 8 6685030696878080 (by norm_num) (by norm_num) (by norm_num)
      (by norm_num)]
    norm_num
  have h8 : Binary64.rnd (13 / 20) = 5854679515581645 / 9007199254740992 := by
    rw [Binary64.rnd_eq_pos _ (-1) 5854679515581645 (by norm_num) (by norm_num) (by norm_num)
      (by norm_num)]
    norm_num
  have h9 : Binary64.rnd (29273397577908225 / 1125899906842624) = 26 := by
    rw [Binary64.rnd_eq_pos _ 4 7318349394477056 (by norm_num) (by norm_num) (by norm_num)
      (by norm_num)]
    norm_num
  have h10 : Binary64.rnd (200) = 200 := by
    rw [Binary64.rnd_eq_pos _ 7 7036874417766400 (by norm_num) (by norm_num) (by norm_num)
      (by norm_num)]
    norm_num
  have h11 : Binary64.rnd (20) = 20 := by
    rw [Binary64.rnd_eq_pos _ 4 5629499534213120 (by norm_num) (by norm_num) (by norm_num)
      (by norm_num)]
    norm_num
  have h12 : Binary64.rnd (400) = 400 := by
    rw [Binary64.rnd_eq_pos _ 8 7036874417766400 (by norm_num) (by norm_num) (by norm_num)
      (by norm_num)]
    norm_num
  have h13 : Binary64.rnd (4 / 5) = 3602879701896397 / 4503599627370496 := by
    rw [Binary64.rnd_eq_pos _ (-1) 7205759403792794 (by norm_num) (by norm_num) (by norm_num)
      (by norm_num)]
    norm_num
  have h14 : Binary64.rnd (19 / 20) = 4278419646001971 / 4503599627370496 := by
    rw [Binary64.rnd_eq_pos _ (-1) 8556839292003942 (by norm_num) (by norm_num) (by norm_num)
      (by norm_num)]
    norm_num
  have h15 : Binary64.rnd (21392098230009855 / 562949953421312) = 38 := by
    rw [Binary64.rnd_eq_pos _ 5 5348024557502464 (by norm_num) (by norm_num) (by norm_num)
      (by norm_num)]
    norm_num
  have h16 : Binary64.rnd (26) = 26 := by
    rw [Binary64.rnd_eq_pos _ 4 7318349394477056 (by norm_num) (by norm_num) (by norm_num)
      (by norm_num)]
    norm_num
  have h17 : Binary64.rnd (360) = 360 := by
    rw [Binary64.rnd_eq_pos _ 8 6333186975989760 (by norm_num) (by norm_num) (by norm_num)
      (by norm_num)]
    norm_num
  have h18 : Binary64.rnd (420) = 420 := by
    rw [Binary64.rnd_eq_pos _ 8 7388718138654720 (by norm_num) (by norm_num) (by norm_num)
      (by norm_num)]
    norm_num
  have key : (Double.resizePanResponder.onPanResponderMove { width := 400, height := 990 }
      (resizePanResponder.onPanResponderGrant
        (Double.onGetSize { width := 400, height := 990 } (Double.initialState { width := 400, height := 990 }) 1000 100)) 0 0) =
      { imageLayout :=
          some { displayWidth := 400, displayHeight := 40, offsetX := 0, offsetY := 380 },
        roiCenter := { x := 200, y := 420 }, roiDiameter := 80,
        dragStart := { x := 0, y := 0 }, resizeStart := 26 } := by
    simp only [Double.resizePanResponder.onPanResponderMove, resizePanResponder.onPanResponderGrant,
      Double.onGetSize, Double.initialState, Double.computeLayout, Double.maxSize,
      Double.IMAGE_AREA_HEIGHT, SCREEN_WIDTH, SCREEN_HEIGHT, TOP_BAR_HEIGHT, BOTTOM_BAR_HEIGHT,
      Binary64.div, Binary64.mul, Binary64.sub, Binary64.add]
    norm_num [h1, h2, h3, h4, h5, h6, h7, h8, h9, h10, h11, h12, h13, h14, h15, h16, h17, h18, Binary64.rnd_zero]
  rw [key]
  refine ⟨rfl, ?_, ?_⟩
  · simp only [Double.maxSize, Binary64.mul]
    norm_num [h1, h2, h3, h4, h5, h6, h7, h8, h9, h10, h11, h12, h13, h14, h15, h16, h17, h18]
  · norm_num [CircleInside]

/-! ## The projection over binary64 (C7, C9, C21) -/

/-- Over binary64: with a layout stored `computeRoiParams` returns the four
clamped fractions, each printed with four decimals and read back. -/
theorem Double.roiParams_some (s : State) (L : Layout) (hL : s.imageLayout = some L) :
    Double.computeRoiParams s = some
      { roi_x_percent :=
          Binary64.rnd (toFixed4 (Double.clampedRoi L s.roiCenter s.roiDiameter).roi_x_percent)
        roi_y_percent :=
          Binary64.rnd (toFixed4 (Double.clampedRoi L s.roiCenter s.roiDiameter).roi_y_percent)
        roi_width_percent :=
          Binary64.rnd
            (toFixed4 (Double.clampedRoi L s.roiCenter s.roiDiameter).roi_width_percent)
        roi_height_percent :=
          Binary64.rnd
            (toFixed4 (Double.clampedRoi L s.roiCenter s.roiDiameter).roi_height_percent) } := by
  simp [Double.computeRoiParams, hL]

/-- The binary64 value of the literal `0.05` lies in `[0, 1]`. -/
theorem Double.lower_clamp_range : 0 ≤ Binary64.rnd (5 / 100) ∧ Binary64.rnd (5 / 100) ≤ 1 := by
  refine ⟨Binary64.rnd_nonneg _ (by norm_num), ?_⟩
  have h := Binary64.rnd_mono (by norm_num : (5 / 100 : ℚ) ≤ 1)
  rwa [Binary64.rnd_one] at h

/-- C7 (as the code has it): whenever a layout of positive display
dimensions is stored, `computeRoiParams` returns the projection of section
4.4 when both are evaluated in the same arithmetic: in exact arithmetic it
equals `specProject`, and as the program evaluates it in binary64 it equals
the same formulas with every operation rounded to binary64
(`Double.specProject`). -/
theorem computeRoiParams_eq_specProject_same_arithmetic (s : State) (L : Layout)
    (hL : s.imageLayout = some L)
    (_hw : 0 < L.displayWidth) (_hh : 0 < L.displayHeight) :
    computeRoiParams s =
      some (specProject s.roiCenter.x s.roiCenter.y s.roiDiameter L) ∧
    Double.computeRoiParams s =
      some (Double.specProject s.roiCenter.x s.roiCenter.y s.roiDiameter L) := by
  refine ⟨computeRoiParams_eq_specProject_exact s L hL, ?_⟩
  rw [Double.roiParams_some s L hL]
  have c0 : ∀ v : ℚ, toFixed4 (max 0 (min 1 v)) = specRound4 (specClamp v 0 1) := by
    intro v
    rw [toFixed4_eq_specRound4 _ (le_max_left _ _), max_min_eq_specClamp v 0 1 (by norm_num)]
  have c5 : ∀ v : ℚ, toFixed4 (max (Binary64.rnd (5 / 100)) (min 1 v)) =
      specRound4 (specClamp v (Binary64.rnd (5 / 100)) 1) := by
    intro v
    rw [toFixed4_eq_specRound4 _ (le_trans Double.lower_clamp_range.1 (le_max_left _ _)),
      max_min_eq_specClamp v _ 1 Double.lower_clamp_range.2]
  simp only [Double.clampedRoi, Double.specProject, c0, c5]

theorem computeRoiParams_eq_specProject_same_arithmetic_witness :
    computeRoiParams
      { imageLayout := some { displayWidth := 400, displayHeight := 300, offsetX := 0, offsetY := 250 },
        roiCenter := { x := 150, y := 400 }, roiDiameter := 200,
        dragStart := { x := 0, y := 0 }, resizeStart := 0 } =
      some (specProject 150 400 200
        { displayWidth := 400, displayHeight := 300, offsetX := 0, offsetY := 250 }) ∧
    Double.computeRoiParams
      { imageLayout := some { displayWidth := 400, displayHeight := 300, offsetX := 0, offsetY := 250 },
        roiCenter := { x := 150, y := 400 }, roiDiameter := 200,
        dragStart := { x := 0, y := 0 }, resizeStart := 0 } =
      some (Double.specProject 150 400 200
        { displayWidth := 400, displayHeight := 300, offsetX := 0, offsetY := 250 }) :=
  computeRoiParams_eq_specProject_same_arithmetic
    { imageLayout := some { displayWidth := 400, displayHeight := 300, offsetX := 0, offsetY := 250 },
        roiCenter := { x := 150, y := 400 }, roiDiameter := 200,
        dragStart := { x := 0, y := 0 }, resizeStart := 0 }
    { displayWidth := 400, displayHeight := 300, offsetX := 0, offsetY := 250 }
    rfl (by norm_num) (by norm_num)

/-- C7 fails as stated: on a 400 x 990 window a 400 x 300 image resolves to
the layout 400 x 300 at offset (0, 250) with the default centre (200, 400)
and diameter 195. The program computes, in binary64, `102.5 / 400 =
0.25624999999999998`, prints it as `0.2562` and returns the binary64 value of
0.2562 as `roi_x_percent`, whereas the formula of section 4.4,
`round4(clamp(102.5 / 400, 0, 1))`, is 0.2563. -/
theorem default_projection_differs_from_spec_binary64 :
    (Double.onGetSize { width := 400, height := 990 } (Double.initialState { width := 400, height := 990 }) 400 300) =
      { imageLayout :=
          some { displayWidth := 400, displayHeight := 300, offsetX := 0, offsetY := 250 },
        roiCenter := { x := 200, y := 400 }, roiDiameter := 195,
        dragStart := { x := 0, y := 0 }, resizeStart := 0 } ∧
    Option.map RoiParams.roi_x_percent
        (Double.computeRoiParams
          (Double.onGetSize { width := 400, height := 990 } (Double.initialState { width := 400, height := 990 }) 400 300)) =
      some (1153822224532321 / 4503599627370496) ∧
    Binary64.rnd (2562 / 10000) = 1153822224532321 / 4503599627370496 ∧
    (specProject 200 400 195
      { displayWidth := 400, displayHeight := 300, offsetX := 0, offsetY := 250 }).roi_x_percent =
        2563 / 10000 ∧
    Double.computeRoiParams (Double.onGetSize { width := 400, height := 990 } (Double.initialState { width := 400, height := 990 }) 400 300) ≠
      some (specProject 200 400 195
        { displayWidth := 400, displayHeight := 300, offsetX := 0, offsetY := 250 }) := by
  have h1 : Binary64.rnd (900) = 900 := by
    rw [Binary64.rnd_eq_pos _ 9 7916483719987200 (by norm_num) (by norm_num) (by norm_num)
      (by norm_num)]
    norm_num
  have h2 : Binary64.rnd (800) = 800 := by
    rw [Binary64.rnd_eq_pos _ 9 7036874417766400 (by norm_num) (by norm_num) (by norm_num)
      (by norm_num)]
    norm_num
  have h3 : Binary64.rnd (4 / 3) = 6004799503160661 / 4503599627370496 := by
    rw [Binary64.rnd_eq_pos _ 0 6004799503160661 (by norm_num) (by norm_num) (by norm_num)
      (by norm_num)]
    norm_num
  have h4 : Binary64.rnd (1 / 2) = 1 / 2 := by
    rw [Binary64.rnd_eq_pos _ (-1) 4503599627370496 (by norm_num) (by norm_num) (by norm_num)
      (by norm_num)]
    norm_num
  have h5 : Binary64.rnd (1801439850948198400 / 6004799503160661) = 300 := by
    rw [Binary64.rnd_eq_pos _ 8 5277655813324800 (by norm_num) (by norm_num) (by norm_num)
      (by norm_num)]
    norm_num
  have h6 : Binary64.rnd (500) = 500 := by
    rw [Binary64.rnd_eq_pos _ 8 8796093022208000 (by norm_num) (by norm_num) (by norm_num)
      (by norm_num)]
    norm_num
  have h7 : Binary64.rnd (250) = 250 := by
    rw [Binary64.rnd_eq_pos _ 7 8796093022208000 (by norm_num) (by norm_num) (by norm_num)
      (by norm_num)]
    norm_num
  have h8 : Binary64.rnd (13 / 20) = 5854679515581645 / 9007199254740992 := by
    rw [Binary64.rnd_eq_pos _ (-1) 5854679515581645 (by norm_num) (by norm_num) (by norm_num)
      (by norm_num)]
    norm_num
  have h9 : Binary64.rnd (439100963668623375 / 2251799813685248) = 195 := by
    rw [Binary64.rnd_eq_pos _ 7 6860952557322240 (by norm_num) (by norm_num) (by norm_num)
      (by norm_num)]
    norm_num
  have h10 : Binary64.rnd (200) = 200 := by
    rw [Binary64.rnd_eq_pos _ 7 7036874417766400 (by norm_num) (by norm_num) (by norm_num)
      (by norm_num)]
    norm_num
  have h11 : Binary64.rnd (150) = 150 := by
    rw [Binary64.rnd_eq_pos _ 7 5277655813324800 (by norm_num) (by norm_num) (by norm_num)
      (by norm_num)]
    norm_num
  have h12 : Binary64.rnd (400) = 400 := by
    rw [Binary64.rnd_eq_pos _ 8 7036874417766400 (by norm_num) (by norm_num) (by norm_num)
      (by norm_num)]
    norm_num
  have h13 : Binary64.rnd (195 / 2) = 195 / 2 := by
    rw [Binary64.rnd_eq_pos _ 6 6860952557322240 (by norm_num) (by norm_num) (by norm_num)
      (by norm_num)]
    norm_num
  have h14 : Binary64.rnd (205 / 2) = 205 / 2 := by
    rw [Binary64.rnd_eq_pos _ 6 7212796278210560 (by norm_num) (by norm_num) (by norm_num)
      (by norm_num)]
    norm_num
  have h15 : Binary64.rnd (605 / 2) = 605 / 2 := by
    rw [Binary64.rnd_eq_pos _ 8 5321636278435840 (by norm_num) (by norm_num) (by norm_num)
      (by norm_num)]
    norm_num
  have h16 : Binary64.rnd (105 / 2) = 105 / 2 := by
    rw [Binary64.rnd_eq_pos _ 5 7388718138654720 (by norm_num) (by norm_num) (by norm_num)
      (by norm_num)]
    norm_num
  have h17 : Binary64.rnd (1 / 20) = 3602879701896397 / 72057594037927936 := by
    rw [Binary64.rnd_eq_pos _ (-5) 7205759403792794 (by norm_num) (by norm_num) (by norm_num)
      (by norm_num)]
    norm_num
  have h18 : Binary64.rnd (41 / 160) = 2308094809027379 / 9007199254740992 := by
    rw [Binary64.rnd_eq_pos _ (-2) 4616189618054758 (by norm_num) (by norm_num) (by norm_num)
      (by norm_num)]
    norm_num
  have h19 : Binary64.rnd (7 / 40) = 3152519739159347 / 18014398509481984 := by
    rw [Binary64.rnd_eq_pos _ (-3) 6305039478318694 (by norm_num) (by norm_num) (by norm_num)
      (by norm_num)]
    norm_num
  have h20 : Binary64.rnd (39 / 80) = 8782019273372467 / 18014398509481984 := by
    rw [Binary64.rnd_eq_pos _ (-2) 8782019273372467 (by norm_num) (by norm_num) (by norm_num)
      (by norm_num)]
    norm_num
  have h21 : Binary64.rnd (1281 / 5000) = 1153822224532321 / 4503599627370496 := by
    rw [Binary64.rnd_eq_pos _ (-2) 4615288898129284 (by norm_num) (by norm_num) (by norm_num)
      (by norm_num)]
    norm_num
  have k0 : (Double.onGetSize { width := 400, height := 990 } (Double.initialState { width := 400, height := 990 }) 400 300) =
      { imageLayout :=
          some { displayWidth := 400, displayHeight := 300, offsetX := 0, offsetY := 250 },
        roiCenter := { x := 200, y := 400 }, roiDiameter := 195,
        dragStart := { x := 0, y := 0 }, resizeStart := 0 } := by
    simp only [Double.onGetSize, Double.initialState, Double.computeLayout,
      Double.IMAGE_AREA_HEIGHT, SCREEN_WIDTH, SCREEN_HEIGHT, TOP_BAR_HEIGHT, BOTTOM_BAR_HEIGHT,
      Binary64.div, Binary64.mul, Binary64.sub, Binary64.add]
    norm_num [h1, h2, h3, h4, h5, h6, h7, h8, h9, h10, h11, h12, h13, h14, h15, h16, h17, h18, h19, h20, h21, Binary64.rnd_zero]
  have kq : (Double.clampedRoi
      { displayWidth := 400, displayHeight := 300, offsetX := 0, offsetY := 250 }
      { x := 200, y := 400 } 195).roi_x_percent = 2308094809027379 / 9007199254740992 := by
    simp only [Double.clampedRoi, Binary64.div, Binary64.mul, Binary64.sub, Binary64.add]
    norm_num [h1, h2, h3, h4, h5, h6, h7, h8, h9, h10, h11, h12, h13, h14, h15, h16, h17, h18, h19, h20, h21, Binary64.rnd_zero]
  have kf : toFixed4 (2308094809027379 / 9007199254740992) = 2562 / 10000 := by
    rw [toFixed4_eq_of _ 2562 (by norm_num) (by norm_num) (by norm_num)]
    norm_num
  have kr : Binary64.rnd (2562 / 10000) = 1153822224532321 / 4503599627370496 := by
    norm_num [h21]
  have kx : Option.map RoiParams.roi_x_percent
        (Double.computeRoiParams
          (Double.onGetSize { width := 400, height := 990 } (Double.initialState { width := 400, height := 990 }) 400 300)) =
      some (1153822224532321 / 4503599627370496) := by
    rw [k0, Double.roiParams_some _ _ rfl]
    simp only [Option.map_some', kq, kf, kr]
  have ks : (specProject 200 400 195
      { displayWidth := 400, displayHeight := 300, offsetX := 0, offsetY := 250 }).roi_x_percent =
        2563 / 10000 := by
    have hc : specClamp (((200 : ℚ) - 195 / 2 - 0) / 400) 0 1 = 41 / 160 := by
      norm_num [specClamp]
    show specRound4 (specClamp (((200 : ℚ) - 195 / 2 - 0) / 400) 0 1) = 2563 / 10000
    rw [hc, ← toFixed4_eq_specRound4 _ (by norm_num),
      toFixed4_eq_of _ 2563 (by norm_num) (by norm_num) (by norm_num)]
    norm_num
  refine ⟨k0, kx, kr, ks, ?_⟩
  intro hcon
  rw [hcon, Option.map_some', ks] at kx
  norm_num at kx

/-- Over binary64: for a circle inside `[off, off + dim]` on one axis the
clamped position fraction, scaled back by `dim`, is the circle's near edge
`c - d / 2 - off` up to `(|off| + dim) / 2 ^ 49`. -/
theorem Double.position_fraction_near (off dim c d : ℚ) (hdim : 0 < dim) (hd0 : 0 ≤ d)
    (hlo : off ≤ c - d / 2) (hhi : c + d / 2 ≤ off + dim) :
    |max 0 (min 1
          (Binary64.div (Binary64.sub (Binary64.sub c (Binary64.div d 2)) off) dim)) * dim -
        (c - d / 2 - off)| ≤ (|off| + dim) / 2 ^ (49 : ℕ) := by
  have e1 : |Binary64.div d 2 - d / 2| ≤ |d / 2| / 2 ^ (53 : ℕ) := Binary64.rnd_error _
  have e2 : |Binary64.sub c (Binary64.div d 2) - (c - Binary64.div d 2)| ≤
      |c - Binary64.div d 2| / 2 ^ (53 : ℕ) := Binary64.rnd_error _
  have e3 : |Binary64.sub (Binary64.sub c (Binary64.div d 2)) off -
        (Binary64.sub c (Binary64.div d 2) - off)| ≤
      |Binary64.sub c (Binary64.div d 2) - off| / 2 ^ (53 : ℕ) := Binary64.rnd_error _
  have e4 : |Binary64.div (Binary64.sub (Binary64.sub c (Binary64.div d 2)) off) dim -
        Binary64.sub (Binary64.sub c (Binary64.div d 2)) off / dim| ≤
      |Binary64.sub (Binary64.sub c (Binary64.div d 2)) off / dim| / 2 ^ (53 : ℕ) :=
    Binary64.rnd_error _
  generalize Binary64.div (Binary64.sub (Binary64.sub c (Binary64.div d 2)) off) dim = q at e4 ⊢
  generalize Binary64.sub (Binary64.sub c (Binary64.div d 2)) off = b at e3 e4
  generalize Binary64.sub c (Binary64.div d 2) = a at e2 e3
  generalize Binary64.div d 2 = r at e1 e2
  rw [abs_of_nonneg (by linarith : (0 : ℚ) ≤ d / 2)] at e1
  have e4m : |q * dim - b| ≤ |b| / 2 ^ (53 : ℕ) := by
    have h1 : q * dim - b = (q - b / dim) * dim := by
      field_simp
    have h2 : |b / dim| = |b| / dim := by
      rw [abs_div, abs_of_pos hdim]
    rw [h1, abs_mul, abs_of_pos hdim]
    calc |q - b / dim| * dim ≤ |b / dim| / 2 ^ (53 : ℕ) * dim :=
          mul_le_mul_of_nonneg_right e4 hdim.le
      _ = |b| / 2 ^ (53 : ℕ) := by
          rw [h2]
          field_simp
          ring
  have a0 : 0 ≤ |off| := abs_nonneg _
  have ao1 : off ≤ |off| := le_abs_self _
  have ao2 : -off ≤ |off| := neg_le_abs _
  obtain ⟨e1l, e1u⟩ := abs_le.mp e1
  obtain ⟨e2l, e2u⟩ := abs_le.mp e2
  obtain ⟨e3l, e3u⟩ := abs_le.mp e3
  obtain ⟨e4l, e4u⟩ := abs_le.mp e4m
  have hcr : |c - r| ≤ 2 * (|off| + dim) := by
    rw [abs_le]
    constructor
    · norm_num at e1l e1u ⊢
      linarith
    · norm_num at e1l e1u ⊢
      linarith
  have hao : |a - off| ≤ 4 * (|off| + dim) := by
    rw [abs_le]
    constructor
    · norm_num at e2l e2u hcr ⊢
      linarith
    · norm_num at e2l e2u hcr ⊢
      linarith
  have hb : |b| ≤ 5 * (|off| + dim) := by
    rw [abs_le]
    constructor
    · norm_num at e3l e3u hao ⊢
      linarith
    · norm_num at e3l e3u hao ⊢
      linarith
  have hcr0 : 0 ≤ |c - r| := abs_nonneg _
  have hao0 : 0 ≤ |a - off| := abs_nonneg _
  have hb0 : 0 ≤ |b| := abs_nonneg _
  have hq : |q * dim - (c - d / 2 - off)| ≤ (|off| + dim) / 2 ^ (49 : ℕ) := by
    rw [abs_le]
    constructor
    · norm_num at e1l e1u e2l e2u e3l e3u e4l e4u ⊢
      linarith
    · norm_num at e1l e1u e2l e2u e3l e3u e4l e4u ⊢
      linarith
  obtain ⟨hql, hqu⟩ := abs_le.mp hq
  have htol : 0 ≤ (|off| + dim) / 2 ^ (49 : ℕ) := by positivity
  rw [abs_le]
  rcases le_total q 0 with h0 | h0
  · have hp : max 0 (min 1 q) = 0 := max_eq_left (le_trans (min_le_right _ _) h0)
    have hqd : q * dim ≤ 0 := mul_nonpos_of_nonpos_of_nonneg h0 hdim.le
    rw [hp]
    constructor <;> linarith
  · rcases le_total q 1 with h1 | h1
    · rw [min_eq_right h1, max_eq_right h0]
      exact ⟨hql, hqu⟩
    · have hqd : 1 * dim ≤ q * dim := mul_le_mul_of_nonneg_right h1 hdim.le
      rw [min_eq_left h1, max_eq_right (by norm_num : (0 : ℚ) ≤ 1)]
      constructor <;> linarith

/-- Over binary64: between the clamps the size fraction, scaled back by
`dim`, is the diameter up to the relative error `2 ^ (-53)`. -/
theorem Double.size_fraction_near (dim d : ℚ) (hdim : 0 < dim)
    (hlo : 5 / 100 * dim ≤ d) (hhi : d ≤ dim) :
    |max (Binary64.rnd (5 / 100)) (min 1 (Binary64.div d dim)) * dim - d| ≤
      d / 2 ^ (53 : ℕ) := by
  have hd0 : 0 ≤ d := le_trans (by positivity) hlo
  have e : |Binary64.div d dim - d / dim| ≤ |d / dim| / 2 ^ (53 : ℕ) := Binary64.rnd_error _
  have ec : Binary64.rnd (5 / 100) ≤ 5 / 100 * (1 + 1 / 2 ^ (53 : ℕ)) :=
    Binary64.rnd_le_of_nonneg _ (by norm_num)
  have hc1 := Double.lower_clamp_range.2
  generalize Binary64.div d dim = q at e ⊢
  generalize Binary64.rnd (5 / 100) = k at ec hc1 ⊢
  have em : |q * dim - d| ≤ d / 2 ^ (53 : ℕ) := by
    have h1 : q * dim - d = (q - d / dim) * dim := by
      field_simp
    rw [h1, abs_mul, abs_of_pos hdim]
    calc |q - d / dim| * dim ≤ |d / dim| / 2 ^ (53 : ℕ) * dim :=
          mul_le_mul_of_nonneg_right e hdim.le
      _ = d / 2 ^ (53 : ℕ) := by
          rw [abs_of_nonneg (div_nonneg hd0 hdim.le)]
          field_simp
          ring
  obtain ⟨el, eu⟩ := abs_le.mp em
  rw [abs_le]
  rcases le_total q 1 with h1 | h1
  · rw [min_eq_right h1]
    rcases le_total k q with hk | hk
    · rw [max_eq_right hk]
      exact ⟨el, eu⟩
    · rw [max_eq_left hk]
      have hkd : k * dim ≤ 5 / 100 * (1 + 1 / 2 ^ (53 : ℕ)) * dim :=
        mul_le_mul_of_nonneg_right ec hdim.le
      have hqk : q * dim ≤ k * dim := mul_le_mul_of_nonneg_right hk hdim.le
      constructor
      · linarith
      · norm_num at hkd ⊢
        linarith
  · rw [min_eq_left h1, max_eq_right hc1]
    have hqd : 1 * dim ≤ q * dim := mul_le_mul_of_nonneg_right h1 hdim.le
    constructor <;> linarith

/-- Over binary64: the returned size percentage is monotone in the
diameter. -/
theorem Double.returned_size_mono (dim d1 d2 : ℚ) (hdim : 0 < dim) (h : d1 ≤ d2) :
    Binary64.rnd (toFixed4 (max (Binary64.rnd (5 / 100)) (min 1 (Binary64.div d1 dim)))) ≤
      Binary64.rnd (toFixed4 (max (Binary64.rnd (5 / 100)) (min 1 (Binary64.div d2 dim)))) := by
  have hq : Binary64.div d1 dim ≤ Binary64.div d2 dim :=
    Binary64.rnd_mono (div_le_div_of_nonneg_right h hdim.le)
  exact Binary64.rnd_mono
    (toFixed4_mono _ _ (le_trans Double.lower_clamp_range.1 (le_max_left _ _))
      (max_le_max le_rfl (min_le_min le_rfl hq)))

/-- Over binary64: between the clamps, two diameters more than one rounding
step apart, `d1 + dim * (1 / 10000 + 2 ^ (-52)) ≤ d2`, give different
returned size percentages. -/
theorem Double.returned_size_strict (dim d1 d2 : ℚ) (hdim : 0 < dim)
    (hlo : 5 / 100 * dim ≤ d1) (hhi : d2 ≤ dim)
    (hstep : d1 + dim * (1 / 10000 + 1 / 2 ^ (52 : ℕ)) ≤ d2) :
    Binary64.rnd (toFixed4 (max (Binary64.rnd (5 / 100)) (min 1 (Binary64.div d1 dim)))) <
      Binary64.rnd (toFixed4 (max (Binary64.rnd (5 / 100)) (min 1 (Binary64.div d2 dim)))) := by
  have hd1 : 0 ≤ d1 := le_trans (by positivity) hlo
  have ht1 : 5 / 100 ≤ d1 / dim := (le_div_iff₀ hdim).mpr hlo
  have ht2 : d2 / dim ≤ 1 := (div_le_one hdim).mpr hhi
  have hts : d1 / dim + (1 / 10000 + 1 / 2 ^ (52 : ℕ)) ≤ d2 / dim := by
    rw [le_div_iff₀ hdim]
    have : (d1 / dim + (1 / 10000 + 1 / 2 ^ (52 : ℕ))) * dim =
        d1 + dim * (1 / 10000 + 1 / 2 ^ (52 : ℕ)) := by
      field_simp
      ring
    linarith
  have hk1 : Binary64.rnd (5 / 100) ≤ Binary64.div d1 dim := Binary64.rnd_mono ht1
  have hq21 : Binary64.div d2 dim ≤ 1 := by
    have := Binary64.rnd_mono ht2
    rwa [Binary64.rnd_one] at this
  have hu1 : Binary64.div d1 dim ≤ d1 / dim * (1 + 1 / 2 ^ (53 : ℕ)) :=
    Binary64.rnd_le_of_nonneg _ (by linarith)
  have hl2 : d2 / dim * (1 - 1 / 2 ^ (53 : ℕ)) ≤ Binary64.div d2 dim :=
    Binary64.rnd_ge_of_nonneg _ (by linarith)
  have hk0 := Double.lower_clamp_range.1
  generalize Binary64.div d1 dim = q1 at hk1 hu1 ⊢
  generalize Binary64.div d2 dim = q2 at hq21 hl2 ⊢
  generalize Binary64.rnd (5 / 100) = k at hk0 hk1 ⊢
  have hq : q1 + 1 / 10000 ≤ q2 := by
    norm_num at hu1 hl2 hts ⊢
    linarith
  have hq0 : 0 ≤ q1 := le_trans hk0 hk1
  rw [min_eq_right (by linarith : q1 ≤ 1), max_eq_right hk1, min_eq_right hq21,
    max_eq_right (by linarith : k ≤ q2)]
  have hlt := toFixed4_strict q1 q2 hq0 hq
  obtain ⟨n1, hn1⟩ := toFixed4_multiple q1
  obtain ⟨n2, hn2⟩ := toFixed4_multiple q2
  have hf0 : (0 : ℚ) ≤ toFixed4 q1 := by
    have := toFixed4_ge q1 0 hq0 (by simpa using hq0)
    simpa using this
  have hf1 : toFixed4 q2 ≤ 1 := by
    have := toFixed4_le q2 10000 (by linarith) (by norm_num; exact hq21)
    norm_num at this
    exact this
  have hgap : toFixed4 q1 + 1 / 10000 ≤ toFixed4 q2 := by
    rw [hn1, hn2] at hlt ⊢
    have hlt2 : (n1 : ℚ) < n2 := by linarith
    have hint : n1 + 1 ≤ n2 := by
      have : n1 < n2 := by exact_mod_cast hlt2
      omega
    have hc : ((n1 : ℚ) + 1) ≤ n2 := by exact_mod_cast hint
    have : (n1 : ℚ) / 10000 + 1 / 10000 = ((n1 : ℚ) + 1) / 10000 := by ring
    rw [this]
    exact div_le_div_of_nonneg_right hc (by norm_num)
  have hr1 : Binary64.rnd (toFixed4 q1) ≤ toFixed4 q1 * (1 + 1 / 2 ^ (53 : ℕ)) :=
    Binary64.rnd_le_of_nonneg _ hf0
  have hr2 : toFixed4 q2 * (1 - 1 / 2 ^ (53 : ℕ)) ≤ Binary64.rnd (toFixed4 q2) :=
    Binary64.rnd_ge_of_nonneg _ (by linarith)
  norm_num at hr1 hr2 hgap ⊢
  linarith

/-- C21 (as the code has it): for a layout of positive display dimensions
and a selection whose circle lies inside the layout rectangle, with a diameter
of at least `0.05 * max(displayWidth, displayHeight)`: in exact arithmetic no
clamp of the projector is active and, before rounding, `x_pct * displayWidth
= centerX - diameter / 2 - offsetX`, `y_pct * displayHeight = centerY -
diameter / 2 - offsetY`, `w_pct * displayWidth = diameter` and `h_pct *
displayHeight = diameter`; as the program evaluates the fractions in
binary64 the same four equalities hold up to rounding, the positions within
`(|offset| + display size) / 2 ^ 49` and the sizes within `diameter /
2 ^ 53`. -/
theorem projection_is_bounding_box_up_to_rounding (s : State) (L : Layout)
    (hw : 0 < L.displayWidth) (hh : 0 < L.displayHeight)
    (hin : CircleInside L s)
    (hd : 5 / 100 * max L.displayWidth L.displayHeight ≤ s.roiDiameter) :
    ((clampedRoi L s.roiCenter s.roiDiameter).roi_x_percent * L.displayWidth =
        s.roiCenter.x - s.roiDiameter / 2 - L.offsetX ∧
      (clampedRoi L s.roiCenter s.roiDiameter).roi_y_percent * L.displayHeight =
        s.roiCenter.y - s.roiDiameter / 2 - L.offsetY ∧
      (clampedRoi L s.roiCenter s.roiDiameter).roi_width_percent * L.displayWidth =
        s.roiDiameter ∧
      (clampedRoi L s.roiCenter s.roiDiameter).roi_height_percent * L.displayHeight =
        s.roiDiameter) ∧
    (|(Double.clampedRoi L s.roiCenter s.roiDiameter).roi_x_percent * L.displayWidth -
          (s.roiCenter.x - s.roiDiameter / 2 - L.offsetX)| ≤
        (|L.offsetX| + L.displayWidth) / 2 ^ (49 : ℕ) ∧
      |(Double.clampedRoi L s.roiCenter s.roiDiameter).roi_y_percent * L.displayHeight -
          (s.roiCenter.y - s.roiDiameter / 2 - L.offsetY)| ≤
        (|L.offsetY| + L.displayHeight) / 2 ^ (49 : ℕ) ∧
      |(Double.clampedRoi L s.roiCenter s.roiDiameter).roi_width_percent * L.displayWidth -
          s.roiDiameter| ≤ s.roiDiameter / 2 ^ (53 : ℕ) ∧
      |(Double.clampedRoi L s.roiCenter s.roiDiameter).roi_height_percent * L.displayHeight -
          s.roiDiameter| ≤ s.roiDiameter / 2 ^ (53 : ℕ)) := by
  obtain ⟨ex, ey, ew, eh⟩ := clampedRoi_unclamped L s hw hh hin hd
  obtain ⟨h1, h2, h3, h4⟩ := hin
  have hmw : L.displayWidth ≤ max L.displayWidth L.displayHeight := le_max_left _ _
  have hmh : L.displayHeight ≤ max L.displayWidth L.displayHeight := le_max_right _ _
  have hd0 : 0 ≤ s.roiDiameter := by linarith
  refine ⟨⟨?_, ?_, ?_, ?_⟩, ?_, ?_, ?_, ?_⟩
  · rw [ex, div_mul_cancel₀ _ hw.ne']
  · rw [ey, div_mul_cancel₀ _ hh.ne']
  · rw [ew, div_mul_cancel₀ _ hw.ne']
  · rw [eh, div_mul_cancel₀ _ hh.ne']
  · exact Double.position_fraction_near _ _ _ _ hw hd0 h1 h2
  · exact Double.position_fraction_near _ _ _ _ hh hd0 h3 h4
  · exact Double.size_fraction_near _ _ hw (by linarith) (by linarith)
  · exact Double.size_fraction_near _ _ hh (by linarith) (by linarith)

theorem projection_is_bounding_box_up_to_rounding_witness :
    (clampedRoi { displayWidth := 400, displayHeight := 300, offsetX := 0, offsetY := 250 }
        { x := 150, y := 400 } 200).roi_x_percent * 400 = 150 - 200 / 2 - 0 ∧
    |(Double.clampedRoi { displayWidth := 400, displayHeight := 300, offsetX := 0, offsetY := 250 }
          { x := 150, y := 400 } 200).roi_x_percent * 400 - (150 - 200 / 2 - 0)| ≤
      (|(0 : ℚ)| + 400) / 2 ^ (49 : ℕ) ∧
    |(Double.clampedRoi { displayWidth := 400, displayHeight := 300, offsetX := 0, offsetY := 250 }
          { x := 150, y := 400 } 200).roi_width_percent * 400 - 200| ≤
      200 / 2 ^ (53 : ℕ) :=
  ⟨(projection_is_bounding_box_up_to_rounding
      { imageLayout :=
            some { displayWidth := 400, displayHeight := 300, offsetX := 0, offsetY := 250 },
        roiCenter := { x := 150, y := 400 }, roiDiameter := 200,
        dragStart := { x := 0, y := 0 }, resizeStart := 0 }
      { displayWidth := 400, displayHeight := 300, offsetX := 0, offsetY := 250 }
      (by norm_num) (by norm_num) (by norm_num [CircleInside]) (by norm_num)).1.1,
   (projection_is_bounding_box_up_to_rounding
      { imageLayout :=
            some { displayWidth := 400, displayHeight := 300, offsetX := 0, offsetY := 250 },
        roiCenter := { x := 150, y := 400 }, roiDiameter := 200,
        dragStart := { x := 0, y := 0 }, resizeStart := 0 }
      { displayWidth := 400, displayHeight := 300, offsetX := 0, offsetY := 250 }
      (by norm_num) (by norm_num) (by norm_num [CircleInside]) (by norm_num)).2.1,
   (projection_is_bounding_box_up_to_rounding
      { imageLayout :=
            some { displayWidth := 400, displayHeight := 300, offsetX := 0, offsetY := 250 },
        roiCenter := { x := 150, y := 400 }, roiDiameter := 200,
        dragStart := { x := 0, y := 0 }, resizeStart := 0 }
      { displayWidth := 400, displayHeight := 300, offsetX := 0, offsetY := 250 }
      (by norm_num) (by norm_num) (by norm_num [CircleInside]) (by norm_num)).2.2.2.1⟩

/-- C21 fails as stated: on the layout 400 x 300 at offset (0, 250) the
default selection, centre (200, 400) and diameter 195, lies inside the layout
rectangle and its diameter is at least `0.05 * 400`. The program computes the
unrounded `x_pct` in binary64 as the nearest double of `102.5 / 400`, which is
not `102.5 / 400`: `x_pct * displayWidth` differs from `centerX - diameter / 2
- offsetX = 102.5`, and the binary64 product is 102.49999999999999. -/
theorem bounding_box_equation_fails_binary64 :
    CircleInside { displayWidth := 400, displayHeight := 300, offsetX := 0, offsetY := 250 }
      { imageLayout :=
            some { displayWidth := 400, displayHeight := 300, offsetX := 0, offsetY := 250 },
        roiCenter := { x := 200, y := 400 }, roiDiameter := 195,
        dragStart := { x := 0, y := 0 }, resizeStart := 0 } ∧
    5 / 100 * max (400 : ℚ) 300 ≤ 195 ∧
    (Double.clampedRoi { displayWidth := 400, displayHeight := 300, offsetX := 0, offsetY := 250 }
      { x := 200, y := 400 } 195).roi_x_percent = 2308094809027379 / 9007199254740992 ∧
    (Double.clampedRoi { displayWidth := 400, displayHeight := 300, offsetX := 0, offsetY := 250 }
      { x := 200, y := 400 } 195).roi_x_percent * 400 ≠ 200 - 195 / 2 - 0 ∧
    Binary64.mul (Double.clampedRoi { displayWidth := 400, displayHeight := 300, offsetX := 0, offsetY := 250 }
      { x := 200, y := 400 } 195).roi_x_percent 400 = 7212796278210559 / 70368744177664 ∧
    (7212796278210559 / 70368744177664 : ℚ) < 200 - 195 / 2 - 0 := by
  have h1 : Binary64.rnd (195 / 2) = 195 / 2 := by
    rw [Binary64.rnd_eq_pos _ 6 6860952557322240 (by norm_num) (by norm_num) (by norm_num)
      (by norm_num)]
    norm_num
  have h2 : Binary64.rnd (205 / 2) = 205 / 2 := by
    rw [Binary64.rnd_eq_pos _ 6 7212796278210560 (by norm_num) (by norm_num) (by norm_num)
      (by norm_num)]
    norm_num
  have h3 : Binary64.rnd (41 / 160) = 2308094809027379 / 9007199254740992 := by
    rw [Binary64.rnd_eq_pos _ (-2) 4616189618054758 (by norm_num) (by norm_num) (by norm_num)
      (by norm_num)]
    norm_num
  have hp1 : Binary64.rnd (57702370225684475 / 562949953421312) = 7212796278210559 / 70368744177664 := by
    rw [Binary64.rnd_eq_pos _ 6 7212796278210559 (by norm_num) (by norm_num) (by norm_num)
      (by norm_num)]
    norm_num
  have kq : (Double.clampedRoi { displayWidth := 400, displayHeight := 300, offsetX := 0, offsetY := 250 }
      { x := 200, y := 400 } 195).roi_x_percent = 2308094809027379 / 9007199254740992 := by
    simp only [Double.clampedRoi, Binary64.div, Binary64.mul, Binary64.sub, Binary64.add]
    norm_num [h1, h2, h3, Binary64.rnd_zero]
  rw [kq]
  refine ⟨by norm_num [CircleInside], by norm_num, rfl, by norm_num, ?_, by norm_num⟩
  simp only [Binary64.mul]
  norm_num [hp1]

/-- C9 (as the code has it): on a layout of positive display width and
height, with the centre fixed, a larger diameter never gives a smaller
returned `roi_width_percent` or `roi_height_percent`; the returned values
increase strictly while neither clamp is active (`0.05 * dim <= d1` and `d2
<= dim`) and the diameters are more than one rounding step apart, `d1 + dim *
(1 / 10000 + 2 ^ (-52)) <= d2`. The values are those the program computes in
binary64. -/
theorem roi_size_monotone_binary64 (L : Layout) (roiCenter dragStart : Point)
    (resizeStart d1 d2 : ℚ)
    (hw : 0 < L.displayWidth) (hh : 0 < L.displayHeight) (h12 : d1 < d2) :
    ∃ p1 p2 : RoiParams,
      Double.computeRoiParams
        { imageLayout := some L, roiCenter := roiCenter, roiDiameter := d1,
          dragStart := dragStart, resizeStart := resizeStart } = some p1 ∧
      Double.computeRoiParams
        { imageLayout := some L, roiCenter := roiCenter, roiDiameter := d2,
          dragStart := dragStart, resizeStart := resizeStart } = some p2 ∧
      p1.roi_width_percent ≤ p2.roi_width_percent ∧
      p1.roi_height_percent ≤ p2.roi_height_percent ∧
      (5 / 100 * L.displayWidth ≤ d1 → d2 ≤ L.displayWidth →
        d1 + L.displayWidth * (1 / 10000 + 1 / 2 ^ (52 : ℕ)) ≤ d2 →
        p1.roi_width_percent < p2.roi_width_percent) ∧
      (5 / 100 * L.displayHeight ≤ d1 → d2 ≤ L.displayHeight →
        d1 + L.displayHeight * (1 / 10000 + 1 / 2 ^ (52 : ℕ)) ≤ d2 →
        p1.roi_height_percent < p2.roi_height_percent) :=
  ⟨_, _, Double.roiParams_some _ L rfl, Double.roiParams_some _ L rfl,
    Double.returned_size_mono _ d1 d2 hw h12.le,
    Double.returned_size_mono _ d1 d2 hh h12.le,
    fun hlo hhi hstep => Double.returned_size_strict _ d1 d2 hw hlo hhi hstep,
    fun hlo hhi hstep => Double.returned_size_strict _ d1 d2 hh hlo hhi hstep⟩

theorem roi_size_monotone_binary64_witness :
    ∃ p1 p2 : RoiParams,
      Double.computeRoiParams
        { imageLayout :=
              some { displayWidth := 400, displayHeight := 300, offsetX := 0, offsetY := 250 },
          roiCenter := { x := 200, y := 400 }, roiDiameter := 100,
          dragStart := { x := 0, y := 0 }, resizeStart := 0 } = some p1 ∧
      Double.computeRoiParams
        { imageLayout :=
              some { displayWidth := 400, displayHeight := 300, offsetX := 0, offsetY := 250 },
          roiCenter := { x := 200, y := 400 }, roiDiameter := 200,
          dragStart := { x := 0, y := 0 }, resizeStart := 0 } = some p2 ∧
      p1.roi_width_percent < p2.roi_width_percent ∧
      p1.roi_height_percent < p2.roi_height_percent := by
  obtain ⟨p1, p2, h1, h2, _, _, hsw, hsh⟩ :=
    roi_size_monotone_binary64
      { displayWidth := 400, displayHeight := 300, offsetX := 0, offsetY := 250 }
      { x := 200, y := 400 } { x := 0, y := 0 } 0 100 200
      (by norm_num) (by norm_num) (by norm_num)
  exact ⟨p1, p2, h1, h2,
    hsw (by norm_num) (by norm_num) (by norm_num),
    hsh (by norm_num) (by norm_num) (by norm_num)⟩

/-- C9 fails as stated: on the 400 x 300 layout the diameters 10 < 15 both
return the width 0.05 (lower clamp), and on a 625 x 625 layout the diameters
100.15625 < 100.21875, exactly one rounding step `625 / 10000` apart, both
return the width 0.1603 (the binary64 quotients are 0.16025000000000000355
and 0.16034999999999999365), although `d2 / displayWidth <= 1` in both
cases. -/
theorem roi_width_not_strictly_monotone_binary64 :
    ((10 : ℚ) < 15 ∧ (15 : ℚ) / 400 ≤ 1 ∧
      Option.map RoiParams.roi_width_percent
          (Double.computeRoiParams
            { imageLayout :=
                  some { displayWidth := 400, displayHeight := 300, offsetX := 0, offsetY := 250 },
              roiCenter := { x := 200, y := 400 }, roiDiameter := 10,
              dragStart := { x := 0, y := 0 }, resizeStart := 0 }) =
        some (3602879701896397 / 72057594037927936) ∧
      Option.map RoiParams.roi_width_percent
          (Double.computeRoiParams
            { imageLayout :=
                  some { displayWidth := 400, displayHeight := 300, offsetX := 0, offsetY := 250 },
              roiCenter := { x := 200, y := 400 }, roiDiameter := 15,
              dragStart := { x := 0, y := 0 }, resizeStart := 0 }) =
        some (3602879701896397 / 72057594037927936)) ∧
    ((3205 / 32 : ℚ) < 3207 / 32 ∧ (3207 / 32 : ℚ) / 625 ≤ 1 ∧
      (3207 / 32 : ℚ) - 3205 / 32 = 625 / 10000 ∧
      Option.map RoiParams.roi_width_percent
          (Double.computeRoiParams
            { imageLayout :=
                  some { displayWidth := 625, displayHeight := 625, offsetX := 0, offsetY := 0 },
              roiCenter := { x := 625 / 2, y := 625 / 2 }, roiDiameter := 3205 / 32,
              dragStart := { x := 0, y := 0 }, resizeStart := 0 }) =
        some (1443854040534981 / 9007199254740992) ∧
      Option.map RoiParams.roi_width_percent
          (Double.computeRoiParams
            { imageLayout :=
                  some { displayWidth := 625, displayHeight := 625, offsetX := 0, offsetY := 0 },
              roiCenter := { x := 625 / 2, y := 625 / 2 }, roiDiameter := 3207 / 32,
              dragStart := { x := 0, y := 0 }, resizeStart := 0 }) =
        some (1443854040534981 / 9007199254740992)) := by
  have ha1 : Binary64.rnd (1 / 20) = 3602879701896397 / 72057594037927936 := by
    rw [Binary64.rnd_eq_pos _ (-5) 7205759403792794 (by norm_num) (by norm_num) (by norm_num)
      (by norm_num)]
    norm_num
  have ha2 : Binary64.rnd (1 / 40) = 3602879701896397 / 144115188075855872 := by
    rw [Binary64.rnd_eq_pos _ (-6) 7205759403792794 (by norm_num) (by norm_num) (by norm_num)
      (by norm_num)]
    norm_num
  have kfa : toFixed4 (3602879701896397 / 72057594037927936) = 500 / 10000 := by
    rw [toFixed4_eq_of _ 500 (by norm_num) (by norm_num) (by norm_num)]
    norm_num
  have ka : Option.map RoiParams.roi_width_percent
        (Double.computeRoiParams
          { imageLayout :=
                some { displayWidth := 400, displayHeight := 300, offsetX := 0, offsetY := 250 },
            roiCenter := { x := 200, y := 400 }, roiDiameter := 10,
            dragStart := { x := 0, y := 0 }, resizeStart := 0 }) =
      some (3602879701896397 / 72057594037927936) := by
    rw [Double.roiParams_some _ _ rfl]
    have kq : (Double.clampedRoi { displayWidth := 400, displayHeight := 300, offsetX := 0, offsetY := 250 }
        { x := 200, y := 400 } (10)).roi_width_percent = 3602879701896397 / 72057594037927936 := by
      simp only [Double.clampedRoi, Binary64.div, Binary64.mul, Binary64.sub, Binary64.add]
      norm_num [ha1, ha2]
    have kr : Binary64.rnd (500 / 10000) = 3602879701896397 / 72057594037927936 := by
      norm_num [ha1, ha2]
    simp only [Option.map_some', kq, kfa, kr]
  have hb1 : Binary64.rnd (1 / 20) = 3602879701896397 / 72057594037927936 := by
    rw [Binary64.rnd_eq_pos _ (-5) 7205759403792794 (by norm_num) (by norm_num) (by norm_num)
      (by norm_num)]
    norm_num
  have hb2 : Binary64.rnd (3 / 80) = 5404319552844595 / 144115188075855872 := by
    rw [Binary64.rnd_eq_pos _ (-5) 5404319552844595 (by norm_num) (by norm_num) (by norm_num)
      (by norm_num)]
    norm_num
  have kfb : toFixed4 (3602879701896397 / 72057594037927936) = 500 / 10000 := by
    rw [toFixed4_eq_of _ 500 (by norm_num) (by norm_num) (by norm_num)]
    norm_num
  have kb : Option.map RoiParams.roi_width_percent
        (Double.computeRoiParams
          { imageLayout :=
                some { displayWidth := 400, displayHeight := 300, offsetX := 0, offsetY := 250 },
            roiCenter := { x := 200, y := 400 }, roiDiameter := 15,
            dragStart := { x := 0, y := 0 }, resizeStart := 0 }) =
      some (3602879701896397 / 72057594037927936) := by
    rw [Double.roiParams_some _ _ rfl]
    have kq : (Double.clampedRoi { displayWidth := 400, displayHeight := 300, offsetX := 0, offsetY := 250 }
        { x := 200, y := 400 } (15)).roi_width_percent = 3602879701896397 / 72057594037927936 := by
      simp only [Double.clampedRoi, Binary64.div, Binary64.mul, Binary64.sub, Binary64.add]
      norm_num [hb1, hb2]
    have kr : Binary64.rnd (500 / 10000) = 3602879701896397 / 72057594037927936 := by
      norm_num [hb1, hb2]
    simp only [Option.map_some', kq, kfb, kr]
  have hc1 : Binary64.rnd (1 / 20) = 3602879701896397 / 72057594037927936 := by
    rw [Binary64.rnd_eq_pos _ (-5) 7205759403792794 (by norm_num) (by norm_num) (by norm_num)
      (by norm_num)]
    norm_num
  have hc2 : Binary64.rnd (641 / 4000) = 360850920143061 / 2251799813685248 := by
    rw [Binary64.rnd_eq_pos _ (-3) 5773614722288976 (by norm_num) (by norm_num) (by norm_num)
      (by norm_num)]
    norm_num
  have hc3 : Binary64.rnd (1603 / 10000) = 1443854040534981 / 9007199254740992 := by
    rw [Binary64.rnd_eq_pos _ (-3) 5775416162139924 (by norm_num) (by norm_num) (by norm_num)
      (by norm_num)]
    norm_num
  have kfc : toFixed4 (360850920143061 / 2251799813685248) = 1603 / 10000 := by
    rw [toFixed4_eq_of _ 1603 (by norm_num) (by norm_num) (by norm_num)]
    norm_num
  have kc : Option.map RoiParams.roi_width_percent
        (Double.computeRoiParams
          { imageLayout :=
                some { displayWidth := 625, displayHeight := 625, offsetX := 0, offsetY := 0 },
            roiCenter := { x := 625 / 2, y := 625 / 2 }, roiDiameter := 3205 / 32,
            dragStart := { x := 0, y := 0 }, resizeStart := 0 }) =
      some (1443854040534981 / 9007199254740992) := by
    rw [Double.roiParams_some _ _ rfl]
    have kq : (Double.clampedRoi { displayWidth := 625, displayHeight := 625, offsetX := 0, offsetY := 0 }
        { x := 625 / 2, y := 625 / 2 } (3205 / 32)).roi_width_percent = 360850920143061 / 2251799813685248 := by
      simp only [Double.clampedRoi, Binary64.div, Binary64.mul, Binary64.sub, Binary64.add]
      norm_num [hc1, hc2, hc3]
    have kr : Binary64.rnd (1603 / 10000) = 1443854040534981 / 9007199254740992 := by
      norm_num [hc1, hc2, hc3]
    simp only [Option.map_some', kq, kfc, kr]
  have hd1 : Binary64.rnd (1 / 20) = 3602879701896397 / 72057594037927936 := by
    rw [Binary64.rnd_eq_pos _ (-5) 7205759403792794 (by norm_num) (by norm_num) (by norm_num)
      (by norm_num)]
    norm_num
  have hd2 : Binary64.rnd (3207 / 20000) = 722152200248859 / 4503599627370496 := by
    rw [Binary64.rnd_eq_pos _ (-3) 5777217601990872 (by norm_num) (by norm_num) (by norm_num)
      (by norm_num)]
    norm_num
  have hd3 : Binary64.rnd (1603 / 10000) = 1443854040534981 / 9007199254740992 := by
    rw [Binary64.rnd_eq_pos _ (-3) 5775416162139924 (by norm_num) (by norm_num) (by norm_num)
      (by norm_num)]
    norm_num
  have kfd : toFixed4 (722152200248859 / 4503599627370496) = 1603 / 10000 := by
    rw [toFixed4_eq_of _ 1603 (by norm_num) (by norm_num) (by norm_num)]
    norm_num
  have kd : Option.map RoiParams.roi_width_percent
        (Double.computeRoiParams
          { imageLayout :=
                some { displayWidth := 625, displayHeight := 625, offsetX := 0, offsetY := 0 },
            roiCenter := { x := 625 / 2, y := 625 / 2 }, roiDiameter := 3207 / 32,
            dragStart := { x := 0, y := 0 }, resizeStart := 0 }) =
      some (1443854040534981 / 9007199254740992) := by
    rw [Double.roiParams_some _ _ rfl]
    have kq : (Double.clampedRoi { displayWidth := 625, displayHeight := 625, offsetX := 0, offsetY := 0 }
        { x := 625 / 2, y := 625 / 2 } (3207 / 32)).roi_width_percent = 722152200248859 / 4503599627370496 := by
      simp only [Double.clampedRoi, Binary64.div, Binary64.mul, Binary64.sub, Binary64.add]
      norm_num [hd1, hd2, hd3]
    have kr : Binary64.rnd (1603 / 10000) = 1443854040534981 / 9007199254740992 := by
      norm_num [hd1, hd2, hd3]
    simp only [Option.map_some', kq, kfd, kr]
  exact ⟨⟨by norm_num, by norm_num, ka, kb⟩, by norm_num, by norm_num, by norm_num, kc, kd⟩

end ImagePreviewScreen

namespace Api

open ImagePreviewScreen

theorem encodeURIComponent_keys :
    encodeURIComponent "roi_x_percent" = "roi_x_percent" ∧
    encodeURIComponent "roi_y_percent" = "roi_y_percent" ∧
    encodeURIComponent "roi_width_percent" = "roi_width_percent" ∧
    encodeURIComponent "roi_height_percent" = "roi_height_percent" := by
  decide

/-- The query string of a parameter object: the four `key=value` pairs in
the order x, y, width, height, joined by `&`. -/
theorem toQueryString_eq (numberToString : ℚ → String) (p : RoiParams) :
    toQueryString numberToString p =
      "roi_x_percent=" ++ encodeURIComponent (numberToString p.roi_x_percent) ++
      "&roi_y_percent=" ++ encodeURIComponent (numberToString p.roi_y_percent) ++
      "&roi_width_percent=" ++ encodeURIComponent (numberToString p.roi_width_percent) ++
      "&roi_height_percent=" ++ encodeURIComponent (numberToString p.roi_height_percent) := by
  obtain ⟨h1, h2, h3, h4⟩ := encodeURIComponent_keys
  simp only [toQueryString, entries, String.intercalate, String.intercalate.go, List.map,
    h1, h2, h3, h4]
  apply String.ext
  simp only [String.data_append, List.append_assoc]
  rfl

/-- C18: the request parameters of `analyzeBottle` are the hardcoded default
rectangle when `roiParams` is `null` (`0.175, 0.175, 0.65, 0.65` in the Main
prototype, `0.25, 0.25, 0.5, 0.5` in the Rapid prototype) and the caller's
parameter object, unchanged, otherwise; the query string lists the four
fields in the order x, y, width, height as `key=value` pairs joined by `&`. -/
theorem analyzeBottle_params (numberToString : ℚ → String) :
    Main.params none =
      { roi_x_percent := 175 / 1000, roi_y_percent := 175 / 1000,
        roi_width_percent := 65 / 100, roi_height_percent := 65 / 100 } ∧
    Rapid.params none =
      { roi_x_percent := 25 / 100, roi_y_percent := 25 / 100,
        roi_width_percent := 5 / 10, roi_height_percent := 5 / 10 } ∧
    (∀ p : RoiParams, Main.params (some p) = p ∧ Rapid.params (some p) = p) ∧
    (∀ s : State,
      Main.params (computeRoiParams s) = (computeRoiParams s).getD (Main.params none) ∧
      Rapid.params (computeRoiParams s) = (computeRoiParams s).getD (Rapid.params none)) ∧
    (∀ p : RoiParams,
      Main.queryString numberToString (some p) =
        "roi_x_percent=" ++ encodeURIComponent (numberToString p.roi_x_percent) ++
        "&roi_y_percent=" ++ encodeURIComponent (numberToString p.roi_y_percent) ++
        "&roi_width_percent=" ++ encodeURIComponent (numberToString p.roi_width_percent) ++
        "&roi_height_percent=" ++ encodeURIComponent (numberToString p.roi_height_percent) ∧
      Rapid.queryString numberToString (some p) =
        Main.queryString numberToString (some p)) ∧
    Main.queryString numberToString none =
      "roi_x_percent=" ++ encodeURIComponent (numberToString (175 / 1000)) ++
      "&roi_y_percent=" ++ encodeURIComponent (numberToString (175 / 1000)) ++
      "&roi_width_percent=" ++ encodeURIComponent (numberToString (65 / 100)) ++
      "&roi_height_percent=" ++ encodeURIComponent (numberToString (65 / 100)) ∧
    Rapid.queryString numberToString none =
      "roi_x_percent=" ++ encodeURIComponent (numberToString (25 / 100)) ++
      "&roi_y_percent=" ++ encodeURIComponent (numberToString (25 / 100)) ++
      "&roi_width_percent=" ++ encodeURIComponent (numberToString (5 / 10)) ++
      "&roi_height_percent=" ++ encodeURIComponent (numberToString (5 / 10)) := by
  refine ⟨rfl, rfl, fun p => ⟨rfl, rfl⟩, ?_, fun p => ⟨?_, rfl⟩, ?_, ?_⟩
  · intro s
    cases computeRoiParams s with
    | none => exact ⟨rfl, rfl⟩
    | some p => exact ⟨rfl, rfl⟩
  · exact toQueryString_eq numberToString p
  · exact toQueryString_eq numberToString _
  · exact toQueryString_eq numberToString _

end Api

namespace SettingsScreen

/-- C19 fails on the code: for the input `https:///` the check passes (a
character follows `https://`), the trailing slashes are removed after the
check, and `handleSave` persists `https:`, which does not begin with
`https://`; `handleTest`, which removes the slashes before the check,
rejects the same input.  In general `handleSave` persists the trimmed input
without its trailing slashes when the check passes and nothing otherwise. -/
theorem handleSave_persists_non_https :
    isValidHttps (trim "https:///") = true ∧
    handleSave "https:///" = some "https:" ∧
    startsWithHttps "https:" = false ∧
    handleTest "https:///" = none ∧
    (∀ url : String,
      handleSave url =
        if isValidHttps (trim url) then some (stripTrailingSlashes (trim url)) else none) := by
  refine ⟨by decide, by decide, by decide, by decide, ?_⟩
  intro url
  cases h : isValidHttps (trim url) <;> simp [handleSave, h]

theorem endsWithSlash_stripTrailingSlashes (t : String) :
    endsWithSlash (stripTrailingSlashes t) = false := by
  unfold endsWithSlash stripTrailingSlashes
  have h := List.head?_dropWhile_not (fun c => c == '/') t.data.reverse
  rw [List.getLast?_reverse]
  cases hd : (List.dropWhile (fun c => c == '/') t.data.reverse).head? with
  | none => rfl
  | some c =>
    rw [hd] at h
    have hc : (c == '/') = false := h
    have hne : c ≠ '/' := by
      intro hcon
      rw [hcon] at hc
      exact absurd hc (by decide)
    simp [hne]

theorem stripTrailingSlashes_of_not_endsWithSlash (t : String)
    (h : endsWithSlash t = false) : stripTrailingSlashes t = t := by
  unfold endsWithSlash at h
  unfold stripTrailingSlashes
  have hrev : List.dropWhile (fun c => c == '/') t.data.reverse = t.data.reverse := by
    cases hr : t.data.reverse with
    | nil => rfl
    | cons c rest =>
      have hl : t.data.getLast? = some c := by
        rw [← List.head?_reverse, hr]
        rfl
      rw [hl] at h
      have hne : (c == '/') = false := by
        cases hc : (c == '/') with
        | false => rfl
        | true =>
          have : c = '/' := by simpa using hc
          rw [this] at h
          exact absurd h (by decide)
      simp [List.dropWhile, hne]
  rw [hrev, List.reverse_reverse]

/-- C23: for every input that passes the https check, `handleSave` persists
the trimmed input without its trailing slashes: the persisted URL does not
end with a slash, and it is the trimmed input itself when that has no
trailing slash. -/
theorem handleSave_strips_trailing_slashes (url : String)
    (h : isValidHttps (trim url) = true) :
    ∃ saved : String, handleSave url = some saved ∧
      saved = stripTrailingSlashes (trim url) ∧
      endsWithSlash saved = false ∧
      (endsWithSlash (trim url) = false → saved = trim url) := by
  refine ⟨stripTrailingSlashes (trim url), ?_, rfl,
    endsWithSlash_stripTrailingSlashes _, ?_⟩
  · simp [handleSave, h]
  · intro hno
    exact stripTrailingSlashes_of_not_endsWithSlash _ hno

theorem handleSave_strips_trailing_slashes_witness :
    (∃ saved : String, handleSave " https://example.org/api// " = some saved ∧
      saved = stripTrailingSlashes (trim " https://example.org/api// ") ∧
      endsWithSlash saved = false) ∧
    handleSave " https://example.org/api// " = some "https://example.org/api" ∧
    (∃ saved : String, handleSave "https://example.org" = some saved ∧
      saved = trim "https://example.org") := by
  obtain ⟨a, ha, hb, hc, _⟩ :=
    handleSave_strips_trailing_slashes " https://example.org/api// " (by decide)
  obtain ⟨b, hb1, _, _, hb4⟩ :=
    handleSave_strips_trailing_slashes "https://example.org" (by decide)
  exact ⟨⟨a, ha, hb, hc⟩, by decide, ⟨b, hb1, hb4 (by decide)⟩⟩

end SettingsScreen
